import Mathlib

/-!
# VulkanCube: the GPU resource and frame-synchronisation core

A shallow embedding of `vulkan_renderer.h` (and the frame loop of `main.cpp`).

Conventions of the embedding:

* Vulkan handles, flags, sizes and host addresses are natural numbers; the null
  handle and the null pointer are `0`.  A `VkResult` is an integer, `VK_SUCCESS`
  being `0`.
* What the driver answers to a call (result codes, handles, reported
  properties) is not computed by the program: every function takes the answers
  it consumes as an explicit argument.
* The observable effects of the program are collected in a `World`: the host
  address space (one byte per address), the operations issued so far in order,
  and the lines written to `std::cerr`.
* The macros `VK_CHECK` and `VK_CHECK_FATAL` name their argument twice, and the
  argument is the call itself: a call whose first result is not `VK_SUCCESS` is made
  a second time.  The answers therefore carry a second result for every call under
  one of the macros.  An output parameter is written by a call that succeeds.
* The last members of `VkContext`, the arrays `scImages[5]`, `scImgViews[5]` and
  `framebuffers[5]` and the `int graphicsIdx`, lie one after the other in memory in
  the order of their declaration, a handle taking eight bytes, low byte first.  An
  access past the end of one of the arrays reaches the members that follow.
* Single-precision floating point constants are carried as their IEEE-754 bit
  patterns.
-/

namespace VulkanCube

/-! ## Constants -/

/-- Macro `INVALID_IDX`, defined as `UINT32_MAX`. -/
def INVALID_IDX : Nat := 4294967295

/-- Largest 64-bit unsigned value, the "no timeout" argument. -/
def UINT64_MAX : Nat := 18446744073709551615

/-- Result code of a call that succeeded. -/
def VK_SUCCESS : Int := 0

def VK_MEMORY_PROPERTY_DEVICE_LOCAL_BIT : Nat := 1
def VK_MEMORY_PROPERTY_HOST_VISIBLE_BIT : Nat := 2
def VK_MEMORY_PROPERTY_HOST_COHERENT_BIT : Nat := 4

def VK_QUEUE_GRAPHICS_BIT : Nat := 1

def VK_PIPELINE_STAGE_COLOR_ATTACHMENT_OUTPUT_BIT : Nat := 1024
def VK_COMMAND_BUFFER_USAGE_ONE_TIME_SUBMIT_BIT : Nat := 1
def VK_SUBPASS_CONTENTS_INLINE : Nat := 0
def VK_PIPELINE_BIND_POINT_GRAPHICS : Nat := 0
def VK_INDEX_TYPE_UINT32 : Nat := 1
/-- Value `VK_TRUE` of a `VkBool32`. -/
def VK_TRUE : Nat := 1

def VK_API_VERSION_1_0 : Nat := 4194304
def VK_FORMAT_B8G8R8A8_SRGB : Nat := 50
def VK_FORMAT_R32G32B32_SFLOAT : Nat := 106
def VK_IMAGE_USAGE_COLOR_ATTACHMENT_BIT : Nat := 16
def VK_COMPOSITE_ALPHA_OPAQUE_BIT_KHR : Nat := 1
def VK_PRESENT_MODE_FIFO_KHR : Nat := 2
def VK_IMAGE_VIEW_TYPE_2D : Nat := 1
def VK_IMAGE_ASPECT_COLOR_BIT : Nat := 1
def VK_ATTACHMENT_LOAD_OP_CLEAR : Nat := 1
def VK_ATTACHMENT_STORE_OP_STORE : Nat := 0
def VK_SAMPLE_COUNT_1_BIT : Nat := 1
def VK_IMAGE_LAYOUT_UNDEFINED : Nat := 0
def VK_IMAGE_LAYOUT_COLOR_ATTACHMENT_OPTIMAL : Nat := 2
def VK_IMAGE_LAYOUT_PRESENT_SRC_KHR : Nat := 1000001002
def VK_COMMAND_POOL_CREATE_RESET_COMMAND_BUFFER_BIT : Nat := 2
def VK_COMMAND_BUFFER_LEVEL_PRIMARY : Nat := 0
def VK_FENCE_CREATE_SIGNALED_BIT : Nat := 1
def VK_DESCRIPTOR_TYPE_UNIFORM_BUFFER : Nat := 6
def VK_DESCRIPTOR_TYPE_STORAGE_BUFFER : Nat := 7
def VK_SHADER_STAGE_VERTEX_BIT : Nat := 1
def VK_SHADER_STAGE_FRAGMENT_BIT : Nat := 16
def VK_VERTEX_INPUT_RATE_VERTEX : Nat := 0
def VK_PRIMITIVE_TOPOLOGY_TRIANGLE_LIST : Nat := 3
def VK_CULL_MODE_FRONT_BIT : Nat := 1
def VK_FRONT_FACE_COUNTER_CLOCKWISE : Nat := 0
def VK_POLYGON_MODE_FILL : Nat := 0
def VK_DYNAMIC_STATE_VIEWPORT : Nat := 0
def VK_DYNAMIC_STATE_SCISSOR : Nat := 1
def VK_BUFFER_USAGE_INDEX_BUFFER_BIT : Nat := 64
def VK_BUFFER_USAGE_UNIFORM_BUFFER_BIT : Nat := 16
def VK_BUFFER_USAGE_VERTEX_BUFFER_BIT : Nat := 128
def VK_COLOR_COMPONENT_R_BIT : Nat := 1
def VK_COLOR_COMPONENT_G_BIT : Nat := 2
def VK_COLOR_COMPONENT_B_BIT : Nat := 4
def VK_COLOR_COMPONENT_A_BIT : Nat := 8

/-- Size in bytes of a `float`, and of a `GLfloat`. -/
def sizeof_float : Nat := 4
/-- Size in bytes of a `GLuint`. -/
def sizeof_GLuint : Nat := 4
/-- Size in bytes of a `glm::vec3` (three floats). -/
def sizeof_vec3 : Nat := 3 * sizeof_float
/-- Size in bytes of the struct `VertexColor` (`position` then `color`). -/
def sizeof_VertexColor : Nat := 2 * sizeof_vec3
/-- Offset of the member `position` in `VertexColor`. -/
def offsetof_VertexColor_position : Nat := 0
/-- Offset of the member `color` in `VertexColor`. -/
def offsetof_VertexColor_color : Nat := sizeof_vec3

/-- Global `SCREEN_WIDTH` of `main.cpp`. -/
def SCREEN_WIDTH : Nat := 800
/-- Global `SCREEN_HEIGHT` of `main.cpp`. -/
def SCREEN_HEIGHT : Nat := 800

/-- Size in bytes of a `glm::mat4` (sixteen 32-bit floats). -/
def sizeof_mat4 : Nat := 64

/-- Number of entries of the global `indices` array of `main.cpp`. -/
def indices_size : Nat := 36

/-! ## Data model -/

/-- One entry of the memory-type table of a physical device. -/
structure VkMemoryType where
  propertyFlags : Nat
  heapIndex : Nat
  deriving DecidableEq, Repr

/-- The memory-type table a physical device reports: `memoryTypeCount` entries
of the fixed array `memoryTypes` (32 slots in the Vulkan headers) are valid. -/
structure VkPhysicalDeviceMemoryProperties where
  memoryTypeCount : Nat
  memoryTypes : List VkMemoryType
  deriving DecidableEq, Repr

structure VkMemoryRequirements where
  size : Nat
  alignment : Nat
  memoryTypeBits : Nat
  deriving DecidableEq, Repr

/-- The struct `Buffer`: device buffer handle, backing memory handle, declared
size in bytes and the host pointer of the mapping (`0` when not mapped). -/
structure Buffer where
  buffer : Nat
  memory : Nat
  size : Nat
  data : Nat
  deriving DecidableEq, Repr

/-- A line written to `std::cerr`. -/
inductive LogLine where
  /-- "Vulkan Error Code: " followed by the result code. -/
  | vulkanErrorCode (result : Int)
  /-- "Failed to find proper type Index for Memory Properties: " and the flags. -/
  | noMemoryTypeIndex (memProps : Nat)
  /-- "Buffer too small: " buffer size " for data: " data size. -/
  | bufferTooSmall (bufferSize dataSize : Nat)
  /-- "Failed to compile Shader: " and the input file. -/
  | failedToCompileShader (input : String)
  /-- "failed to create window surface!" -/
  | failedToCreateWindowSurface
  deriving DecidableEq, Repr

/-- The struct `VkSubmitInfo` as filled in by the frame loop. -/
structure VkSubmitInfo where
  waitSemaphores : List Nat
  waitDstStageMask : List Nat
  commandBuffers : List Nat
  signalSemaphores : List Nat
  deriving DecidableEq, Repr

/-- The struct `VkPresentInfoKHR` as filled in by the frame loop. -/
structure VkPresentInfoKHR where
  waitSemaphores : List Nat
  swapchains : List Nat
  imageIndices : List Nat
  deriving DecidableEq, Repr

/-- The struct `VkViewport`; the six floats are IEEE-754 bit patterns. -/
structure VkViewport where
  x : Nat
  y : Nat
  width : Nat
  height : Nat
  minDepth : Nat
  maxDepth : Nat
  deriving DecidableEq, Repr

/-- The struct `VkRect2D`. -/
structure VkRect2D where
  offsetX : Int
  offsetY : Int
  extentWidth : Nat
  extentHeight : Nat
  deriving DecidableEq, Repr

/-- The struct `VkSwapchainCreateInfoKHR`; members the program leaves out are
zero. -/
structure VkSwapchainCreateInfoKHR where
  surface : Nat
  minImageCount : Nat
  imageFormat : Nat
  imageColorSpace : Nat
  imageExtentWidth : Nat
  imageExtentHeight : Nat
  imageArrayLayers : Nat
  imageUsage : Nat
  preTransform : Nat
  compositeAlpha : Nat
  presentMode : Nat
  deriving DecidableEq, Repr

/-- The struct `VkImageViewCreateInfo`.  The image is read from an array of the
context: `none` stands for a subscript past the end of that array. -/
structure VkImageViewCreateInfo where
  image : Option Nat
  viewType : Nat
  format : Nat
  aspectMask : Nat
  levelCount : Nat
  layerCount : Nat
  deriving DecidableEq, Repr

structure VkAttachmentDescription where
  format : Nat
  samples : Nat
  loadOp : Nat
  storeOp : Nat
  initialLayout : Nat
  finalLayout : Nat
  deriving DecidableEq, Repr

structure VkAttachmentReference where
  attachment : Nat
  layout : Nat
  deriving DecidableEq, Repr

/-- The struct `VkRenderPassCreateInfo` with its single subpass, whose colour
attachment references are `colorAttachments`. -/
structure VkRenderPassCreateInfo where
  attachments : List VkAttachmentDescription
  subpassCount : Nat
  colorAttachments : List VkAttachmentReference
  deriving DecidableEq, Repr

/-- The struct `VkFramebufferCreateInfo`.  An attachment is read from an array of
the context: `none` stands for a subscript past the end of that array. -/
structure VkFramebufferCreateInfo where
  renderPass : Nat
  attachments : List (Option Nat)
  width : Nat
  height : Nat
  layers : Nat
  deriving DecidableEq, Repr

structure VkCommandBufferAllocateInfo where
  commandPool : Nat
  level : Nat
  commandBufferCount : Nat
  deriving DecidableEq, Repr

structure VkFenceCreateInfo where
  flags : Nat
  deriving DecidableEq, Repr

structure VkDescriptorSetLayoutBinding where
  binding : Nat
  descriptorType : Nat
  descriptorCount : Nat
  stageFlags : Nat
  deriving DecidableEq, Repr

structure VkDescriptorPoolSize where
  type : Nat
  descriptorCount : Nat
  deriving DecidableEq, Repr

structure VkDescriptorBufferInfo where
  buffer : Nat
  offset : Nat
  range : Nat
  deriving DecidableEq, Repr

structure VkWriteDescriptorSet where
  dstSet : Nat
  dstBinding : Nat
  dstArrayElement : Nat
  descriptorCount : Nat
  descriptorType : Nat
  bufferInfo : List VkDescriptorBufferInfo
  deriving DecidableEq, Repr

structure VkVertexInputBindingDescription where
  binding : Nat
  stride : Nat
  inputRate : Nat
  deriving DecidableEq, Repr

structure VkVertexInputAttributeDescription where
  location : Nat
  binding : Nat
  format : Nat
  offset : Nat
  deriving DecidableEq, Repr

structure VkPipelineShaderStageCreateInfo where
  stage : Nat
  module : Nat
  pName : String
  deriving DecidableEq, Repr

/-- The struct `VkGraphicsPipelineCreateInfo` with the state structs it points
to, flattened; floats are IEEE-754 bit patterns. -/
structure VkGraphicsPipelineCreateInfo where
  stages : List VkPipelineShaderStageCreateInfo
  vertexBindingDescriptions : List VkVertexInputBindingDescription
  vertexAttributeDescriptions : List VkVertexInputAttributeDescription
  topology : Nat
  viewports : List VkViewport
  scissors : List VkRect2D
  cullMode : Nat
  frontFace : Nat
  polygonMode : Nat
  lineWidth : Nat
  rasterizationSamples : Nat
  blendEnable : Nat
  colorWriteMask : Nat
  dynamicStates : List Nat
  layout : Nat
  renderPass : Nat
  deriving DecidableEq, Repr

/-- An operation that only `init_vulkan` issues, with the arguments it was
given. -/
inductive InitOp where
  | compile_shader (input output : String)
  | glfwGetRequiredInstanceExtensions
  | vkCreateInstance (apiVersion : Nat) (extensions layers : List String)
  | glfwCreateWindowSurface (vkInstance window : Nat)
  | vkCreateDevice (gpu : Nat) (queueFamilyIndex : Int) (queueCount : Nat)
      (queuePriorities : List Nat) (extensions : List String)
  | vkGetDeviceQueue (device : Nat) (queueFamilyIndex : Int) (queueIndex : Nat)
  | vkGetPhysicalDeviceSurfaceFormatsKHR (gpu surface : Nat) (countOnly : Bool)
  | vkGetPhysicalDeviceSurfaceCapabilitiesKHR (gpu surface : Nat)
  | vkCreateSwapchainKHR (device : Nat) (info : VkSwapchainCreateInfoKHR)
  | vkGetSwapchainImagesKHR (device swapchain : Nat) (countOnly : Bool)
  | vkCreateImageView (device : Nat) (info : VkImageViewCreateInfo)
  | vkCreateRenderPass (device : Nat) (info : VkRenderPassCreateInfo)
  | vkCreateFramebuffer (device : Nat) (info : VkFramebufferCreateInfo)
  | vkCreateCommandPool (device : Nat) (queueFamilyIndex : Int) (flags : Nat)
  | vkAllocateCommandBuffers (device : Nat) (info : VkCommandBufferAllocateInfo)
  | vkCreateSemaphore (device : Nat)
  | vkCreateFence (device : Nat) (info : VkFenceCreateInfo)
  | vkCreateDescriptorSetLayout (device : Nat) (bindings : List VkDescriptorSetLayoutBinding)
  | vkCreatePipelineLayout (device : Nat) (setLayouts : List Nat)
  | read_file (filename : String)
  | vkCreateShaderModule (device codeSize : Nat)
  | vkCreateGraphicsPipelines (device : Nat) (infos : List VkGraphicsPipelineCreateInfo)
  | vkDestroyShaderModule (device shaderModule : Nat)
  | vkCreateDescriptorPool (device maxSets : Nat) (poolSizes : List VkDescriptorPoolSize)
  | vkAllocateDescriptorSets (device descriptorPool : Nat) (setLayouts : List Nat)
  | vkUpdateDescriptorSets (device : Nat) (writes : List VkWriteDescriptorSet)
  deriving DecidableEq, Repr

/-- An operation issued by the renderer, with the arguments it was given. -/
inductive Op where
  | vkGetPhysicalDeviceMemoryProperties (gpu : Nat)
  | vkCreateBuffer (device usage size : Nat)
  | vkGetBufferMemoryRequirements (device buffer : Nat)
  | vkAllocateMemory (device allocationSize memoryTypeIndex : Nat)
  | vkMapMemory (device memory offset size flags : Nat)
  | vkBindBufferMemory (device buffer memory memoryOffset : Nat)
  | vk_copy_to_buffer (buffer : Buffer) (data size : Nat)
  | vkEnumeratePhysicalDevices (vkInstance : Nat) (countOnly : Bool)
  | vkGetPhysicalDeviceQueueFamilyProperties (gpu : Nat) (countOnly : Bool)
  | vkGetPhysicalDeviceSurfaceSupportKHR (gpu queueFamilyIndex surface : Nat)
  | vkWaitForFences (device : Nat) (fences : List Nat) (waitAll timeout : Nat)
  | vkResetFences (device : Nat) (fences : List Nat)
  | vkAcquireNextImageKHR (device swapchain timeout semaphore fence : Nat)
  | vkResetCommandBuffer (cmd flags : Nat)
  | vkBeginCommandBuffer (cmd flags : Nat)
  | vkCmdBeginRenderPass (cmd renderPass : Nat) (framebuffer : Option Nat)
      (renderArea : VkRect2D) (clearColor : List Nat) (contents : Nat)
  | vkCmdSetViewport (cmd firstViewport : Nat) (viewports : List VkViewport)
  | vkCmdSetScissor (cmd firstScissor : Nat) (scissors : List VkRect2D)
  | vkCmdBindPipeline (cmd bindPoint pipeline : Nat)
  | vkCmdBindVertexBuffers (cmd firstBinding : Nat) (buffers offsets : List Nat)
  | vkCmdBindIndexBuffer (cmd buffer offset indexType : Nat)
  | vkCmdBindDescriptorSets (cmd bindPoint layout firstSet : Nat) (sets : List Nat)
      (dynamicOffsets : List Nat)
  | vkCmdDrawIndexed (cmd indexCount instanceCount firstIndex : Nat) (vertexOffset : Int)
      (firstInstance : Nat)
  | vkCmdEndRenderPass (cmd : Nat)
  | vkEndCommandBuffer (cmd : Nat)
  | vkQueueSubmit (queue : Nat) (submits : List VkSubmitInfo) (fence : Nat)
  | vkQueuePresentKHR (queue : Nat) (presentInfo : VkPresentInfoKHR)
  /-- An operation only `init_vulkan` issues. -/
  | init (op : InitOp)
  deriving DecidableEq, Repr

/-- Everything the program can change outside its own variables. -/
structure World where
  /-- Host address space, one byte per address. -/
  mem : Nat → Nat
  /-- Operations issued so far, oldest first. -/
  trace : List Op
  /-- Lines written to `std::cerr`, oldest first. -/
  cerr : List LogLine

/-- Record that an operation was issued. -/
def World.issue (w : World) (op : Op) : World :=
  { w with trace := w.trace ++ [op] }

/-- Write one line to `std::cerr`. -/
def World.log (w : World) (l : LogLine) : World :=
  { w with cerr := w.cerr ++ [l] }

/-- Macro `VK_CHECK`, applied to a call:
`if (call != VK_SUCCESS) { std::cerr << "Vulkan Error Code: " << call << std::endl; }`.
The macro names its argument twice, so a call that does not return `VK_SUCCESS` is
made a second time, and what is logged is the result of that second call.  `op` is
the call, `result` what it returns and `again` what it returns the second time.
Execution continues either way. -/
def VK_CHECK (op : Op) (result again : Int) (w : World) : World :=
  let w := w.issue op
  if result ≠ VK_SUCCESS then (w.issue op).log (.vulkanErrorCode again) else w

/-- Whether a call under `VK_CHECK` or `VK_CHECK_FATAL` has succeeded at one of the
times it was made, so that the driver has written its output parameter. -/
def outputWritten (result again : Int) : Bool :=
  result == VK_SUCCESS || again == VK_SUCCESS

/-- The library routine `memcpy dst src n` on the host address space.  The source
bytes are those held before the call (C leaves overlapping copies undefined). -/
def memcpy (dst src n : Nat) (mem : Nat → Nat) : Nat → Nat :=
  fun a => if dst ≤ a ∧ a < dst + n then mem (src + (a - dst)) else mem a

/-! ## Memory/Buffer allocator -/

/-- The test in the body of the loop of `vk_get_memory_type_index` for index `i`:
`memRequirements.memoryTypeBits & (1 << i) && (propertyFlags & memProps) == memProps`.
The `int` value `1 << i` is converted to 32-bit unsigned for the `&`. -/
def memoryTypeMatches (gpuMemProps : VkPhysicalDeviceMemoryProperties)
    (memRequirements : VkMemoryRequirements) (memProps : Nat) (i : Nat) : Bool :=
  (memRequirements.memoryTypeBits &&& ((1 <<< i) % 2 ^ 32) != 0) &&
    (((gpuMemProps.memoryTypes.getD i ⟨0, 0⟩).propertyFlags &&& memProps) == memProps)

/-- The `for` loop of `vk_get_memory_type_index`, entered at index `i` with
`remaining = memoryTypeCount - i` iterations left.  The result is `typeIdx` after
the loop: the index at which the loop broke, or the initial `INVALID_IDX`. -/
def vk_get_memory_type_index_loop (gpuMemProps : VkPhysicalDeviceMemoryProperties)
    (memRequirements : VkMemoryRequirements) (memProps : Nat) : Nat → Nat → Nat
  | 0, _ => INVALID_IDX
  | remaining + 1, i =>
    if memoryTypeMatches gpuMemProps memRequirements memProps i then i
    else vk_get_memory_type_index_loop gpuMemProps memRequirements memProps remaining (i + 1)

/-- Function `vk_get_memory_type_index`.  `gpuMemProps` is what
`vkGetPhysicalDeviceMemoryProperties` reports for `gpu`.  Returns `typeIdx`. -/
def vk_get_memory_type_index (gpu : Nat) (gpuMemProps : VkPhysicalDeviceMemoryProperties)
    (memRequirements : VkMemoryRequirements) (memProps : Nat) (w : World) : Nat × World :=
  let w := w.issue (.vkGetPhysicalDeviceMemoryProperties gpu)
  let typeIdx := vk_get_memory_type_index_loop gpuMemProps memRequirements memProps
    gpuMemProps.memoryTypeCount 0
  let w := if typeIdx = INVALID_IDX then w.log (.noMemoryTypeIndex memProps) else w
  (typeIdx, w)

/-- What the driver answers during one call of `vk_allocate_buffer`.  An output
parameter (a handle, the mapped address) is written by the driver only when the
call succeeds; otherwise the variable keeps the value it had.  For a call under
`VK_CHECK` the field ending in `Again` is the result of the second time the macro
makes the call, which happens when the first result is not `VK_SUCCESS`; the handle
is the one written by whichever of the two succeeds. -/
structure AllocAnswers where
  /-- Result of `vkCreateBuffer` and the handle it creates. -/
  createBuffer : Int
  bufferHandle : Nat
  /-- Output of `vkGetBufferMemoryRequirements`. -/
  memRequirements : VkMemoryRequirements
  /-- Output of `vkGetPhysicalDeviceMemoryProperties`. -/
  gpuMemProps : VkPhysicalDeviceMemoryProperties
  /-- Result of `vkAllocateMemory` and the handle it creates. -/
  allocateMemory : Int
  memoryHandle : Nat
  /-- Result of `vkMapMemory` and the host address of the mapping. -/
  mapMemory : Int
  mappedAddress : Nat
  /-- Result of `vkBindBufferMemory`. -/
  bindBufferMemory : Int
  createBufferAgain : Int
  allocateMemoryAgain : Int
  mapMemoryAgain : Int
  bindBufferMemoryAgain : Int

/-- Function `vk_allocate_buffer`. -/
def vk_allocate_buffer (device gpu size bufferUsage memProps : Nat) (drv : AllocAnswers)
    (w : World) : Buffer × World :=
  -- Buffer buffer = {}; buffer.size = size;
  let buffer : Buffer := { buffer := 0, memory := 0, size := size, data := 0 }
  -- VK_CHECK(vkCreateBuffer(device, &bufferInfo, 0, &buffer.buffer));
  let w := VK_CHECK (.vkCreateBuffer device bufferUsage size) drv.createBuffer
    drv.createBufferAgain w
  let buffer :=
    if outputWritten drv.createBuffer drv.createBufferAgain then
      { buffer with buffer := drv.bufferHandle }
    else buffer
  -- vkGetBufferMemoryRequirements(device, buffer.buffer, &memRequirements);
  let w := w.issue (.vkGetBufferMemoryRequirements device buffer.buffer)
  let memRequirements := drv.memRequirements
  -- allocInfo.memoryTypeIndex = vk_get_memory_type_index(gpu, memRequirements, memProps);
  let r := vk_get_memory_type_index gpu drv.gpuMemProps memRequirements memProps w
  let memoryTypeIndex := r.1
  let w := r.2
  -- VK_CHECK(vkAllocateMemory(device, &allocInfo, 0, &buffer.memory));
  let w := VK_CHECK (.vkAllocateMemory device memRequirements.size memoryTypeIndex)
    drv.allocateMemory drv.allocateMemoryAgain w
  let buffer :=
    if outputWritten drv.allocateMemory drv.allocateMemoryAgain then
      { buffer with memory := drv.memoryHandle }
    else buffer
  -- Only map memory we can actually write to from the CPU
  let r :=
    if memProps &&& VK_MEMORY_PROPERTY_HOST_VISIBLE_BIT ≠ 0 then
      -- VK_CHECK(vkMapMemory(device, buffer.memory, 0, memRequirements.size, 0, &buffer.data));
      let w := VK_CHECK (.vkMapMemory device buffer.memory 0 memRequirements.size 0)
        drv.mapMemory drv.mapMemoryAgain w
      let buffer :=
        if outputWritten drv.mapMemory drv.mapMemoryAgain then
          { buffer with data := drv.mappedAddress }
        else buffer
      (buffer, w)
    else (buffer, w)
  let buffer := r.1
  let w := r.2
  -- VK_CHECK(vkBindBufferMemory(device, buffer.buffer, buffer.memory, 0));
  let w := VK_CHECK (.vkBindBufferMemory device buffer.buffer buffer.memory 0)
    drv.bindBufferMemory drv.bindBufferMemoryAgain w
  (buffer, w)

/-- Function `vk_copy_to_buffer`.  The `Buffer` is passed by pointer, so the
function returns the `Buffer` as it is after the call; `data` is the address of
the source bytes.  The call itself is recorded in the trace. -/
def vk_copy_to_buffer (buffer : Buffer) (data size : Nat) (w : World) : Buffer × World :=
  let w := w.issue (.vk_copy_to_buffer buffer data size)
  if buffer.size ≥ size then
    -- If we have mapped data
    if buffer.data ≠ 0 then
      (buffer, { w with mem := memcpy buffer.data data size w.mem })
    else
      -- TODO: Implement GPU Only buffers
      (buffer, w)
  else
    (buffer, w.log (.bufferTooSmall buffer.size size))

/-! ## Graphics context -/

structure VkSurfaceFormatKHR where
  format : Nat
  colorSpace : Nat
  deriving DecidableEq, Repr

/-- The struct `VkContext` (the process-wide `vkcontext`).  The field `instance`
is spelled `instance_`. -/
structure VkContext where
  instance_ : Nat
  debugMessenger : Nat
  surface : Nat
  surfaceFormat : VkSurfaceFormatKHR
  gpu : Nat
  device : Nat
  graphicsQueue : Nat
  swapchain : Nat
  renderPass : Nat
  commandPool : Nat
  cmd : Nat
  descPool : Nat
  setLayout : Nat
  descSet : Nat
  pipeLayout : Nat
  pipeline : Nat
  globalUBO : Buffer
  vertexBuffer : Buffer
  indexBuffer : Buffer
  aquireSemaphore : Nat
  submitSemaphore : Nat
  imgAvailableFence : Nat
  scImgCount : Nat
  /-- The arrays `scImages[5]`, `scImgViews[5]` and `framebuffers[5]`, five entries
  each. -/
  scImages : List Nat
  scImgViews : List Nat
  framebuffers : List Nat
  graphicsIdx : Int
  /-- The four bytes that pad the struct after `graphicsIdx`, as a number. -/
  padding : Nat
  /-- The memory that follows the object `vkcontext`, in slots of eight bytes, as far
  as the program has stored into it; `none` is a slot whose content is not known. -/
  beyond : List (Option Nat)
  deriving DecidableEq, Repr

/-- The last members of `VkContext`: `scImages[5]`, `scImgViews[5]`, `framebuffers[5]`
and `graphicsIdx`, with the padding and the memory after the object.  They lie one
after the other in memory, a handle taking eight bytes and `graphicsIdx` four, low
byte first, so that an index past the end of one array reaches the members that
follow: `scImages[5]` is `scImgViews[0]`, `scImgViews[5]` is `framebuffers[0]`, and
`framebuffers[5]` is `graphicsIdx` with its padding. -/
structure ContextTail where
  scImages : List Nat
  scImgViews : List Nat
  framebuffers : List Nat
  graphicsIdx : Int
  padding : Nat
  beyond : List (Option Nat)
  deriving DecidableEq, Repr

/-- The last members of the context. -/
def VkContext.tail (ctx : VkContext) : ContextTail :=
  { scImages := ctx.scImages, scImgViews := ctx.scImgViews, framebuffers := ctx.framebuffers,
    graphicsIdx := ctx.graphicsIdx, padding := ctx.padding, beyond := ctx.beyond }

/-- The context with its last members replaced. -/
def VkContext.withTail (ctx : VkContext) (t : ContextTail) : VkContext :=
  { ctx with scImages := t.scImages, scImgViews := t.scImgViews,
             framebuffers := t.framebuffers, graphicsIdx := t.graphicsIdx,
             padding := t.padding, beyond := t.beyond }

/-- The `int` with the 32-bit pattern `n % 2 ^ 32`. -/
def toInt32 (n : Nat) : Int :=
  if n % 2 ^ 32 < 2 ^ 31 then (n % 2 ^ 32 : Nat) else ((n % 2 ^ 32 : Nat) : Int) - 2 ^ 32

/-- The eight bytes of slot `k`, counted in handles from `scImages[0]`: slots 0 to 4
are `scImages`, 5 to 9 `scImgViews`, 10 to 14 `framebuffers`, slot 15 is `graphicsIdx`
with the padding, and the slots from 16 on lie after the object. -/
def ContextTail.slot (t : ContextTail) (k : Nat) : Option Nat :=
  if k < 5 then t.scImages[k]?
  else if k < 10 then t.scImgViews[k - 5]?
  else if k < 15 then t.framebuffers[k - 10]?
  else if k = 15 then some ((t.graphicsIdx % 2 ^ 32).toNat + 2 ^ 32 * t.padding)
  else (t.beyond[k - 16]?).getD none

/-- A store of the handle `v` to slot `k`. -/
def ContextTail.setSlot (t : ContextTail) (k v : Nat) : ContextTail :=
  if k < 5 then { t with scImages := t.scImages.set k v }
  else if k < 10 then { t with scImgViews := t.scImgViews.set (k - 5) v }
  else if k < 15 then { t with framebuffers := t.framebuffers.set (k - 10) v }
  else if k = 15 then { t with graphicsIdx := toInt32 v, padding := v / 2 ^ 32 }
  else
    { t with
      beyond :=
        (t.beyond ++ List.replicate (k - 16 + 1 - t.beyond.length) none).set (k - 16)
          (some v) }

/-- Stores of the handles `values` to the slots from `k` on. -/
def ContextTail.setSlots (t : ContextTail) : Nat → List Nat → ContextTail
  | _, [] => t
  | k, v :: rest => (t.setSlot k v).setSlots (k + 1) rest

/-- What a read of `scImages[k]` (slot `k`), of `scImgViews[k]` (slot `5 + k`) or of
`framebuffers[k]` (slot `10 + k`) finds. -/
def VkContext.slot (ctx : VkContext) (k : Nat) : Option Nat :=
  ctx.tail.slot k

/-- A store to `scImages[k]` (slot `k`), to `scImgViews[k]` (slot `5 + k`) or to
`framebuffers[k]` (slot `10 + k`). -/
def VkContext.setSlot (ctx : VkContext) (k v : Nat) : VkContext :=
  ctx.withTail (ctx.tail.setSlot k v)

/-! ## Device/surface selection -/

/-- One queue family as reported by the driver, with the answer
`vkGetPhysicalDeviceSurfaceSupportKHR` gives for it. -/
structure QueueFamilyAnswer where
  queueFlags : Nat
  surfaceSupportResult : Int
  /-- The `VkBool32` written to `surfaceSupport` when the query succeeds. -/
  surfaceSupport : Nat
  /-- Result of the second time `VK_CHECK_FATAL` makes the query, which happens when
  the first result is not `VK_SUCCESS`. -/
  surfaceSupportResultAgain : Int
  deriving DecidableEq, Repr

/-- One enumerated physical device: its handle and its queue families. -/
structure PhysicalDeviceAnswer where
  gpu : Nat
  queueProps : List QueueFamilyAnswer
  deriving DecidableEq, Repr

/-- What the driver answers during the "Choose GPU" block of `init_vulkan`.  The
local arrays `gpus[10]` and `queueProps[10]` are represented by the lists the driver
reports; their fixed capacity is not part of this block's model. -/
structure ChooseGpuAnswers where
  /-- Result of the counting call of `vkEnumeratePhysicalDevices`. -/
  enumerateCount : Int
  /-- Result of the filling call of `vkEnumeratePhysicalDevices`. -/
  enumerateFill : Int
  /-- The devices written to `gpus`, in enumeration order. -/
  gpus : List PhysicalDeviceAnswer
  /-- Results of the second time `VK_CHECK_FATAL` makes the counting and the filling
  call, which happens when the first result is not `VK_SUCCESS`. -/
  enumerateCountAgain : Int
  enumerateFillAgain : Int
  deriving DecidableEq, Repr

/-- How control leaves a block of `init_vulkan`. -/
inductive Flow where
  /-- Control reaches the statement after the block. -/
  | next (ctx : VkContext) (w : World)
  /-- The function `init_vulkan` returned `value`. -/
  | returned (value : Bool) (ctx : VkContext) (w : World)
  /-- The process stopped inside the block (`__debugbreak`, or an exception nobody
  catches): `init_vulkan` never returns. -/
  | halted (ctx : VkContext) (w : World)

/-- The context a block leaves behind. -/
def Flow.ctx : Flow → VkContext
  | .next ctx _ => ctx
  | .returned _ ctx _ => ctx
  | .halted ctx _ => ctx

/-- The world a block leaves behind. -/
def Flow.world : Flow → World
  | .next _ w => w
  | .returned _ _ w => w
  | .halted _ w => w

/-- The value `init_vulkan` returned inside the block, if it did return. -/
def Flow.returnedValue : Flow → Option Bool
  | .next _ _ => none
  | .returned v _ _ => some v
  | .halted _ _ => none

/-- Sequencing of blocks: the block `k` runs when control falls through `f`. -/
def Flow.andThen (f : Flow) (k : VkContext → World → Flow) : Flow :=
  match f with
  | .next ctx w => k ctx w
  | .returned v ctx w => .returned v ctx w
  | .halted ctx w => .halted ctx w

/-- Macro `VK_CHECK_FATAL`, applied to a call:
`if (call != VK_SUCCESS) { std::cerr << "Vulkan Error Code: " << call << std::endl; return false; }`.
Like `VK_CHECK` the macro names its argument twice: a call that does not return
`VK_SUCCESS` is made a second time, the result of that second call is logged, and
`init_vulkan` returns `false`, also when the second call succeeded.  `op` is the
call, `result` what it returns, `again` what it returns the second time, and `store`
what the call writes to `vkcontext` through its output parameter when it succeeds. -/
def VK_CHECK_FATAL (op : Op) (result again : Int) (store : VkContext → VkContext)
    (ctx : VkContext) (w : World) : Flow :=
  let w := w.issue op
  if result ≠ VK_SUCCESS then
    let w := w.issue op
    .returned false (if again = VK_SUCCESS then store ctx else ctx)
      (w.log (.vulkanErrorCode again))
  else .next (store ctx) w

/-- The inner loop `for (j = 0; j < queueFamilyCount; j++)` of the "Choose GPU"
block, entered at index `j` with the families from `j` on still to visit. -/
def choose_gpu_families (gpu : Nat) : List QueueFamilyAnswer → Nat → VkContext → World → Flow
  | [], _, ctx, w => .next ctx w
  | q :: rest, j, ctx, w =>
    if q.queueFlags &&& VK_QUEUE_GRAPHICS_BIT ≠ 0 then
      (VK_CHECK_FATAL (.vkGetPhysicalDeviceSurfaceSupportKHR gpu j ctx.surface)
        q.surfaceSupportResult q.surfaceSupportResultAgain id ctx w).andThen fun ctx w =>
      if q.surfaceSupport ≠ 0 then
        -- graphicsIdx = j; gpu = gpu; break;
        .next { ctx with graphicsIdx := j, gpu := gpu } w
      else choose_gpu_families gpu rest (j + 1) ctx w
    else choose_gpu_families gpu rest (j + 1) ctx w

/-- The outer loop `for (i = 0; i < gpuCount; i++)` of the "Choose GPU" block over
the devices still to visit. -/
def choose_gpu_devices : List PhysicalDeviceAnswer → VkContext → World → Flow
  | [], ctx, w => .next ctx w
  | d :: rest, ctx, w =>
    let w := w.issue (.vkGetPhysicalDeviceQueueFamilyProperties d.gpu true)
    let w := w.issue (.vkGetPhysicalDeviceQueueFamilyProperties d.gpu false)
    (choose_gpu_families d.gpu d.queueProps 0 ctx w).andThen fun ctx w =>
    choose_gpu_devices rest ctx w

/-- The "Choose GPU" block of `init_vulkan`. -/
def init_vulkan_choose_gpu (drv : ChooseGpuAnswers) (ctx : VkContext) (w : World) : Flow :=
  let ctx := { ctx with graphicsIdx := -1 }
  (VK_CHECK_FATAL (.vkEnumeratePhysicalDevices ctx.instance_ true) drv.enumerateCount
    drv.enumerateCountAgain id ctx w).andThen fun ctx w =>
  (VK_CHECK_FATAL (.vkEnumeratePhysicalDevices ctx.instance_ false) drv.enumerateFill
    drv.enumerateFillAgain id ctx w).andThen fun ctx w =>
  (choose_gpu_devices drv.gpus ctx w).andThen fun ctx w =>
  if ctx.graphicsIdx < 0 then .returned false ctx w else .next ctx w

/-! ## Scene data -/

/-- Global `vertices` of `main.cpp`: per vertex three floats of position and three
floats of colour.  Every literal is exactly representable as a float. -/
def vertices : List ℚ :=
  [-0.5, 0.5, 0.5,    -- vertex 0: position
   1.0, 0.0, 1.0,     -- vertex 0: colour
   -0.5, -0.5, 0.5,   -- vertex 1: position
   1.0, 0.0, 0.0,     -- vertex 1: colour
   0.5, 0.5, 0.5,     -- vertex 2: position
   1.0, 1.0, 1.0,     -- vertex 2: colour
   0.5, -0.5, 0.5,    -- vertex 3: position
   1.0, 1.0, 0.0,     -- vertex 3: colour
   -0.5, 0.5, -0.5,   -- vertex 4: position
   0.0, 0.0, 1.0,     -- vertex 4: colour
   -0.5, -0.5, -0.5,  -- vertex 5: position
   0.0, 0.0, 0.0,     -- vertex 5: colour
   0.5, 0.5, -0.5,    -- vertex 6: position
   0.0, 1.0, 1.0,     -- vertex 6: colour
   0.5, -0.5, -0.5,   -- vertex 7: position
   0.0, 1.0, 0.0]     -- vertex 7: colour

/-- Global `indices` of `main.cpp`. -/
def indices : List Nat :=
  [0, 1, 2,  -- triangle 1
   2, 1, 3,  -- triangle 2
   4, 5, 0,  -- triangle 3
   0, 5, 1,  -- triangle 4
   2, 3, 6,  -- triangle 5
   6, 3, 7,  -- triangle 6
   4, 0, 6,  -- triangle 7
   6, 0, 2,  -- triangle 8
   1, 5, 3,  -- triangle 9
   3, 5, 7,  -- triangle 10
   5, 4, 7,  -- triangle 11
   7, 4, 6]  -- triangle 12

/-! ## Initialisation -/

structure VkSurfaceCapabilitiesKHR where
  minImageCount : Nat
  maxImageCount : Nat
  currentExtentWidth : Nat
  currentExtentHeight : Nat
  currentTransform : Nat
  deriving DecidableEq, Repr

/-- What the environment answers during one call of `init_vulkan`, in the order of
the calls.  A handle is the one the driver creates when the call succeeds.  For a
call under `VK_CHECK_FATAL` the field ending in `Again` is the result of the second
time the macro makes the call, which happens when the first result is not
`VK_SUCCESS`. -/
structure InitAnswers where
  /-- Exit status of `system` for the vertex and for the fragment shader. -/
  compileVert : Int
  compileFrag : Int
  /-- The names `glfwGetRequiredInstanceExtensions` returns. -/
  glfwExtensions : List String
  createInstance : Int
  createInstanceAgain : Int
  instanceHandle : Nat
  createWindowSurface : Int
  surfaceHandle : Nat
  chooseGpu : ChooseGpuAnswers
  createDevice : Int
  createDeviceAgain : Int
  deviceHandle : Nat
  /-- The queue `vkGetDeviceQueue` hands out. -/
  graphicsQueueHandle : Nat
  /-- Results of the counting and of the filling call of
  `vkGetPhysicalDeviceSurfaceFormatsKHR`, and the formats written to
  `surfaceFormats`. -/
  surfaceFormatsCount : Int
  surfaceFormatsCountAgain : Int
  surfaceFormatsFill : Int
  surfaceFormatsFillAgain : Int
  surfaceFormats : List VkSurfaceFormatKHR
  surfaceCapabilities : Int
  surfaceCapabilitiesAgain : Int
  surfaceCaps : VkSurfaceCapabilitiesKHR
  createSwapchain : Int
  createSwapchainAgain : Int
  swapchainHandle : Nat
  /-- Results of the counting and of the filling call of `vkGetSwapchainImagesKHR`,
  and the images of the swapchain. -/
  swapchainImagesCount : Int
  swapchainImagesCountAgain : Int
  swapchainImagesFill : Int
  swapchainImagesFillAgain : Int
  swapchainImages : List Nat
  /-- Result and handle of the `vkCreateImageView` call for image `i`. -/
  createImageView : Nat → Int
  createImageViewAgain : Nat → Int
  imageViewHandle : Nat → Nat
  createRenderPass : Int
  createRenderPassAgain : Int
  renderPassHandle : Nat
  /-- Result and handle of the `vkCreateFramebuffer` call for image `i`. -/
  createFramebuffer : Nat → Int
  createFramebufferAgain : Nat → Int
  framebufferHandle : Nat → Nat
  createCommandPool : Int
  createCommandPoolAgain : Int
  commandPoolHandle : Nat
  allocateCommandBuffers : Int
  allocateCommandBuffersAgain : Int
  cmdHandle : Nat
  createAquireSemaphore : Int
  createAquireSemaphoreAgain : Int
  aquireSemaphoreHandle : Nat
  createSubmitSemaphore : Int
  createSubmitSemaphoreAgain : Int
  submitSemaphoreHandle : Nat
  createFence : Int
  createFenceAgain : Int
  fenceHandle : Nat
  createDescriptorSetLayout : Int
  createDescriptorSetLayoutAgain : Int
  setLayoutHandle : Nat
  createPipelineLayout : Int
  createPipelineLayoutAgain : Int
  pipeLayoutHandle : Nat
  /-- Size of the compiled vertex shader file; `none` when it cannot be opened. -/
  vertexCode : Option Nat
  createVertexShader : Int
  createVertexShaderAgain : Int
  vertexShaderHandle : Nat
  /-- Size of the compiled fragment shader file; `none` when it cannot be opened. -/
  fragmentCode : Option Nat
  createFragmentShader : Int
  createFragmentShaderAgain : Int
  fragmentShaderHandle : Nat
  createGraphicsPipelines : Int
  createGraphicsPipelinesAgain : Int
  pipelineHandle : Nat
  /-- The answers during the three calls of `vk_allocate_buffer`. -/
  globalUBO : AllocAnswers
  createDescriptorPool : Int
  createDescriptorPoolAgain : Int
  descPoolHandle : Nat
  allocateDescriptorSets : Int
  allocateDescriptorSetsAgain : Int
  descSetHandle : Nat
  vertexBuffer : AllocAnswers
  indexBuffer : AllocAnswers

/-- The window handed to `init_vulkan` and the addresses of the globals of
`main.cpp` it reads. -/
structure HostData where
  glfwWindow : Nat
  /-- Address of the global `MVP`. -/
  MVP : Nat
  /-- Address `vertices.data()`. -/
  vertices_data : Nat
  /-- Address `indices.data()`. -/
  indices_data : Nat
  deriving DecidableEq, Repr

/-- Function `compile_shader`; `status` is what `system` returns.  A non-zero
status is logged and runs into `__debugbreak`. -/
def compile_shader (input output : String) (status : Int) (ctx : VkContext) (w : World) :
    Flow :=
  let w := w.issue (.init (.compile_shader input output))
  if status ≠ 0 then .halted ctx (w.log (.failedToCompileShader input)) else .next ctx w

/-- Function `read_file`; `size` is the size of the file, `none` when it cannot be
opened, in which case the function throws. -/
def read_file (filename : String) (size : Option Nat) (ctx : VkContext) (w : World) : Flow :=
  let w := w.issue (.init (.read_file filename))
  match size with
  | none => .halted ctx w
  | some _ => .next ctx w

/-- Function `cmd_alloc_info`. -/
def cmd_alloc_info (pool : Nat) : VkCommandBufferAllocateInfo :=
  { commandBufferCount := 1, commandPool := pool, level := VK_COMMAND_BUFFER_LEVEL_PRIMARY }

/-- Function `fence_info`. -/
def fence_info (flags : Nat) : VkFenceCreateInfo :=
  { flags := flags }

/-- Function `layout_binding`. -/
def layout_binding (type shaderStages count bindingNumber : Nat) :
    VkDescriptorSetLayoutBinding :=
  { binding := bindingNumber, descriptorCount := count, descriptorType := type,
    stageFlags := shaderStages }

/-- Block "Compile both Shaders". -/
def init_vulkan_compile_shaders (drv : InitAnswers) (ctx : VkContext) (w : World) : Flow :=
  (compile_shader "shaders_vulkan/modelViewProj.vert" "shaders_vulkan/modelViewProj.vert.spv"
    drv.compileVert ctx w).andThen fun ctx w =>
  compile_shader "shaders_vulkan/color.frag" "shaders_vulkan/color.frag.spv"
    drv.compileFrag ctx w

/-- Block "Instance". -/
def init_vulkan_instance (drv : InitAnswers) (ctx : VkContext) (w : World) : Flow :=
  let w := w.issue (.init .glfwGetRequiredInstanceExtensions)
  VK_CHECK_FATAL
    (.init (.vkCreateInstance VK_API_VERSION_1_0 drv.glfwExtensions
      ["VK_LAYER_KHRONOS_validation"]))
    drv.createInstance drv.createInstanceAgain
    (fun c => { c with instance_ := drv.instanceHandle }) ctx w

/-- Block "Surface". -/
def init_vulkan_surface (drv : InitAnswers) (glfwWindow : Nat) (ctx : VkContext) (w : World) :
    Flow :=
  let w := w.issue (.init (.glfwCreateWindowSurface ctx.instance_ glfwWindow))
  if drv.createWindowSurface ≠ VK_SUCCESS then
    .returned false ctx (w.log .failedToCreateWindowSurface)
  else .next { ctx with surface := drv.surfaceHandle } w

/-- Block "Logical Device". -/
def init_vulkan_device (drv : InitAnswers) (ctx : VkContext) (w : World) : Flow :=
  -- queuePriority = 1.0f; extensions = { VK_KHR_SWAPCHAIN_EXTENSION_NAME }
  (VK_CHECK_FATAL
    (.init (.vkCreateDevice ctx.gpu ctx.graphicsIdx 1 [0x3F800000] ["VK_KHR_swapchain"]))
    drv.createDevice drv.createDeviceAgain
    (fun c => { c with device := drv.deviceHandle }) ctx w).andThen fun ctx w =>
  -- Get Graphics Queue
  let w := w.issue (.init (.vkGetDeviceQueue ctx.device ctx.graphicsIdx 0))
  .next { ctx with graphicsQueue := drv.graphicsQueueHandle } w

/-- The loop of the "Swapchain" block over the reported surface formats: the
first one whose format is `VK_FORMAT_B8G8R8A8_SRGB` is stored in the context. -/
def choose_surface_format : List VkSurfaceFormatKHR → VkContext → VkContext
  | [], ctx => ctx
  | format :: rest, ctx =>
    if format.format = VK_FORMAT_B8G8R8A8_SRGB then { ctx with surfaceFormat := format }
    else choose_surface_format rest ctx

/-- The local `imgCount` of the "Swapchain" block, in 32-bit unsigned arithmetic:
`minImageCount + 1`, and one less when that is more than `maxImageCount`. -/
def imgCount (surfaceCaps : VkSurfaceCapabilitiesKHR) : Nat :=
  let imgCount := (surfaceCaps.minImageCount + 1) % 2 ^ 32
  if imgCount > surfaceCaps.maxImageCount then imgCount - 1 else imgCount

/-- The `vkCreateImageView` call of the "Swapchain" block for the image `image`. -/
def imageViewOp (device : Nat) (image : Option Nat) (format : Nat) : Op :=
  .init (.vkCreateImageView device
    { image := image, viewType := VK_IMAGE_VIEW_TYPE_2D, format := format,
      aspectMask := VK_IMAGE_ASPECT_COLOR_BIT, levelCount := 1, layerCount := 1 })

/-- The loop of the "Swapchain" block that creates one image view per swapchain
image, entered at index `i` with `remaining = scImgCount - i` iterations left. -/
def create_image_views (drv : InitAnswers) : Nat → Nat → VkContext → World → Flow
  | 0, _, ctx, w => .next ctx w
  | remaining + 1, i, ctx, w =>
    -- viewInfo.image = vkcontext.scImages[i];
    -- VK_CHECK_FATAL(vkCreateImageView(vkcontext.device, &viewInfo, 0, &vkcontext.scImgViews[i]));
    (VK_CHECK_FATAL (imageViewOp ctx.device (ctx.slot i) ctx.surfaceFormat.format)
      (drv.createImageView i) (drv.createImageViewAgain i)
      (fun c => c.setSlot (5 + i) (drv.imageViewHandle i)) ctx w).andThen fun ctx w =>
    create_image_views drv remaining (i + 1) ctx w

/-- Block "Swapchain". -/
def init_vulkan_swapchain (drv : InitAnswers) (ctx : VkContext) (w : World) : Flow :=
  (VK_CHECK_FATAL (.init (.vkGetPhysicalDeviceSurfaceFormatsKHR ctx.gpu ctx.surface true))
    drv.surfaceFormatsCount drv.surfaceFormatsCountAgain id ctx w).andThen fun ctx w =>
  (VK_CHECK_FATAL (.init (.vkGetPhysicalDeviceSurfaceFormatsKHR ctx.gpu ctx.surface false))
    drv.surfaceFormatsFill drv.surfaceFormatsFillAgain id ctx w).andThen fun ctx w =>
  let ctx := choose_surface_format drv.surfaceFormats ctx
  (VK_CHECK_FATAL (.init (.vkGetPhysicalDeviceSurfaceCapabilitiesKHR ctx.gpu ctx.surface))
    drv.surfaceCapabilities drv.surfaceCapabilitiesAgain id ctx w).andThen fun ctx w =>
  let surfaceCaps := drv.surfaceCaps
  let scInfo : VkSwapchainCreateInfoKHR :=
    { surface := ctx.surface, minImageCount := imgCount surfaceCaps,
      imageFormat := ctx.surfaceFormat.format, imageColorSpace := 0,
      imageExtentWidth := surfaceCaps.currentExtentWidth,
      imageExtentHeight := surfaceCaps.currentExtentHeight, imageArrayLayers := 1,
      imageUsage := VK_IMAGE_USAGE_COLOR_ATTACHMENT_BIT,
      preTransform := surfaceCaps.currentTransform,
      compositeAlpha := VK_COMPOSITE_ALPHA_OPAQUE_BIT_KHR,
      presentMode := VK_PRESENT_MODE_FIFO_KHR }
  (VK_CHECK_FATAL (.init (.vkCreateSwapchainKHR ctx.device scInfo))
    drv.createSwapchain drv.createSwapchainAgain
    (fun c => { c with swapchain := drv.swapchainHandle }) ctx w).andThen fun ctx w =>
  (VK_CHECK_FATAL (.init (.vkGetSwapchainImagesKHR ctx.device ctx.swapchain true))
    drv.swapchainImagesCount drv.swapchainImagesCountAgain
    (fun c => { c with scImgCount := drv.swapchainImages.length }) ctx w).andThen fun ctx w =>
  (VK_CHECK_FATAL (.init (.vkGetSwapchainImagesKHR ctx.device ctx.swapchain false))
    drv.swapchainImagesFill drv.swapchainImagesFillAgain
    (fun c => c.withTail (c.tail.setSlots 0 drv.swapchainImages)) ctx w).andThen fun ctx w =>
  create_image_views drv ctx.scImgCount 0 ctx w

/-- Block "Render Pass". -/
def init_vulkan_render_pass (drv : InitAnswers) (ctx : VkContext) (w : World) : Flow :=
  let colorAttachment : VkAttachmentDescription :=
    { format := ctx.surfaceFormat.format, loadOp := VK_ATTACHMENT_LOAD_OP_CLEAR,
      samples := VK_SAMPLE_COUNT_1_BIT, storeOp := VK_ATTACHMENT_STORE_OP_STORE,
      initialLayout := VK_IMAGE_LAYOUT_UNDEFINED,
      finalLayout := VK_IMAGE_LAYOUT_PRESENT_SRC_KHR }
  let colorAttachmentRef : VkAttachmentReference :=
    { attachment := 0, layout := VK_IMAGE_LAYOUT_COLOR_ATTACHMENT_OPTIMAL }
  VK_CHECK_FATAL
    (.init (.vkCreateRenderPass ctx.device
      { attachments := [colorAttachment], subpassCount := 1,
        colorAttachments := [colorAttachmentRef] }))
    drv.createRenderPass drv.createRenderPassAgain
    (fun c => { c with renderPass := drv.renderPassHandle }) ctx w

/-- The `vkCreateFramebuffer` call of the "Frame Buffers" block for the view
`view`. -/
def framebufferOp (device renderPass : Nat) (view : Option Nat) : Op :=
  .init (.vkCreateFramebuffer device
    { renderPass := renderPass, attachments := [view], width := SCREEN_WIDTH,
      height := SCREEN_HEIGHT, layers := 1 })

/-- The loop of the "Frame Buffers" block, entered at index `i` with
`remaining = scImgCount - i` iterations left. -/
def create_framebuffers (drv : InitAnswers) : Nat → Nat → VkContext → World → Flow
  | 0, _, ctx, w => .next ctx w
  | remaining + 1, i, ctx, w =>
    -- fbInfo.pAttachments = &vkcontext.scImgViews[i];
    -- VK_CHECK_FATAL(vkCreateFramebuffer(vkcontext.device, &fbInfo, 0, &vkcontext.framebuffers[i]));
    (VK_CHECK_FATAL (framebufferOp ctx.device ctx.renderPass (ctx.slot (5 + i)))
      (drv.createFramebuffer i) (drv.createFramebufferAgain i)
      (fun c => c.setSlot (10 + i) (drv.framebufferHandle i)) ctx w).andThen fun ctx w =>
    create_framebuffers drv remaining (i + 1) ctx w

/-- Block "Frame Buffers". -/
def init_vulkan_framebuffers (drv : InitAnswers) (ctx : VkContext) (w : World) : Flow :=
  create_framebuffers drv ctx.scImgCount 0 ctx w

/-- Block "Command Pool". -/
def init_vulkan_command_pool (drv : InitAnswers) (ctx : VkContext) (w : World) : Flow :=
  VK_CHECK_FATAL
    (.init (.vkCreateCommandPool ctx.device ctx.graphicsIdx
      VK_COMMAND_POOL_CREATE_RESET_COMMAND_BUFFER_BIT))
    drv.createCommandPool drv.createCommandPoolAgain
    (fun c => { c with commandPool := drv.commandPoolHandle }) ctx w

/-- Block "Command Buffer". -/
def init_vulkan_command_buffer (drv : InitAnswers) (ctx : VkContext) (w : World) : Flow :=
  let allocInfo := cmd_alloc_info ctx.commandPool
  VK_CHECK_FATAL (.init (.vkAllocateCommandBuffers ctx.device allocInfo))
    drv.allocateCommandBuffers drv.allocateCommandBuffersAgain
    (fun c => { c with cmd := drv.cmdHandle }) ctx w

/-- Block "Sync Objects". -/
def init_vulkan_sync_objects (drv : InitAnswers) (ctx : VkContext) (w : World) : Flow :=
  (VK_CHECK_FATAL (.init (.vkCreateSemaphore ctx.device))
    drv.createAquireSemaphore drv.createAquireSemaphoreAgain
    (fun c => { c with aquireSemaphore := drv.aquireSemaphoreHandle }) ctx w).andThen
  fun ctx w =>
  (VK_CHECK_FATAL (.init (.vkCreateSemaphore ctx.device))
    drv.createSubmitSemaphore drv.createSubmitSemaphoreAgain
    (fun c => { c with submitSemaphore := drv.submitSemaphoreHandle }) ctx w).andThen
  fun ctx w =>
  let fenceInfo := fence_info VK_FENCE_CREATE_SIGNALED_BIT
  VK_CHECK_FATAL (.init (.vkCreateFence ctx.device fenceInfo))
    drv.createFence drv.createFenceAgain
    (fun c => { c with imgAvailableFence := drv.fenceHandle }) ctx w

/-- Block "Create Descriptor Set Layouts". -/
def init_vulkan_set_layout (drv : InitAnswers) (ctx : VkContext) (w : World) : Flow :=
  let layoutBindings :=
    [layout_binding VK_DESCRIPTOR_TYPE_UNIFORM_BUFFER VK_SHADER_STAGE_VERTEX_BIT 1 0,
     layout_binding VK_DESCRIPTOR_TYPE_STORAGE_BUFFER VK_SHADER_STAGE_VERTEX_BIT 1 1]
  VK_CHECK_FATAL (.init (.vkCreateDescriptorSetLayout ctx.device layoutBindings))
    drv.createDescriptorSetLayout drv.createDescriptorSetLayoutAgain
    (fun c => { c with setLayout := drv.setLayoutHandle }) ctx w

/-- Block "Create Pipeline Layout". -/
def init_vulkan_pipe_layout (drv : InitAnswers) (ctx : VkContext) (w : World) : Flow :=
  VK_CHECK_FATAL (.init (.vkCreatePipelineLayout ctx.device [ctx.setLayout]))
    drv.createPipelineLayout drv.createPipelineLayoutAgain
    (fun c => { c with pipeLayout := drv.pipeLayoutHandle }) ctx w

/-- The `VkGraphicsPipelineCreateInfo` the "Create a Pipeline" block fills in. -/
def pipelineInfo (ctx : VkContext) (vertexShader fragmentShader : Nat) :
    VkGraphicsPipelineCreateInfo :=
  { stages :=
      [{ stage := VK_SHADER_STAGE_VERTEX_BIT, module := vertexShader, pName := "main" },
       { stage := VK_SHADER_STAGE_FRAGMENT_BIT, module := fragmentShader, pName := "main" }],
    vertexBindingDescriptions :=
      [{ binding := 0, inputRate := VK_VERTEX_INPUT_RATE_VERTEX,
         stride := sizeof_VertexColor }],
    vertexAttributeDescriptions :=
      [{ binding := 0, location := 0, offset := offsetof_VertexColor_position,
         format := VK_FORMAT_R32G32B32_SFLOAT },
       { binding := 0, location := 1, offset := offsetof_VertexColor_color,
         format := VK_FORMAT_R32G32B32_SFLOAT }],
    topology := VK_PRIMITIVE_TOPOLOGY_TRIANGLE_LIST,
    -- viewport.maxDepth = 1.0
    viewports := [⟨0, 0, 0, 0, 0, 0x3F800000⟩],
    scissors := [⟨0, 0, 0, 0⟩],
    cullMode := VK_CULL_MODE_FRONT_BIT,
    frontFace := VK_FRONT_FACE_COUNTER_CLOCKWISE,
    polygonMode := VK_POLYGON_MODE_FILL,
    -- lineWidth = 1.0f
    lineWidth := 0x3F800000,
    rasterizationSamples := VK_SAMPLE_COUNT_1_BIT,
    blendEnable := 0,
    colorWriteMask :=
      VK_COLOR_COMPONENT_R_BIT ||| VK_COLOR_COMPONENT_G_BIT ||| VK_COLOR_COMPONENT_B_BIT |||
        VK_COLOR_COMPONENT_A_BIT,
    dynamicStates := [VK_DYNAMIC_STATE_VIEWPORT, VK_DYNAMIC_STATE_SCISSOR],
    layout := ctx.pipeLayout,
    renderPass := ctx.renderPass }

/-- Block "Create a Pipeline". -/
def init_vulkan_pipeline (drv : InitAnswers) (ctx : VkContext) (w : World) : Flow :=
  -- Vertex Shader
  (read_file "shaders_vulkan/modelViewProj.vert.spv" drv.vertexCode ctx w).andThen fun ctx w =>
  (VK_CHECK_FATAL (.init (.vkCreateShaderModule ctx.device (drv.vertexCode.getD 0)))
    drv.createVertexShader drv.createVertexShaderAgain id ctx w).andThen fun ctx w =>
  let vertexShader := drv.vertexShaderHandle
  -- Fragment Shader
  (read_file "shaders_vulkan/color.frag.spv" drv.fragmentCode ctx w).andThen fun ctx w =>
  (VK_CHECK_FATAL (.init (.vkCreateShaderModule ctx.device (drv.fragmentCode.getD 0)))
    drv.createFragmentShader drv.createFragmentShaderAgain id ctx w).andThen fun ctx w =>
  let fragmentShader := drv.fragmentShaderHandle
  (VK_CHECK_FATAL
    (.init (.vkCreateGraphicsPipelines ctx.device [pipelineInfo ctx vertexShader fragmentShader]))
    drv.createGraphicsPipelines drv.createGraphicsPipelinesAgain
    (fun c => { c with pipeline := drv.pipelineHandle }) ctx w).andThen fun ctx w =>
  let w := w.issue (.init (.vkDestroyShaderModule ctx.device vertexShader))
  let w := w.issue (.init (.vkDestroyShaderModule ctx.device fragmentShader))
  .next ctx w

/-- Block "Create Global Uniform Buffer Object". -/
def init_vulkan_global_ubo (drv : InitAnswers) (MVP : Nat) (ctx : VkContext) (w : World) :
    Flow :=
  let r := vk_allocate_buffer ctx.device ctx.gpu sizeof_mat4 VK_BUFFER_USAGE_UNIFORM_BUFFER_BIT
    (VK_MEMORY_PROPERTY_HOST_COHERENT_BIT ||| VK_MEMORY_PROPERTY_HOST_VISIBLE_BIT)
    drv.globalUBO w
  let ctx := { ctx with globalUBO := r.1 }
  let r := vk_copy_to_buffer ctx.globalUBO MVP sizeof_mat4 r.2
  .next { ctx with globalUBO := r.1 } r.2

/-- Block "Create Descriptor Pool". -/
def init_vulkan_desc_pool (drv : InitAnswers) (ctx : VkContext) (w : World) : Flow :=
  let poolSizes : List VkDescriptorPoolSize :=
    [⟨VK_DESCRIPTOR_TYPE_UNIFORM_BUFFER, 1⟩, ⟨VK_DESCRIPTOR_TYPE_STORAGE_BUFFER, 1⟩]
  VK_CHECK_FATAL (.init (.vkCreateDescriptorPool ctx.device 2 poolSizes))
    drv.createDescriptorPool drv.createDescriptorPoolAgain
    (fun c => { c with descPool := drv.descPoolHandle }) ctx w

/-- Block "Allocate Descriptor Set", with the update of the set. -/
def init_vulkan_desc_set (drv : InitAnswers) (ctx : VkContext) (w : World) : Flow :=
  -- Allocation
  (VK_CHECK_FATAL (.init (.vkAllocateDescriptorSets ctx.device ctx.descPool [ctx.setLayout]))
    drv.allocateDescriptorSets drv.allocateDescriptorSetsAgain
    (fun c => { c with descSet := drv.descSetHandle }) ctx w).andThen fun ctx w =>
  -- Update Descriptor Set
  let bufferInfo : VkDescriptorBufferInfo :=
    { buffer := ctx.globalUBO.buffer, offset := 0, range := sizeof_mat4 }
  let globalUBOWrite : VkWriteDescriptorSet :=
    { descriptorType := VK_DESCRIPTOR_TYPE_UNIFORM_BUFFER, descriptorCount := 1,
      dstBinding := 0, dstArrayElement := 0, bufferInfo := [bufferInfo],
      dstSet := ctx.descSet }
  let w := w.issue (.init (.vkUpdateDescriptorSets ctx.device [globalUBOWrite]))
  .next ctx w

/-- Block "Create Vertex Buffer". -/
def init_vulkan_vertex_buffer (drv : InitAnswers) (host : HostData) (ctx : VkContext)
    (w : World) : Flow :=
  let r := vk_allocate_buffer ctx.device ctx.gpu
    ((sizeof_float * vertices.length) % 2 ^ 32)
    (VK_BUFFER_USAGE_UNIFORM_BUFFER_BIT ||| VK_BUFFER_USAGE_VERTEX_BUFFER_BIT)
    (VK_MEMORY_PROPERTY_HOST_VISIBLE_BIT ||| VK_MEMORY_PROPERTY_HOST_COHERENT_BIT)
    drv.vertexBuffer w
  let ctx := { ctx with vertexBuffer := r.1 }
  -- Copy Vertices to the buffer
  let r := vk_copy_to_buffer ctx.vertexBuffer host.vertices_data
    ((sizeof_float * vertices.length) % 2 ^ 32) r.2
  .next { ctx with vertexBuffer := r.1 } r.2

/-- Block "Create Index Buffer". -/
def init_vulkan_index_buffer (drv : InitAnswers) (host : HostData) (ctx : VkContext)
    (w : World) : Flow :=
  let r := vk_allocate_buffer ctx.device ctx.gpu
    ((sizeof_GLuint * indices.length) % 2 ^ 32)
    (VK_BUFFER_USAGE_UNIFORM_BUFFER_BIT ||| VK_BUFFER_USAGE_INDEX_BUFFER_BIT)
    (VK_MEMORY_PROPERTY_HOST_VISIBLE_BIT ||| VK_MEMORY_PROPERTY_HOST_COHERENT_BIT)
    drv.indexBuffer w
  let ctx := { ctx with indexBuffer := r.1 }
  -- Copy Vertices to the buffer
  let r := vk_copy_to_buffer ctx.indexBuffer host.indices_data
    ((sizeof_GLuint * indices.length) % 2 ^ 32) r.2
  .next { ctx with indexBuffer := r.1 } r.2

/-- Function `init_vulkan`, on the context `ctx` (the global `vkcontext`). -/
def init_vulkan (drv : InitAnswers) (host : HostData) (ctx : VkContext) (w : World) : Flow :=
  (init_vulkan_compile_shaders drv ctx w).andThen fun ctx w =>
  (init_vulkan_instance drv ctx w).andThen fun ctx w =>
  (init_vulkan_surface drv host.glfwWindow ctx w).andThen fun ctx w =>
  (init_vulkan_choose_gpu drv.chooseGpu ctx w).andThen fun ctx w =>
  (init_vulkan_device drv ctx w).andThen fun ctx w =>
  (init_vulkan_swapchain drv ctx w).andThen fun ctx w =>
  (init_vulkan_render_pass drv ctx w).andThen fun ctx w =>
  (init_vulkan_framebuffers drv ctx w).andThen fun ctx w =>
  (init_vulkan_command_pool drv ctx w).andThen fun ctx w =>
  (init_vulkan_command_buffer drv ctx w).andThen fun ctx w =>
  (init_vulkan_sync_objects drv ctx w).andThen fun ctx w =>
  (init_vulkan_set_layout drv ctx w).andThen fun ctx w =>
  (init_vulkan_pipe_layout drv ctx w).andThen fun ctx w =>
  (init_vulkan_pipeline drv ctx w).andThen fun ctx w =>
  (init_vulkan_global_ubo drv host.MVP ctx w).andThen fun ctx w =>
  (init_vulkan_desc_pool drv ctx w).andThen fun ctx w =>
  (init_vulkan_desc_set drv ctx w).andThen fun ctx w =>
  (init_vulkan_vertex_buffer drv host ctx w).andThen fun ctx w =>
  (init_vulkan_index_buffer drv host ctx w).andThen fun ctx w =>
  .returned true ctx w

/-- The static `vkcontext` before `init_vulkan`: every member is zero. -/
def vkcontext_zero : VkContext :=
  { instance_ := 0, debugMessenger := 0, surface := 0, surfaceFormat := ⟨0, 0⟩, gpu := 0,
    device := 0, graphicsQueue := 0, swapchain := 0, renderPass := 0, commandPool := 0,
    cmd := 0, descPool := 0, setLayout := 0, descSet := 0, pipeLayout := 0, pipeline := 0,
    globalUBO := ⟨0, 0, 0, 0⟩, vertexBuffer := ⟨0, 0, 0, 0⟩, indexBuffer := ⟨0, 0, 0, 0⟩,
    aquireSemaphore := 0, submitSemaphore := 0, imgAvailableFence := 0, scImgCount := 0,
    scImages := [0, 0, 0, 0, 0], scImgViews := [0, 0, 0, 0, 0],
    framebuffers := [0, 0, 0, 0, 0], graphicsIdx := 0, padding := 0, beyond := [] }

/-! ## Frame loop -/

/-- What the driver answers during one call of `render_scene_vulkan`.  The
results of `vkResetCommandBuffer` and `vkQueuePresentKHR` are not looked at by the
program.  For a call under `VK_CHECK` the field ending in `Again` is the result of
the second time the macro makes the call, which happens when the first result is not
`VK_SUCCESS`. -/
structure FrameAnswers where
  waitForFences : Int
  resetFences : Int
  acquireNextImage : Int
  /-- The value the local `imgIdx` holds after `vkAcquireNextImageKHR`: written
  by the driver when the call succeeds, indeterminate otherwise. -/
  imgIdx : Nat
  beginCommandBuffer : Int
  endCommandBuffer : Int
  queueSubmit : Int
  waitForFencesAgain : Int
  resetFencesAgain : Int
  acquireNextImageAgain : Int
  beginCommandBufferAgain : Int
  endCommandBufferAgain : Int
  queueSubmitAgain : Int
  deriving DecidableEq, Repr

/-- Function `render_scene_vulkan`, on the context `ctx` (the global `vkcontext`,
which the function only reads); `MVP` is the address of the global matrix. -/
def render_scene_vulkan (ctx : VkContext) (MVP : Nat) (drv : FrameAnswers) (w : World) : World :=
  -- We wait on the GPU to be done with the work
  let w := VK_CHECK (.vkWaitForFences ctx.device [ctx.imgAvailableFence] VK_TRUE UINT64_MAX)
    drv.waitForFences drv.waitForFencesAgain w
  let w := VK_CHECK (.vkResetFences ctx.device [ctx.imgAvailableFence])
    drv.resetFences drv.resetFencesAgain w
  -- Copy Data to buffers
  let w := (vk_copy_to_buffer ctx.globalUBO MVP sizeof_mat4 w).2
  let w := VK_CHECK
    (.vkAcquireNextImageKHR ctx.device ctx.swapchain UINT64_MAX ctx.aquireSemaphore 0)
    drv.acquireNextImage drv.acquireNextImageAgain w
  let imgIdx := drv.imgIdx
  let cmd := ctx.cmd
  let w := w.issue (.vkResetCommandBuffer cmd 0)
  let w := VK_CHECK (.vkBeginCommandBuffer cmd VK_COMMAND_BUFFER_USAGE_ONE_TIME_SUBMIT_BIT)
    drv.beginCommandBuffer drv.beginCommandBufferAgain w
  -- clearValue.color = {0.2f, 0.2f, 0.2f, 1}
  let clearColor := [0x3E4CCCCD, 0x3E4CCCCD, 0x3E4CCCCD, 0x3F800000]
  -- rpBeginInfo.framebuffer = vkcontext.framebuffers[imgIdx];
  let w := w.issue
    (.vkCmdBeginRenderPass cmd ctx.renderPass (ctx.slot (10 + imgIdx))
      ⟨0, 0, SCREEN_WIDTH, SCREEN_HEIGHT⟩ clearColor VK_SUBPASS_CONTENTS_INLINE)
  -- viewport: maxDepth = 1.0f, width = height = 800.0f
  let viewport : VkViewport :=
    { x := 0, y := 0, width := 0x44480000, height := 0x44480000, minDepth := 0,
      maxDepth := 0x3F800000 }
  let scissor : VkRect2D := ⟨0, 0, SCREEN_WIDTH, SCREEN_HEIGHT⟩
  let w := w.issue (.vkCmdSetViewport cmd 0 [viewport])
  let w := w.issue (.vkCmdSetScissor cmd 0 [scissor])
  -- Render Loop
  let w := w.issue (.vkCmdBindPipeline cmd VK_PIPELINE_BIND_POINT_GRAPHICS ctx.pipeline)
  let w := w.issue (.vkCmdBindVertexBuffers cmd 0 [ctx.vertexBuffer.buffer] [0])
  let w := w.issue (.vkCmdBindIndexBuffer cmd ctx.indexBuffer.buffer 0 VK_INDEX_TYPE_UINT32)
  let w := w.issue
    (.vkCmdBindDescriptorSets cmd VK_PIPELINE_BIND_POINT_GRAPHICS ctx.pipeLayout 0
      [ctx.descSet] [])
  let w := w.issue (.vkCmdDrawIndexed cmd indices_size 1 0 0 0)
  let w := w.issue (.vkCmdEndRenderPass cmd)
  let w := VK_CHECK (.vkEndCommandBuffer cmd) drv.endCommandBuffer drv.endCommandBufferAgain w
  -- This call will signal the Fence when the GPU Work is done
  let submitInfo : VkSubmitInfo :=
    { waitSemaphores := [ctx.aquireSemaphore],
      waitDstStageMask := [VK_PIPELINE_STAGE_COLOR_ATTACHMENT_OUTPUT_BIT],
      commandBuffers := [cmd],
      signalSemaphores := [ctx.submitSemaphore] }
  let w := VK_CHECK (.vkQueueSubmit ctx.graphicsQueue [submitInfo] ctx.imgAvailableFence)
    drv.queueSubmit drv.queueSubmitAgain w
  let presentInfo : VkPresentInfoKHR :=
    { waitSemaphores := [ctx.submitSemaphore],
      swapchains := [ctx.swapchain],
      imageIndices := [imgIdx] }
  w.issue (.vkQueuePresentKHR ctx.graphicsQueue presentInfo)

/-- One iteration of the rendering loop of `main`, as far as the renderer sees
it. -/
structure FrameInput where
  /-- The 64 bytes `update_scene` stores in `MVP` (floating point, not computed
  here), by offset. -/
  mvpBytes : Nat → Nat
  /-- The driver's answers during `render_scene_vulkan`. -/
  drv : FrameAnswers

/-- Function `update_scene`, seen from the renderer: the global `MVP` receives a
new value; no operation is issued. -/
def update_scene (MVP : Nat) (mvpBytes : Nat → Nat) (w : World) : World :=
  { w with mem := fun a => if MVP ≤ a ∧ a < MVP + sizeof_mat4 then mvpBytes (a - MVP) else w.mem a }

/-- The rendering loop of `main`: `update_scene(); render_scene_vulkan();` once
per element of `frames` (`glfwPollEvents` issues no operation of the renderer). -/
def render_loop (ctx : VkContext) (MVP : Nat) : List FrameInput → World → World
  | [], w => w
  | f :: rest, w =>
    render_loop ctx MVP rest (render_scene_vulkan ctx MVP f.drv (update_scene MVP f.mvpBytes w))

/-! ## Vocabulary of the properties -/

/-- The name of the operation, without its arguments. -/
def InitOp.name : InitOp → String
  | .compile_shader .. => "compile_shader"
  | .glfwGetRequiredInstanceExtensions => "glfwGetRequiredInstanceExtensions"
  | .vkCreateInstance .. => "vkCreateInstance"
  | .glfwCreateWindowSurface .. => "glfwCreateWindowSurface"
  | .vkCreateDevice .. => "vkCreateDevice"
  | .vkGetDeviceQueue .. => "vkGetDeviceQueue"
  | .vkGetPhysicalDeviceSurfaceFormatsKHR .. => "vkGetPhysicalDeviceSurfaceFormatsKHR"
  | .vkGetPhysicalDeviceSurfaceCapabilitiesKHR .. => "vkGetPhysicalDeviceSurfaceCapabilitiesKHR"
  | .vkCreateSwapchainKHR .. => "vkCreateSwapchainKHR"
  | .vkGetSwapchainImagesKHR .. => "vkGetSwapchainImagesKHR"
  | .vkCreateImageView .. => "vkCreateImageView"
  | .vkCreateRenderPass .. => "vkCreateRenderPass"
  | .vkCreateFramebuffer .. => "vkCreateFramebuffer"
  | .vkCreateCommandPool .. => "vkCreateCommandPool"
  | .vkAllocateCommandBuffers .. => "vkAllocateCommandBuffers"
  | .vkCreateSemaphore .. => "vkCreateSemaphore"
  | .vkCreateFence .. => "vkCreateFence"
  | .vkCreateDescriptorSetLayout .. => "vkCreateDescriptorSetLayout"
  | .vkCreatePipelineLayout .. => "vkCreatePipelineLayout"
  | .read_file .. => "read_file"
  | .vkCreateShaderModule .. => "vkCreateShaderModule"
  | .vkCreateGraphicsPipelines .. => "vkCreateGraphicsPipelines"
  | .vkDestroyShaderModule .. => "vkDestroyShaderModule"
  | .vkCreateDescriptorPool .. => "vkCreateDescriptorPool"
  | .vkAllocateDescriptorSets .. => "vkAllocateDescriptorSets"
  | .vkUpdateDescriptorSets .. => "vkUpdateDescriptorSets"

/-- The name of the operation, without its arguments. -/
def Op.name : Op → String
  | .vkGetPhysicalDeviceMemoryProperties .. => "vkGetPhysicalDeviceMemoryProperties"
  | .vkCreateBuffer .. => "vkCreateBuffer"
  | .vkGetBufferMemoryRequirements .. => "vkGetBufferMemoryRequirements"
  | .vkAllocateMemory .. => "vkAllocateMemory"
  | .vkMapMemory .. => "vkMapMemory"
  | .vkBindBufferMemory .. => "vkBindBufferMemory"
  | .vk_copy_to_buffer .. => "vk_copy_to_buffer"
  | .vkEnumeratePhysicalDevices .. => "vkEnumeratePhysicalDevices"
  | .vkGetPhysicalDeviceQueueFamilyProperties .. => "vkGetPhysicalDeviceQueueFamilyProperties"
  | .vkGetPhysicalDeviceSurfaceSupportKHR .. => "vkGetPhysicalDeviceSurfaceSupportKHR"
  | .vkWaitForFences .. => "vkWaitForFences"
  | .vkResetFences .. => "vkResetFences"
  | .vkAcquireNextImageKHR .. => "vkAcquireNextImageKHR"
  | .vkResetCommandBuffer .. => "vkResetCommandBuffer"
  | .vkBeginCommandBuffer .. => "vkBeginCommandBuffer"
  | .vkCmdBeginRenderPass .. => "vkCmdBeginRenderPass"
  | .vkCmdSetViewport .. => "vkCmdSetViewport"
  | .vkCmdSetScissor .. => "vkCmdSetScissor"
  | .vkCmdBindPipeline .. => "vkCmdBindPipeline"
  | .vkCmdBindVertexBuffers .. => "vkCmdBindVertexBuffers"
  | .vkCmdBindIndexBuffer .. => "vkCmdBindIndexBuffer"
  | .vkCmdBindDescriptorSets .. => "vkCmdBindDescriptorSets"
  | .vkCmdDrawIndexed .. => "vkCmdDrawIndexed"
  | .vkCmdEndRenderPass .. => "vkCmdEndRenderPass"
  | .vkEndCommandBuffer .. => "vkEndCommandBuffer"
  | .vkQueueSubmit .. => "vkQueueSubmit"
  | .vkQueuePresentKHR .. => "vkQueuePresentKHR"
  | .init op => op.name

/-- The operation is a wait without timeout on exactly the fence `fence`. -/
def Op.isUnboundedWaitOn (fence : Nat) : Op → Bool
  | .vkWaitForFences _ fences _ timeout => fences == [fence] && timeout == UINT64_MAX
  | _ => false

/-- The CPU resets or records the command buffer `cmd`. -/
def Op.recordsInto (cmd : Nat) : Op → Bool
  | .vkResetCommandBuffer c _ => c == cmd
  | .vkBeginCommandBuffer c _ => c == cmd
  | .vkCmdBeginRenderPass c .. => c == cmd
  | .vkCmdSetViewport c .. => c == cmd
  | .vkCmdSetScissor c .. => c == cmd
  | .vkCmdBindPipeline c .. => c == cmd
  | .vkCmdBindVertexBuffers c .. => c == cmd
  | .vkCmdBindIndexBuffer c .. => c == cmd
  | .vkCmdBindDescriptorSets c .. => c == cmd
  | .vkCmdDrawIndexed c .. => c == cmd
  | .vkCmdEndRenderPass c => c == cmd
  | .vkEndCommandBuffer c => c == cmd
  | _ => false

/-- The CPU copies into the buffer `b`. -/
def Op.copiesInto (b : Buffer) : Op → Bool
  | .vk_copy_to_buffer buffer _ _ => buffer == b
  | _ => false

/-- The CPU touches the command buffer or the uniform buffer of the context. -/
def Op.touchesFrameResources (ctx : VkContext) (op : Op) : Bool :=
  op.recordsInto ctx.cmd || op.copiesInto ctx.globalUBO

/-- The fence a queue submission will signal, if the operation is one. -/
def Op.submitFence : Op → Option Nat
  | .vkQueueSubmit _ _ fence => some fence
  | _ => none

/-- The semaphores the operation signals. -/
def Op.signalledSemaphores : Op → List Nat
  | .vkAcquireNextImageKHR _ _ _ semaphore _ => if semaphore = 0 then [] else [semaphore]
  | .vkQueueSubmit _ submits _ => submits.flatMap (fun s => s.signalSemaphores)
  | _ => []

/-- The semaphores the operation waits on. -/
def Op.waitedSemaphores : Op → List Nat
  | .vkQueueSubmit _ submits _ => submits.flatMap (fun s => s.waitSemaphores)
  | .vkQueuePresentKHR _ presentInfo => presentInfo.waitSemaphores
  | _ => []

/-- The fences the operation signals. -/
def Op.signalledFences : Op → List Nat
  | .vkAcquireNextImageKHR _ _ _ _ fence => if fence = 0 then [] else [fence]
  | .vkQueueSubmit _ _ fence => if fence = 0 then [] else [fence]
  | _ => []

/-- The fences the CPU waits on in the operation. -/
def Op.waitedFences : Op → List Nat
  | .vkWaitForFences _ fences _ _ => fences
  | _ => []

/-- Scan of a trace for the reuse discipline of `ctx`: `pending` lists the fences
of submissions not yet followed by an unbounded wait.  The scan fails (`none`) at a
touch of the frame resources while a fence is pending, and otherwise returns the
fences pending at the end. -/
def scanReuse (ctx : VkContext) : List Nat → List Op → Option (List Nat)
  | pending, [] => some pending
  | pending, op :: rest =>
    if op.touchesFrameResources ctx && !pending.isEmpty then none
    else
      let pending := pending.filter (fun f => !op.isUnboundedWaitOn f)
      match op.submitFence with
      | some f => scanReuse ctx (f :: pending) rest
      | none => scanReuse ctx pending rest

/-- Memory type `i` of the table is allowed by the requirement mask and offers
every requested property flag. -/
def memoryTypeSuitable (gpuMemProps : VkPhysicalDeviceMemoryProperties)
    (memRequirements : VkMemoryRequirements) (memProps : Nat) (i : Nat) : Prop :=
  i < gpuMemProps.memoryTypeCount ∧ memRequirements.memoryTypeBits.testBit i = true ∧
    (gpuMemProps.memoryTypes.getD i ⟨0, 0⟩).propertyFlags &&& memProps = memProps

/-- Memory type `i` of the table offers every requested property flag. -/
def memoryTypeHasFlags (gpuMemProps : VkPhysicalDeviceMemoryProperties) (memProps : Nat)
    (i : Nat) : Prop :=
  i < gpuMemProps.memoryTypeCount ∧
    (gpuMemProps.memoryTypes.getD i ⟨0, 0⟩).propertyFlags &&& memProps = memProps

/-- A world with zeroed memory in which nothing has happened yet. -/
def World.empty : World := ⟨fun _ => 0, [], []⟩

/-- A table of three memory types: device-local, then two host-visible and
host-coherent ones. -/
def exampleMemoryTypes : VkPhysicalDeviceMemoryProperties :=
  { memoryTypeCount := 3, memoryTypes := [⟨1, 0⟩, ⟨6, 1⟩, ⟨6, 1⟩] }

/-- Requirements of 64 bytes that allow memory types 1 and 2. -/
def exampleRequirements : VkMemoryRequirements :=
  { size := 64, alignment := 16, memoryTypeBits := 6 }

/-- Requirements of 64 bytes that allow memory type 0 only. -/
def exampleRequirementsDeviceOnly : VkMemoryRequirements :=
  { size := 64, alignment := 16, memoryTypeBits := 1 }

/-- A mapped 64-byte buffer whose mapping starts at host address 1000. -/
def exampleMappedBuffer : Buffer := { buffer := 11, memory := 12, size := 64, data := 1000 }

/-- A 64-byte buffer that is not mapped. -/
def exampleUnmappedBuffer : Buffer := { buffer := 11, memory := 12, size := 64, data := 0 }

/-- A world whose memory holds the byte `a % 256` at every address `a`. -/
def exampleWorld : World := ⟨fun a => a % 256, [], []⟩

/-- Driver answers for an allocation in which every call succeeds. -/
def exampleAllocAnswers : AllocAnswers :=
  { createBuffer := 0, bufferHandle := 11, memRequirements := exampleRequirements,
    gpuMemProps := exampleMemoryTypes, allocateMemory := 0, memoryHandle := 12,
    mapMemory := 0, mappedAddress := 1000, bindBufferMemory := 0, createBufferAgain := 0,
    allocateMemoryAgain := 0, mapMemoryAgain := 0, bindBufferMemoryAgain := 0 }

/-- The operations a call under `VK_CHECK` or `VK_CHECK_FATAL` issues: the call,
and the call once more when its first result is not `VK_SUCCESS`. -/
def checkedOps (op : Op) (result : Int) : List Op :=
  if result ≠ VK_SUCCESS then [op, op] else [op]

/-- The operations one call of `render_scene_vulkan` issues on `ctx`, in order,
given the driver's answers. -/
def frame_ops (ctx : VkContext) (MVP : Nat) (drv : FrameAnswers) : List Op :=
  checkedOps (.vkWaitForFences ctx.device [ctx.imgAvailableFence] VK_TRUE UINT64_MAX)
      drv.waitForFences ++
    checkedOps (.vkResetFences ctx.device [ctx.imgAvailableFence]) drv.resetFences ++
    [.vk_copy_to_buffer ctx.globalUBO MVP sizeof_mat4] ++
    checkedOps (.vkAcquireNextImageKHR ctx.device ctx.swapchain UINT64_MAX ctx.aquireSemaphore 0)
      drv.acquireNextImage ++
    [.vkResetCommandBuffer ctx.cmd 0] ++
    checkedOps (.vkBeginCommandBuffer ctx.cmd VK_COMMAND_BUFFER_USAGE_ONE_TIME_SUBMIT_BIT)
      drv.beginCommandBuffer ++
    [.vkCmdBeginRenderPass ctx.cmd ctx.renderPass (ctx.slot (10 + drv.imgIdx))
       ⟨0, 0, SCREEN_WIDTH, SCREEN_HEIGHT⟩ [0x3E4CCCCD, 0x3E4CCCCD, 0x3E4CCCCD, 0x3F800000]
       VK_SUBPASS_CONTENTS_INLINE,
     .vkCmdSetViewport ctx.cmd 0 [⟨0, 0, 0x44480000, 0x44480000, 0, 0x3F800000⟩],
     .vkCmdSetScissor ctx.cmd 0 [⟨0, 0, SCREEN_WIDTH, SCREEN_HEIGHT⟩],
     .vkCmdBindPipeline ctx.cmd VK_PIPELINE_BIND_POINT_GRAPHICS ctx.pipeline,
     .vkCmdBindVertexBuffers ctx.cmd 0 [ctx.vertexBuffer.buffer] [0],
     .vkCmdBindIndexBuffer ctx.cmd ctx.indexBuffer.buffer 0 VK_INDEX_TYPE_UINT32,
     .vkCmdBindDescriptorSets ctx.cmd VK_PIPELINE_BIND_POINT_GRAPHICS ctx.pipeLayout 0
       [ctx.descSet] [],
     .vkCmdDrawIndexed ctx.cmd indices_size 1 0 0 0,
     .vkCmdEndRenderPass ctx.cmd] ++
    checkedOps (.vkEndCommandBuffer ctx.cmd) drv.endCommandBuffer ++
    checkedOps
      (.vkQueueSubmit ctx.graphicsQueue
        [⟨[ctx.aquireSemaphore], [VK_PIPELINE_STAGE_COLOR_ATTACHMENT_OUTPUT_BIT], [ctx.cmd],
          [ctx.submitSemaphore]⟩]
        ctx.imgAvailableFence)
      drv.queueSubmit ++
    [.vkQueuePresentKHR ctx.graphicsQueue ⟨[ctx.submitSemaphore], [ctx.swapchain], [drv.imgIdx]⟩]

/-- A context as a successful initialisation leaves it: distinct non-null
handles, three swapchain images, host-visible buffers mapped at distinct
addresses. -/
def exampleContext : VkContext :=
  { instance_ := 1, debugMessenger := 0, surface := 2, surfaceFormat := ⟨50, 0⟩, gpu := 3,
    device := 4, graphicsQueue := 5, swapchain := 6, renderPass := 7, commandPool := 8,
    cmd := 9, descPool := 10, setLayout := 11, descSet := 12, pipeLayout := 13,
    pipeline := 14,
    globalUBO := { buffer := 20, memory := 21, size := 64, data := 1000 },
    vertexBuffer := { buffer := 22, memory := 23, size := 192, data := 2000 },
    indexBuffer := { buffer := 24, memory := 25, size := 144, data := 3000 },
    aquireSemaphore := 30, submitSemaphore := 31, imgAvailableFence := 32,
    scImgCount := 3, scImages := [40, 41, 42, 0, 0], scImgViews := [50, 51, 52, 0, 0],
    framebuffers := [60, 61, 62, 0, 0], graphicsIdx := 0, padding := 0, beyond := [] }

/-- Driver answers of a frame in which every call succeeds and image `imgIdx` is
acquired. -/
def exampleFrameAnswers (imgIdx : Nat) : FrameAnswers :=
  { waitForFences := 0, resetFences := 0, acquireNextImage := 0, imgIdx := imgIdx,
    beginCommandBuffer := 0, endCommandBuffer := 0, queueSubmit := 0,
    waitForFencesAgain := 0, resetFencesAgain := 0, acquireNextImageAgain := 0,
    beginCommandBufferAgain := 0, endCommandBufferAgain := 0, queueSubmitAgain := 0 }

/-- Driver answers of a frame in which every checked call fails with
`VK_ERROR_DEVICE_LOST`, both times it is made. -/
def exampleFrameAnswersLost : FrameAnswers :=
  { waitForFences := -4, resetFences := -4, acquireNextImage := -4, imgIdx := 7,
    beginCommandBuffer := -4, endCommandBuffer := -4, queueSubmit := -4,
    waitForFencesAgain := -4, resetFencesAgain := -4, acquireNextImageAgain := -4,
    beginCommandBufferAgain := -4, endCommandBufferAgain := -4, queueSubmitAgain := -4 }

/-- Two iterations of the rendering loop: a frame that succeeds on image 0 and a
frame in which the device is lost. -/
def exampleFrames : List FrameInput :=
  [⟨fun k => k, exampleFrameAnswers 0⟩, ⟨fun k => k + 1, exampleFrameAnswersLost⟩]

/-- The queue family offers graphics and can present to the surface. -/
def QueueFamilyAnswer.eligible (q : QueueFamilyAnswer) : Bool :=
  (q.queueFlags &&& VK_QUEUE_GRAPHICS_BIT != 0) && (q.surfaceSupport != 0)

/-- The selection after visiting device `d`: unchanged when `d` has no eligible
family, otherwise `d` with the index of its first eligible family. -/
def selectDevice (ctx : VkContext) (d : PhysicalDeviceAnswer) : VkContext :=
  match d.queueProps.findIdx? QueueFamilyAnswer.eligible with
  | some k => { ctx with graphicsIdx := k, gpu := d.gpu }
  | none => ctx

/-- Two enumerated devices, both eligible: device 100 offers a compute-only
family 0 and a graphics family 1 that can present; device 200 offers a graphics
family 0 that can present.  Every query succeeds. -/
def exampleTwoGpus : ChooseGpuAnswers :=
  { enumerateCount := 0, enumerateFill := 0, enumerateCountAgain := 0,
    enumerateFillAgain := 0,
    gpus := [⟨100, [⟨2, 0, 0, 0⟩, ⟨1, 0, 1, 0⟩]⟩, ⟨200, [⟨1, 0, 1, 0⟩]⟩] }

/-- The first reported surface format whose format is `VK_FORMAT_B8G8R8A8_SRGB`. -/
def firstPreferredFormat (formats : List VkSurfaceFormatKHR) : Option VkSurfaceFormatKHR :=
  formats.find? (fun f => f.format = VK_FORMAT_B8G8R8A8_SRGB)

/-- Surface formats with two entries of the preferred format (50), which differ
in their colour space. -/
def exampleFormatsSrgb : List VkSurfaceFormatKHR := [⟨44, 0⟩, ⟨50, 0⟩, ⟨50, 7⟩, ⟨37, 0⟩]

/-- Capabilities of a surface without an upper bound on the image count
(`maxImageCount` is 0) and at least two images. -/
def exampleCapsUnbounded : VkSurfaceCapabilitiesKHR :=
  { minImageCount := 2, maxImageCount := 0, currentExtentWidth := 800,
    currentExtentHeight := 800, currentTransform := 1 }

/-- Capabilities of a surface that takes two to three images. -/
def exampleCaps : VkSurfaceCapabilitiesKHR :=
  { minImageCount := 2, maxImageCount := 3, currentExtentWidth := 800,
    currentExtentHeight := 800, currentTransform := 1 }

/-- Number of floats of one vertex record. -/
def floatsPerVertex : Nat := sizeof_VertexColor / sizeof_float

/-- Position of vertex `i`: the three floats at the start of its record. -/
def vertexPosition (i : Nat) : ℚ × ℚ × ℚ :=
  (vertices.getD (floatsPerVertex * i) 0, vertices.getD (floatsPerVertex * i + 1) 0,
    vertices.getD (floatsPerVertex * i + 2) 0)

/-- Indexed traversal of a triangle list: consecutive triples of indices. -/
def triangleList : List Nat → List (Nat × Nat × Nat)
  | a :: b :: c :: rest => (a, b, c) :: triangleList rest
  | _ => []

/-- The triangles the index list describes. -/
def triangles : List (Nat × Nat × Nat) := triangleList indices

/-- A face of the cube: the points whose coordinate number `axis` is `value`. -/
structure Face where
  axis : Nat
  value : ℚ

/-- The six faces of the cube with corners `(±1/2, ±1/2, ±1/2)`. -/
def cubeFaces : List Face :=
  [⟨0, 1 / 2⟩, ⟨0, -1 / 2⟩, ⟨1, 1 / 2⟩, ⟨1, -1 / 2⟩, ⟨2, 1 / 2⟩, ⟨2, -1 / 2⟩]

/-- Coordinate number `axis` (0, 1 or 2) of a point. -/
def coordinate (p : ℚ × ℚ × ℚ) : Nat → ℚ
  | 0 => p.1
  | 1 => p.2.1
  | _ => p.2.2

/-- Vertex `i` lies on the face. -/
def onFace (f : Face) (i : Nat) : Bool := coordinate (vertexPosition i) f.axis == f.value

/-- The three vertices of the triangle lie on the face. -/
def triangleOnFace (f : Face) (t : Nat × Nat × Nat) : Bool :=
  onFace f t.1 && onFace f t.2.1 && onFace f t.2.2

/-- Difference of two points. -/
def sub3 (p q : ℚ × ℚ × ℚ) : ℚ × ℚ × ℚ := (p.1 - q.1, p.2.1 - q.2.1, p.2.2 - q.2.2)

/-- Cross product. -/
def cross (u v : ℚ × ℚ × ℚ) : ℚ × ℚ × ℚ :=
  (u.2.1 * v.2.2 - u.2.2 * v.2.1, u.2.2 * v.1 - u.1 * v.2.2, u.1 * v.2.1 - u.2.1 * v.1)

/-- Dot product. -/
def dot (u v : ℚ × ℚ × ℚ) : ℚ := u.1 * v.1 + u.2.1 * v.2.1 + u.2.2 * v.2.2

/-- The normal `(pos[b] - pos[a]) × (pos[c] - pos[a])` of the triangle `(a, b, c)`. -/
def normal (t : Nat × Nat × Nat) : ℚ × ℚ × ℚ :=
  cross (sub3 (vertexPosition t.2.1) (vertexPosition t.1))
    (sub3 (vertexPosition t.2.2) (vertexPosition t.1))

/-- The centroid of the triangle; the centre of the cube is the origin. -/
def centroid (t : Nat × Nat × Nat) : ℚ × ℚ × ℚ :=
  (((vertexPosition t.1).1 + (vertexPosition t.2.1).1 + (vertexPosition t.2.2).1) / 3,
   ((vertexPosition t.1).2.1 + (vertexPosition t.2.1).2.1 + (vertexPosition t.2.2).2.1) / 3,
   ((vertexPosition t.1).2.2 + (vertexPosition t.2.1).2.2 + (vertexPosition t.2.2).2.2) / 3)

/-! ### The path of `init_vulkan` on which nothing fails -/

/-- Issue the operations of a list, in order. -/
def World.issueAll (w : World) (ops : List Op) : World :=
  ops.foldl World.issue w

/-- Control fell through the block. -/
def Flow.isNext : Flow → Bool
  | .next _ _ => true
  | _ => false

/-- The block ends `init_vulkan` without the value `true`: it does not fall
through, and it does not return `true`. -/
def Flow.stops (f : Flow) : Prop :=
  f.isNext = false ∧ f.returnedValue ≠ some true

/-- Every surface-support query that the loop over the families of one device
issues succeeds. -/
def familiesQueriesOk : List QueueFamilyAnswer → Bool
  | [] => true
  | q :: rest =>
    if q.queueFlags &&& VK_QUEUE_GRAPHICS_BIT ≠ 0 then
      q.surfaceSupportResult == VK_SUCCESS && (q.surfaceSupport != 0 || familiesQueriesOk rest)
    else familiesQueriesOk rest

/-- The operations the loop over the families of one device issues when its
queries succeed. -/
def choose_gpu_families_ops (gpu surface : Nat) : List QueueFamilyAnswer → Nat → List Op
  | [], _ => []
  | q :: rest, j =>
    if q.queueFlags &&& VK_QUEUE_GRAPHICS_BIT ≠ 0 then
      .vkGetPhysicalDeviceSurfaceSupportKHR gpu j surface ::
        (if q.surfaceSupport ≠ 0 then [] else choose_gpu_families_ops gpu surface rest (j + 1))
    else choose_gpu_families_ops gpu surface rest (j + 1)

/-- The operations the loop over the devices issues when all queries succeed. -/
def choose_gpu_devices_ops (surface : Nat) : List PhysicalDeviceAnswer → List Op
  | [] => []
  | d :: rest =>
    [.vkGetPhysicalDeviceQueueFamilyProperties d.gpu true,
     .vkGetPhysicalDeviceQueueFamilyProperties d.gpu false] ++
      choose_gpu_families_ops d.gpu surface d.queueProps 0 ++
      choose_gpu_devices_ops surface rest

/-- Some enumerated device has a family that offers graphics and can present. -/
def hasEligible (gpus : List PhysicalDeviceAnswer) : Bool :=
  gpus.any (fun d => d.queueProps.any QueueFamilyAnswer.eligible)

/-- The family index the loop over the devices leaves in `graphicsIdx`, which held
`idx` before. -/
def selectedIdx (gpus : List PhysicalDeviceAnswer) (idx : Int) : Int :=
  gpus.foldl
    (fun i d =>
      match d.queueProps.findIdx? QueueFamilyAnswer.eligible with
      | some k => (k : Int)
      | none => i)
    idx

/-- The device the loop over the devices leaves in `gpu`, which held `gpu`
before. -/
def selectedGpu (gpus : List PhysicalDeviceAnswer) (gpu : Nat) : Nat :=
  gpus.foldl
    (fun g d =>
      match d.queueProps.findIdx? QueueFamilyAnswer.eligible with
      | some _ => d.gpu
      | none => g)
    gpu

/-- The surface format the loop over the formats leaves in the context, which
held `previous` before. -/
def chosenFormat (formats : List VkSurfaceFormatKHR) (previous : VkSurfaceFormatKHR) :
    VkSurfaceFormatKHR :=
  (firstPreferredFormat formats).getD previous

/-- The last members of the context after the rounds `j = i, ..., i + n - 1` of a
loop whose round `j` stores `handle j` to slot `base + j`. -/
def storeHandles (base : Nat) (handle : Nat → Nat) : Nat → Nat → ContextTail → ContextTail
  | 0, _, t => t
  | n + 1, i, t => storeHandles base handle n (i + 1) (t.setSlot (base + i) (handle i))

/-- What the rounds `j = i, ..., i + n - 1` of such a loop read, when round `j` reads
slot `src + j` before it stores `handle j` to slot `base + j`. -/
def readSlots (src base : Nat) (handle : Nat → Nat) :
    Nat → Nat → ContextTail → List (Option Nat)
  | 0, _, _ => []
  | n + 1, i, t =>
    t.slot (src + i) :: readSlots src base handle n (i + 1) (t.setSlot (base + i) (handle i))

/-- Each of the three arrays at the end of the context has its five entries. -/
def ContextTail.wellFormed (t : ContextTail) : Prop :=
  t.scImages.length = 5 ∧ t.scImgViews.length = 5 ∧ t.framebuffers.length = 5

/-- The `Buffer` that `vk_allocate_buffer` returns for the requested size and
memory properties, given the driver's answers. -/
def allocatedBuffer (size memProps : Nat) (drv : AllocAnswers) : Buffer :=
  { buffer := if outputWritten drv.createBuffer drv.createBufferAgain then drv.bufferHandle else 0,
    memory :=
      if outputWritten drv.allocateMemory drv.allocateMemoryAgain then drv.memoryHandle else 0,
    size := size,
    data :=
      if memProps &&& VK_MEMORY_PROPERTY_HOST_VISIBLE_BIT ≠ 0 ∧
          outputWritten drv.mapMemory drv.mapMemoryAgain = true
      then drv.mappedAddress else 0 }

/-- The operations one call of `vk_allocate_buffer` issues. -/
def allocateOps (device gpu size bufferUsage memProps : Nat) (drv : AllocAnswers) : List Op :=
  checkedOps (.vkCreateBuffer device bufferUsage size) drv.createBuffer ++
  [.vkGetBufferMemoryRequirements device (allocatedBuffer size memProps drv).buffer,
   .vkGetPhysicalDeviceMemoryProperties gpu] ++
  checkedOps
    (.vkAllocateMemory device drv.memRequirements.size
      (vk_get_memory_type_index_loop drv.gpuMemProps drv.memRequirements memProps
        drv.gpuMemProps.memoryTypeCount 0))
    drv.allocateMemory ++
  (if memProps &&& VK_MEMORY_PROPERTY_HOST_VISIBLE_BIT ≠ 0 then
    checkedOps
      (.vkMapMemory device (allocatedBuffer size memProps drv).memory 0
        drv.memRequirements.size 0)
      drv.mapMemory
   else []) ++
  checkedOps
    (.vkBindBufferMemory device (allocatedBuffer size memProps drv).buffer
      (allocatedBuffer size memProps drv).memory 0)
    drv.bindBufferMemory

/-- The last members of the context when nothing fails, after the filling call of
`vkGetSwapchainImagesKHR`. -/
def swapchainTail (drv : InitAnswers) (ctx : VkContext) : ContextTail :=
  ({ ctx.tail with graphicsIdx := selectedIdx drv.chooseGpu.gpus (-1) } :
    ContextTail).setSlots 0 drv.swapchainImages

/-- The last members of the context when nothing fails, after the loop that creates
the image views. -/
def viewsTail (drv : InitAnswers) (ctx : VkContext) : ContextTail :=
  storeHandles 5 drv.imageViewHandle drv.swapchainImages.length 0 (swapchainTail drv ctx)

/-- The last members of the context when nothing fails, after the loop that creates
the framebuffers. -/
def framebuffersTail (drv : InitAnswers) (ctx : VkContext) : ContextTail :=
  storeHandles 10 drv.framebufferHandle drv.swapchainImages.length 0 (viewsTail drv ctx)

/-- The context `init_vulkan` leaves behind when nothing fails, started on
`ctx`. -/
def init_success_ctx (drv : InitAnswers) (ctx : VkContext) : VkContext :=
  { instance_ := drv.instanceHandle
    debugMessenger := ctx.debugMessenger
    surface := drv.surfaceHandle
    surfaceFormat := chosenFormat drv.surfaceFormats ctx.surfaceFormat
    gpu := selectedGpu drv.chooseGpu.gpus ctx.gpu
    device := drv.deviceHandle
    graphicsQueue := drv.graphicsQueueHandle
    swapchain := drv.swapchainHandle
    renderPass := drv.renderPassHandle
    commandPool := drv.commandPoolHandle
    cmd := drv.cmdHandle
    descPool := drv.descPoolHandle
    setLayout := drv.setLayoutHandle
    descSet := drv.descSetHandle
    pipeLayout := drv.pipeLayoutHandle
    pipeline := drv.pipelineHandle
    globalUBO :=
      allocatedBuffer sizeof_mat4
        (VK_MEMORY_PROPERTY_HOST_COHERENT_BIT ||| VK_MEMORY_PROPERTY_HOST_VISIBLE_BIT)
        drv.globalUBO
    vertexBuffer :=
      allocatedBuffer ((sizeof_float * vertices.length) % 2 ^ 32)
        (VK_MEMORY_PROPERTY_HOST_VISIBLE_BIT ||| VK_MEMORY_PROPERTY_HOST_COHERENT_BIT)
        drv.vertexBuffer
    indexBuffer :=
      allocatedBuffer ((sizeof_GLuint * indices.length) % 2 ^ 32)
        (VK_MEMORY_PROPERTY_HOST_VISIBLE_BIT ||| VK_MEMORY_PROPERTY_HOST_COHERENT_BIT)
        drv.indexBuffer
    aquireSemaphore := drv.aquireSemaphoreHandle
    submitSemaphore := drv.submitSemaphoreHandle
    imgAvailableFence := drv.fenceHandle
    scImgCount := drv.swapchainImages.length
    scImages := (framebuffersTail drv ctx).scImages
    scImgViews := (framebuffersTail drv ctx).scImgViews
    framebuffers := (framebuffersTail drv ctx).framebuffers
    graphicsIdx := (framebuffersTail drv ctx).graphicsIdx
    padding := (framebuffersTail drv ctx).padding
    beyond := (framebuffersTail drv ctx).beyond }

/-- The operations `init_vulkan` issues when nothing fails, in order; `c` is the
context it leaves behind. -/
def init_success_ops (drv : InitAnswers) (host : HostData) (ctx : VkContext) : List Op :=
  let c := init_success_ctx drv ctx
  [.init (.compile_shader "shaders_vulkan/modelViewProj.vert"
      "shaders_vulkan/modelViewProj.vert.spv"),
   .init (.compile_shader "shaders_vulkan/color.frag" "shaders_vulkan/color.frag.spv"),
   .init .glfwGetRequiredInstanceExtensions,
   .init (.vkCreateInstance VK_API_VERSION_1_0 drv.glfwExtensions
     ["VK_LAYER_KHRONOS_validation"]),
   .init (.glfwCreateWindowSurface c.instance_ host.glfwWindow),
   .vkEnumeratePhysicalDevices c.instance_ true,
   .vkEnumeratePhysicalDevices c.instance_ false] ++
  choose_gpu_devices_ops c.surface drv.chooseGpu.gpus ++
  [.init (.vkCreateDevice c.gpu (selectedIdx drv.chooseGpu.gpus (-1)) 1 [0x3F800000]
     ["VK_KHR_swapchain"]),
   .init (.vkGetDeviceQueue c.device (selectedIdx drv.chooseGpu.gpus (-1)) 0),
   .init (.vkGetPhysicalDeviceSurfaceFormatsKHR c.gpu c.surface true),
   .init (.vkGetPhysicalDeviceSurfaceFormatsKHR c.gpu c.surface false),
   .init (.vkGetPhysicalDeviceSurfaceCapabilitiesKHR c.gpu c.surface),
   .init (.vkCreateSwapchainKHR c.device
     { surface := c.surface, minImageCount := imgCount drv.surfaceCaps,
       imageFormat := c.surfaceFormat.format, imageColorSpace := 0,
       imageExtentWidth := drv.surfaceCaps.currentExtentWidth,
       imageExtentHeight := drv.surfaceCaps.currentExtentHeight,
       imageArrayLayers := 1, imageUsage := VK_IMAGE_USAGE_COLOR_ATTACHMENT_BIT,
       preTransform := drv.surfaceCaps.currentTransform,
       compositeAlpha := VK_COMPOSITE_ALPHA_OPAQUE_BIT_KHR,
       presentMode := VK_PRESENT_MODE_FIFO_KHR }),
   .init (.vkGetSwapchainImagesKHR c.device c.swapchain true),
   .init (.vkGetSwapchainImagesKHR c.device c.swapchain false)] ++
  (readSlots 0 5 drv.imageViewHandle c.scImgCount 0 (swapchainTail drv ctx)).map
    (fun image => imageViewOp c.device image c.surfaceFormat.format) ++
  [.init (.vkCreateRenderPass c.device
     { attachments :=
         [{ format := c.surfaceFormat.format, samples := VK_SAMPLE_COUNT_1_BIT,
            loadOp := VK_ATTACHMENT_LOAD_OP_CLEAR, storeOp := VK_ATTACHMENT_STORE_OP_STORE,
            initialLayout := VK_IMAGE_LAYOUT_UNDEFINED,
            finalLayout := VK_IMAGE_LAYOUT_PRESENT_SRC_KHR }],
       subpassCount := 1,
       colorAttachments :=
         [{ attachment := 0, layout := VK_IMAGE_LAYOUT_COLOR_ATTACHMENT_OPTIMAL }] })] ++
  (readSlots 5 10 drv.framebufferHandle c.scImgCount 0 (viewsTail drv ctx)).map
    (framebufferOp c.device c.renderPass) ++
  [.init (.vkCreateCommandPool c.device c.graphicsIdx
     VK_COMMAND_POOL_CREATE_RESET_COMMAND_BUFFER_BIT),
   .init (.vkAllocateCommandBuffers c.device (cmd_alloc_info c.commandPool)),
   .init (.vkCreateSemaphore c.device),
   .init (.vkCreateSemaphore c.device),
   .init (.vkCreateFence c.device (fence_info VK_FENCE_CREATE_SIGNALED_BIT)),
   .init (.vkCreateDescriptorSetLayout c.device
     [layout_binding VK_DESCRIPTOR_TYPE_UNIFORM_BUFFER VK_SHADER_STAGE_VERTEX_BIT 1 0,
      layout_binding VK_DESCRIPTOR_TYPE_STORAGE_BUFFER VK_SHADER_STAGE_VERTEX_BIT 1 1]),
   .init (.vkCreatePipelineLayout c.device [c.setLayout]),
   .init (.read_file "shaders_vulkan/modelViewProj.vert.spv"),
   .init (.vkCreateShaderModule c.device (drv.vertexCode.getD 0)),
   .init (.read_file "shaders_vulkan/color.frag.spv"),
   .init (.vkCreateShaderModule c.device (drv.fragmentCode.getD 0)),
   .init (.vkCreateGraphicsPipelines c.device
     [pipelineInfo c drv.vertexShaderHandle drv.fragmentShaderHandle]),
   .init (.vkDestroyShaderModule c.device drv.vertexShaderHandle),
   .init (.vkDestroyShaderModule c.device drv.fragmentShaderHandle)] ++
  allocateOps c.device c.gpu sizeof_mat4 VK_BUFFER_USAGE_UNIFORM_BUFFER_BIT
    (VK_MEMORY_PROPERTY_HOST_COHERENT_BIT ||| VK_MEMORY_PROPERTY_HOST_VISIBLE_BIT)
    drv.globalUBO ++
  [.vk_copy_to_buffer c.globalUBO host.MVP sizeof_mat4,
   .init (.vkCreateDescriptorPool c.device 2
     [⟨VK_DESCRIPTOR_TYPE_UNIFORM_BUFFER, 1⟩, ⟨VK_DESCRIPTOR_TYPE_STORAGE_BUFFER, 1⟩]),
   .init (.vkAllocateDescriptorSets c.device c.descPool [c.setLayout]),
   .init (.vkUpdateDescriptorSets c.device
     [{ dstSet := c.descSet, dstBinding := 0, dstArrayElement := 0, descriptorCount := 1,
        descriptorType := VK_DESCRIPTOR_TYPE_UNIFORM_BUFFER,
        bufferInfo := [{ buffer := c.globalUBO.buffer, offset := 0, range := sizeof_mat4 }] }])] ++
  allocateOps c.device c.gpu ((sizeof_float * vertices.length) % 2 ^ 32)
    (VK_BUFFER_USAGE_UNIFORM_BUFFER_BIT ||| VK_BUFFER_USAGE_VERTEX_BUFFER_BIT)
    (VK_MEMORY_PROPERTY_HOST_VISIBLE_BIT ||| VK_MEMORY_PROPERTY_HOST_COHERENT_BIT)
    drv.vertexBuffer ++
  [.vk_copy_to_buffer c.vertexBuffer host.vertices_data
    ((sizeof_float * vertices.length) % 2 ^ 32)] ++
  allocateOps c.device c.gpu ((sizeof_GLuint * indices.length) % 2 ^ 32)
    (VK_BUFFER_USAGE_UNIFORM_BUFFER_BIT ||| VK_BUFFER_USAGE_INDEX_BUFFER_BIT)
    (VK_MEMORY_PROPERTY_HOST_VISIBLE_BIT ||| VK_MEMORY_PROPERTY_HOST_COHERENT_BIT)
    drv.indexBuffer ++
  [.vk_copy_to_buffer c.indexBuffer host.indices_data
    ((sizeof_GLuint * indices.length) % 2 ^ 32)]

/-- The host memory after a call `vk_copy_to_buffer(&buffer, data, size)` that found
the memory `mem`. -/
def uploadedMem (buffer : Buffer) (data size : Nat) (mem : Nat → Nat) : Nat → Nat :=
  if buffer.size ≥ size ∧ buffer.data ≠ 0 then memcpy buffer.data data size mem else mem

/-- The host memory `init_vulkan` leaves behind when nothing fails, started on the
memory `mem`: the three uploads, in the order of the calls. -/
def init_success_mem (drv : InitAnswers) (host : HostData) (ctx : VkContext)
    (mem : Nat → Nat) : Nat → Nat :=
  let c := init_success_ctx drv ctx
  uploadedMem c.indexBuffer host.indices_data ((sizeof_GLuint * indices.length) % 2 ^ 32)
    (uploadedMem c.vertexBuffer host.vertices_data ((sizeof_float * vertices.length) % 2 ^ 32)
      (uploadedMem c.globalUBO host.MVP sizeof_mat4 mem))

/-- Nothing fails during `init_vulkan`: both shaders compile, every call under
`VK_CHECK_FATAL` that is issued succeeds, the surface is created, some device is
eligible and both shader binaries can be read. -/
structure InitOk (drv : InitAnswers) : Prop where
  compileVert : drv.compileVert = 0
  compileFrag : drv.compileFrag = 0
  createInstance : drv.createInstance = VK_SUCCESS
  createWindowSurface : drv.createWindowSurface = VK_SUCCESS
  enumerateCount : drv.chooseGpu.enumerateCount = VK_SUCCESS
  enumerateFill : drv.chooseGpu.enumerateFill = VK_SUCCESS
  surfaceSupport : ∀ d ∈ drv.chooseGpu.gpus, familiesQueriesOk d.queueProps = true
  eligible : hasEligible drv.chooseGpu.gpus = true
  createDevice : drv.createDevice = VK_SUCCESS
  surfaceFormatsCount : drv.surfaceFormatsCount = VK_SUCCESS
  surfaceFormatsFill : drv.surfaceFormatsFill = VK_SUCCESS
  surfaceCapabilities : drv.surfaceCapabilities = VK_SUCCESS
  createSwapchain : drv.createSwapchain = VK_SUCCESS
  swapchainImagesCount : drv.swapchainImagesCount = VK_SUCCESS
  swapchainImagesFill : drv.swapchainImagesFill = VK_SUCCESS
  createImageView : ∀ i, i < drv.swapchainImages.length → drv.createImageView i = VK_SUCCESS
  createRenderPass : drv.createRenderPass = VK_SUCCESS
  createFramebuffer : ∀ i, i < drv.swapchainImages.length → drv.createFramebuffer i = VK_SUCCESS
  createCommandPool : drv.createCommandPool = VK_SUCCESS
  allocateCommandBuffers : drv.allocateCommandBuffers = VK_SUCCESS
  createAquireSemaphore : drv.createAquireSemaphore = VK_SUCCESS
  createSubmitSemaphore : drv.createSubmitSemaphore = VK_SUCCESS
  createFence : drv.createFence = VK_SUCCESS
  createDescriptorSetLayout : drv.createDescriptorSetLayout = VK_SUCCESS
  createPipelineLayout : drv.createPipelineLayout = VK_SUCCESS
  vertexCode : drv.vertexCode ≠ none
  createVertexShader : drv.createVertexShader = VK_SUCCESS
  fragmentCode : drv.fragmentCode ≠ none
  createFragmentShader : drv.createFragmentShader = VK_SUCCESS
  createGraphicsPipelines : drv.createGraphicsPipelines = VK_SUCCESS
  createDescriptorPool : drv.createDescriptorPool = VK_SUCCESS
  allocateDescriptorSets : drv.allocateDescriptorSets = VK_SUCCESS

/-! ### What a run of `init_vulkan` issued and left behind -/

/-- The operations issued since the world `w`, in order. -/
def Flow.issued (w : World) (f : Flow) : List Op :=
  f.world.trace.drop w.trace.length

/-- The operation as a call only `init_vulkan` issues, if it is one. -/
def Op.initOp? : Op → Option InitOp
  | .init op => some op
  | _ => none

/-- The image a `vkCreateImageView` call makes a view of. -/
def Op.viewedImages : Op → List (Option Nat)
  | .init (.vkCreateImageView _ info) => [info.image]
  | _ => []

/-- The attachments a `vkCreateFramebuffer` call builds the framebuffer from. -/
def Op.framebufferAttachments : Op → List (List (Option Nat))
  | .init (.vkCreateFramebuffer _ info) => [info.attachments]
  | _ => []

/-- The bindings a `vkCreateDescriptorSetLayout` call declares. -/
def Op.layoutBindings : Op → List VkDescriptorSetLayoutBinding
  | .init (.vkCreateDescriptorSetLayout _ bindings) => bindings
  | _ => []

/-- The writes a `vkUpdateDescriptorSets` call performs. -/
def Op.descriptorWrites : Op → List VkWriteDescriptorSet
  | .init (.vkUpdateDescriptorSets _ writes) => writes
  | _ => []

/-- The framebuffer a `vkCmdBeginRenderPass` call renders into. -/
def Op.renderTargets : Op → List (Option Nat)
  | .vkCmdBeginRenderPass _ _ framebuffer _ _ _ => [framebuffer]
  | _ => []

/-- The image indices a `vkQueuePresentKHR` call names. -/
def Op.presentedIndices : Op → List Nat
  | .vkQueuePresentKHR _ presentInfo => presentInfo.imageIndices
  | _ => []

/-- The device whose queue families a counting call of
`vkGetPhysicalDeviceQueueFamilyProperties` asks for. -/
def Op.examinedDevices : Op → List Nat
  | .vkGetPhysicalDeviceQueueFamilyProperties gpu true => [gpu]
  | _ => []

/-- The family index a `vkGetPhysicalDeviceSurfaceSupportKHR` call asks about. -/
def Op.examinedFamilies : Op → List Nat
  | .vkGetPhysicalDeviceSurfaceSupportKHR _ queueFamilyIndex _ => [queueFamilyIndex]
  | _ => []

/-- A window and the addresses of the globals `MVP`, `vertices` and `indices`. -/
def exampleHostData : HostData :=
  { glfwWindow := 70, MVP := 5000, vertices_data := 6000, indices_data := 7000 }

/-- Driver answers with which nothing fails: the devices of `exampleTwoGpus`, the
formats of `exampleFormatsSrgb`, three swapchain images 40, 41 and 42, the view
`50 + i` and the framebuffer `60 + i` for image `i`. -/
def exampleInitAnswers : InitAnswers :=
  { compileVert := 0, compileFrag := 0,
    glfwExtensions := ["VK_KHR_surface", "VK_KHR_win32_surface"],
    createInstance := 0, createInstanceAgain := 0, instanceHandle := 1,
    createWindowSurface := 0, surfaceHandle := 2,
    chooseGpu := exampleTwoGpus, createDevice := 0, createDeviceAgain := 0, deviceHandle := 4,
    graphicsQueueHandle := 5, surfaceFormatsCount := 0, surfaceFormatsCountAgain := 0,
    surfaceFormatsFill := 0, surfaceFormatsFillAgain := 0,
    surfaceFormats := exampleFormatsSrgb, surfaceCapabilities := 0,
    surfaceCapabilitiesAgain := 0, surfaceCaps := exampleCaps, createSwapchain := 0,
    createSwapchainAgain := 0, swapchainHandle := 6, swapchainImagesCount := 0,
    swapchainImagesCountAgain := 0, swapchainImagesFill := 0, swapchainImagesFillAgain := 0,
    swapchainImages := [40, 41, 42],
    createImageView := fun _ => 0, createImageViewAgain := fun _ => 0,
    imageViewHandle := fun i => 50 + i,
    createRenderPass := 0, createRenderPassAgain := 0, renderPassHandle := 7,
    createFramebuffer := fun _ => 0, createFramebufferAgain := fun _ => 0,
    framebufferHandle := fun i => 60 + i,
    createCommandPool := 0, createCommandPoolAgain := 0, commandPoolHandle := 8,
    allocateCommandBuffers := 0, allocateCommandBuffersAgain := 0, cmdHandle := 9,
    createAquireSemaphore := 0, createAquireSemaphoreAgain := 0, aquireSemaphoreHandle := 30,
    createSubmitSemaphore := 0, createSubmitSemaphoreAgain := 0, submitSemaphoreHandle := 31,
    createFence := 0, createFenceAgain := 0, fenceHandle := 32,
    createDescriptorSetLayout := 0, createDescriptorSetLayoutAgain := 0, setLayoutHandle := 11,
    createPipelineLayout := 0, createPipelineLayoutAgain := 0, pipeLayoutHandle := 13,
    vertexCode := some 1504, createVertexShader := 0, createVertexShaderAgain := 0,
    vertexShaderHandle := 15, fragmentCode := some 572, createFragmentShader := 0,
    createFragmentShaderAgain := 0, fragmentShaderHandle := 16, createGraphicsPipelines := 0,
    createGraphicsPipelinesAgain := 0, pipelineHandle := 14,
    globalUBO := { exampleAllocAnswers with bufferHandle := 20, memoryHandle := 21 },
    createDescriptorPool := 0, createDescriptorPoolAgain := 0, descPoolHandle := 10,
    allocateDescriptorSets := 0, allocateDescriptorSetsAgain := 0, descSetHandle := 12,
    vertexBuffer :=
      { exampleAllocAnswers with bufferHandle := 22, memoryHandle := 23, mappedAddress := 2000 },
    indexBuffer :=
      { exampleAllocAnswers with bufferHandle := 24, memoryHandle := 25, mappedAddress := 3000 } }

/-- Eleven enumerated devices.  The first ten, 101 to 110, have one compute-only
family each.  The eleventh, 111, has eleven families, of which only the last one
offers graphics, and that one can present.  Every query succeeds. -/
def exampleElevenGpus : ChooseGpuAnswers :=
  { enumerateCount := 0, enumerateFill := 0, enumerateCountAgain := 0,
    enumerateFillAgain := 0,
    gpus :=
      (List.range 10).map (fun i => ⟨101 + i, [⟨2, 0, 0, 0⟩]⟩) ++
        [⟨111, List.replicate 10 ⟨2, 0, 0, 0⟩ ++ [⟨1, 0, 1, 0⟩]⟩] }

/-- The answers of `exampleInitAnswers`, except that the swapchain has six images,
40 to 45. -/
def exampleInitAnswersSixImages : InitAnswers :=
  { exampleInitAnswers with swapchainImages := [40, 41, 42, 43, 44, 45] }

/-! ### The frame fence -/

theorem and_two_pow_ne_zero (n i : Nat) : (n &&& 2 ^ i != 0) = n.testBit i := by
  cases h : n.testBit i
  · have : n &&& 2 ^ i = 0 := by
      apply Nat.eq_of_testBit_eq
      intro j
      rw [Nat.testBit_and, Nat.testBit_two_pow, Nat.zero_testBit]
      by_cases hj : i = j
      · subst hj; simp [h]
      · simp [hj]
    simp [this]
  · have : n &&& 2 ^ i ≠ 0 := by
      intro h0
      have := congrArg (fun m => m.testBit i) h0
      simp [Nat.testBit_and, Nat.testBit_two_pow, h] at this
    simpa using this

theorem memoryTypeMatches_eq (p : VkPhysicalDeviceMemoryProperties) (req : VkMemoryRequirements)
    (memProps i : Nat) (hi : i < 32) :
    memoryTypeMatches p req memProps i =
      (req.memoryTypeBits.testBit i &&
        ((p.memoryTypes.getD i ⟨0, 0⟩).propertyFlags &&& memProps == memProps)) := by
  unfold memoryTypeMatches
  have h1 : (1 <<< i) % 2 ^ 32 = 2 ^ i := by
    rw [Nat.one_shiftLeft]
    exact Nat.mod_eq_of_lt (Nat.pow_lt_pow_right (by decide) hi)
  rw [h1, and_two_pow_ne_zero]

theorem memoryTypeMatches_iff (p : VkPhysicalDeviceMemoryProperties) (req : VkMemoryRequirements)
    (memProps i : Nat) (hcount : p.memoryTypeCount ≤ 32) (hi : i < p.memoryTypeCount) :
    memoryTypeMatches p req memProps i = true ↔ memoryTypeSuitable p req memProps i := by
  rw [memoryTypeMatches_eq p req memProps i (by omega)]
  simp [memoryTypeSuitable, hi]

/-- The loop either breaks at the first matching index of its range, or runs to
the end of a range without a match. -/
theorem vk_get_memory_type_index_loop_spec (p : VkPhysicalDeviceMemoryProperties)
    (req : VkMemoryRequirements) (memProps : Nat) (remaining i : Nat) :
    (vk_get_memory_type_index_loop p req memProps remaining i = INVALID_IDX ∧
        ∀ k, i ≤ k → k < i + remaining → memoryTypeMatches p req memProps k = false) ∨
      (i ≤ vk_get_memory_type_index_loop p req memProps remaining i ∧
        vk_get_memory_type_index_loop p req memProps remaining i < i + remaining ∧
        memoryTypeMatches p req memProps
          (vk_get_memory_type_index_loop p req memProps remaining i) = true ∧
        ∀ k, i ≤ k → k < vk_get_memory_type_index_loop p req memProps remaining i →
          memoryTypeMatches p req memProps k = false) := by
  induction remaining generalizing i with
  | zero =>
    left
    refine ⟨rfl, ?_⟩
    intro k h1 h2
    omega
  | succ n ih =>
    unfold vk_get_memory_type_index_loop
    by_cases hm : memoryTypeMatches p req memProps i = true
    · right
      simp only [hm, if_true]
      refine ⟨le_refl _, by omega, trivial, ?_⟩
      intro k h1 h2
      omega
    · simp only [hm]
      have hm2 : memoryTypeMatches p req memProps i = false := by simpa using hm
      rcases ih (i + 1) with ⟨h1, h2⟩ | ⟨h1, h2, h3, h4⟩
      · left
        refine ⟨by simpa using h1, ?_⟩
        intro k hk1 hk2
        by_cases hki : k = i
        · subst hki; exact hm2
        · exact h2 k (by omega) (by omega)
      · right
        simp only [Bool.false_eq_true, if_false]
        refine ⟨by omega, by omega, h3, ?_⟩
        intro k hk1 hk2
        by_cases hki : k = i
        · subst hki; exact hm2
        · exact h4 k (by omega) hk2

theorem vk_get_memory_type_index_fst (gpu : Nat) (p : VkPhysicalDeviceMemoryProperties)
    (req : VkMemoryRequirements) (memProps : Nat) (w : World) :
    (vk_get_memory_type_index gpu p req memProps w).1 =
      vk_get_memory_type_index_loop p req memProps p.memoryTypeCount 0 := rfl

/-- Characterisation of the value `vk_get_memory_type_index` returns. -/
theorem vk_get_memory_type_index_char (gpu : Nat) (p : VkPhysicalDeviceMemoryProperties)
    (req : VkMemoryRequirements) (memProps : Nat) (w : World)
    (hcount : p.memoryTypeCount ≤ 32) :
    ((∃ i, memoryTypeSuitable p req memProps i) →
        memoryTypeSuitable p req memProps (vk_get_memory_type_index gpu p req memProps w).1 ∧
        ∀ j, memoryTypeSuitable p req memProps j →
          (vk_get_memory_type_index gpu p req memProps w).1 ≤ j) ∧
      ((vk_get_memory_type_index gpu p req memProps w).1 = INVALID_IDX ↔
        ¬ ∃ i, memoryTypeSuitable p req memProps i) := by
  rw [vk_get_memory_type_index_fst]
  rcases vk_get_memory_type_index_loop_spec p req memProps p.memoryTypeCount 0 with
    ⟨h1, h2⟩ | ⟨_, h2, h3, h4⟩
  · have hnone : ¬ ∃ i, memoryTypeSuitable p req memProps i := by
      rintro ⟨i, hi⟩
      have hlt : i < p.memoryTypeCount := hi.1
      have := (memoryTypeMatches_iff p req memProps i hcount hlt).mpr hi
      rw [h2 i (Nat.zero_le _) (by omega)] at this
      exact Bool.false_ne_true this
    exact ⟨fun h => absurd h hnone, fun _ => hnone, fun _ => h1⟩
  · have hlt : vk_get_memory_type_index_loop p req memProps p.memoryTypeCount 0 <
        p.memoryTypeCount := by omega
    have hs := (memoryTypeMatches_iff p req memProps _ hcount hlt).mp h3
    refine ⟨fun _ => ⟨hs, ?_⟩, ?_, ?_⟩
    · intro j hj
      by_contra hlt2
      have := (memoryTypeMatches_iff p req memProps j hcount hj.1).mpr hj
      rw [h4 j (Nat.zero_le _) (by omega)] at this
      exact Bool.false_ne_true this
    · intro heq
      rw [heq] at hlt
      unfold INVALID_IDX at hlt
      omega
    · intro hne
      exact absurd ⟨_, hs⟩ hne

/-- C1: with at most 32 memory types, `vk_get_memory_type_index` returns the least
index below `memoryTypeCount` whose bit is set in `memoryTypeBits` and whose
property flags contain every requested flag, and it returns `INVALID_IDX` exactly
when there is no such index. -/
theorem vk_get_memory_type_index_least (gpu : Nat) (p : VkPhysicalDeviceMemoryProperties)
    (req : VkMemoryRequirements) (memProps : Nat) (w : World)
    (hcount : p.memoryTypeCount ≤ 32) :
    ((∃ i, memoryTypeSuitable p req memProps i) →
        memoryTypeSuitable p req memProps (vk_get_memory_type_index gpu p req memProps w).1 ∧
        ∀ j, memoryTypeSuitable p req memProps j →
          (vk_get_memory_type_index gpu p req memProps w).1 ≤ j) ∧
      ((vk_get_memory_type_index gpu p req memProps w).1 = INVALID_IDX ↔
        ¬ ∃ i, memoryTypeSuitable p req memProps i) :=
  vk_get_memory_type_index_char gpu p req memProps w hcount

/-- C1 at a concrete table: types 1 and 2 are both suitable for host-visible
coherent memory, and index 1 is returned. -/
theorem vk_get_memory_type_index_least_witness :
    exampleMemoryTypes.memoryTypeCount ≤ 32 ∧
      (vk_get_memory_type_index 7 exampleMemoryTypes exampleRequirements 6 World.empty).1 = 1 ∧
      (((∃ i, memoryTypeSuitable exampleMemoryTypes exampleRequirements 6 i) →
        memoryTypeSuitable exampleMemoryTypes exampleRequirements 6
          (vk_get_memory_type_index 7 exampleMemoryTypes exampleRequirements 6 World.empty).1 ∧
        ∀ j, memoryTypeSuitable exampleMemoryTypes exampleRequirements 6 j →
          (vk_get_memory_type_index 7 exampleMemoryTypes exampleRequirements 6 World.empty).1
            ≤ j) ∧
      ((vk_get_memory_type_index 7 exampleMemoryTypes exampleRequirements 6 World.empty).1 =
          INVALID_IDX ↔
        ¬ ∃ i, memoryTypeSuitable exampleMemoryTypes exampleRequirements 6 i)) :=
  ⟨by decide, by decide,
    vk_get_memory_type_index_least 7 exampleMemoryTypes exampleRequirements 6 World.empty
      (by decide)⟩

/-- C2, refuted as stated: memory type 1 of the table offers the requested flags,
yet with a requirement mask that allows type 0 only the function returns
`INVALID_IDX`, which is no index of a type offering them. -/
theorem vk_get_memory_type_index_masked_counterexample :
    (∃ i, memoryTypeHasFlags exampleMemoryTypes 6 i) ∧
      (vk_get_memory_type_index 7 exampleMemoryTypes exampleRequirementsDeviceOnly 6
        World.empty).1 = INVALID_IDX ∧
      ¬ memoryTypeHasFlags exampleMemoryTypes 6
        (vk_get_memory_type_index 7 exampleMemoryTypes exampleRequirementsDeviceOnly 6
          World.empty).1 := by
  refine ⟨⟨1, by decide, by decide⟩, by decide, ?_⟩
  have h : (vk_get_memory_type_index 7 exampleMemoryTypes exampleRequirementsDeviceOnly 6
        World.empty).1 = INVALID_IDX := by decide
  rw [h]
  intro hc
  exact absurd hc.1 (by decide)

/-- C2, amended: with at most 32 memory types, if some memory type allowed by
`memoryTypeBits` has property flags containing the request, the function returns an
index (below `memoryTypeCount`) of a type whose flags contain the request; if no
memory type of the device has such flags, it returns `INVALID_IDX`. -/
theorem vk_get_memory_type_index_superset (gpu : Nat) (p : VkPhysicalDeviceMemoryProperties)
    (req : VkMemoryRequirements) (memProps : Nat) (w : World)
    (hcount : p.memoryTypeCount ≤ 32) :
    ((∃ i, memoryTypeSuitable p req memProps i) →
        memoryTypeHasFlags p memProps (vk_get_memory_type_index gpu p req memProps w).1) ∧
      ((¬ ∃ i, memoryTypeHasFlags p memProps i) →
        (vk_get_memory_type_index gpu p req memProps w).1 = INVALID_IDX) := by
  have h := vk_get_memory_type_index_char gpu p req memProps w hcount
  constructor
  · intro hex
    have hs := (h.1 hex).1
    exact ⟨hs.1, hs.2.2⟩
  · intro hno
    apply h.2.mpr
    rintro ⟨i, hi⟩
    exact hno ⟨i, hi.1, hi.2.2⟩

/-- C2 (amended) at a concrete table. -/
theorem vk_get_memory_type_index_superset_witness :
    exampleMemoryTypes.memoryTypeCount ≤ 32 ∧
      (((∃ i, memoryTypeSuitable exampleMemoryTypes exampleRequirements 6 i) →
        memoryTypeHasFlags exampleMemoryTypes 6
          (vk_get_memory_type_index 7 exampleMemoryTypes exampleRequirements 6 World.empty).1) ∧
      ((¬ ∃ i, memoryTypeHasFlags exampleMemoryTypes 6 i) →
        (vk_get_memory_type_index 7 exampleMemoryTypes exampleRequirements 6 World.empty).1 =
          INVALID_IDX)) :=
  ⟨by decide,
    vk_get_memory_type_index_superset 7 exampleMemoryTypes exampleRequirements 6 World.empty
      (by decide)⟩

/-! ## Copy into a buffer -/

/-- C3: when `size` exceeds `buffer.size`, `vk_copy_to_buffer` writes nothing: the
host memory and every field of the `Buffer` are as before the call (the only
effect is the line on `std::cerr`). -/
theorem vk_copy_to_buffer_too_large (buffer : Buffer) (data size : Nat) (w : World)
    (h : size > buffer.size) :
    (vk_copy_to_buffer buffer data size w).2.mem = w.mem ∧
      (vk_copy_to_buffer buffer data size w).1 = buffer ∧
      (vk_copy_to_buffer buffer data size w).2.cerr =
        w.cerr ++ [.bufferTooSmall buffer.size size] := by
  have hn : ¬ buffer.size ≥ size := by omega
  simp [vk_copy_to_buffer, hn, World.issue, World.log]

/-- C3 at a concrete input: 65 bytes offered to a mapped 64-byte buffer. -/
theorem vk_copy_to_buffer_too_large_witness :
    65 > exampleMappedBuffer.size ∧
      ((vk_copy_to_buffer exampleMappedBuffer 5000 65 exampleWorld).2.mem = exampleWorld.mem ∧
        (vk_copy_to_buffer exampleMappedBuffer 5000 65 exampleWorld).1 = exampleMappedBuffer ∧
        (vk_copy_to_buffer exampleMappedBuffer 5000 65 exampleWorld).2.cerr =
          exampleWorld.cerr ++ [.bufferTooSmall exampleMappedBuffer.size 65]) :=
  ⟨by decide, vk_copy_to_buffer_too_large exampleMappedBuffer 5000 65 exampleWorld (by decide)⟩

/-- C4: for a mapped buffer and `size ≤ buffer.size`, after `vk_copy_to_buffer` the
first `size` bytes of the mapping are the first `size` bytes of the source, every
byte of the mapping at an offset from `size` on (indeed every byte outside the
first `size` bytes of the mapping) is unchanged, and the `Buffer` is unchanged. -/
theorem vk_copy_to_buffer_mapped (buffer : Buffer) (data size : Nat) (w : World)
    (hmapped : buffer.data ≠ 0) (hsize : size ≤ buffer.size) :
    (∀ k, k < size →
        (vk_copy_to_buffer buffer data size w).2.mem (buffer.data + k) = w.mem (data + k)) ∧
      (∀ k, size ≤ k →
        (vk_copy_to_buffer buffer data size w).2.mem (buffer.data + k) =
          w.mem (buffer.data + k)) ∧
      (∀ a, a < buffer.data ∨ buffer.data + size ≤ a →
        (vk_copy_to_buffer buffer data size w).2.mem a = w.mem a) ∧
      (vk_copy_to_buffer buffer data size w).1 = buffer := by
  have hge : buffer.size ≥ size := hsize
  simp only [vk_copy_to_buffer, hge, hmapped, if_true, ne_eq, not_false_eq_true, memcpy,
    World.issue]
  refine ⟨?_, ?_, ?_, trivial⟩
  · intro k hk
    have h1 : buffer.data ≤ buffer.data + k ∧ buffer.data + k < buffer.data + size :=
      ⟨by omega, by omega⟩
    simp only [h1, and_self, if_true, Nat.add_sub_cancel_left]
  · intro k hk
    have h1 : ¬ (buffer.data ≤ buffer.data + k ∧ buffer.data + k < buffer.data + size) := by
      omega
    simp only [h1, if_false]
  · intro a ha
    have h1 : ¬ (buffer.data ≤ a ∧ a < buffer.data + size) := by omega
    simp only [h1, if_false]

/-- C4 at a concrete input: 16 bytes copied from address 5000 into the mapping of
a 64-byte buffer at address 1000. -/
theorem vk_copy_to_buffer_mapped_witness :
    exampleMappedBuffer.data ≠ 0 ∧ 16 ≤ exampleMappedBuffer.size ∧
      (vk_copy_to_buffer exampleMappedBuffer 5000 16 exampleWorld).2.mem 1003 = 139 ∧
      ((∀ k, k < 16 →
          (vk_copy_to_buffer exampleMappedBuffer 5000 16 exampleWorld).2.mem
            (exampleMappedBuffer.data + k) = exampleWorld.mem (5000 + k)) ∧
        (∀ k, 16 ≤ k →
          (vk_copy_to_buffer exampleMappedBuffer 5000 16 exampleWorld).2.mem
            (exampleMappedBuffer.data + k) = exampleWorld.mem (exampleMappedBuffer.data + k)) ∧
        (∀ a, a < exampleMappedBuffer.data ∨ exampleMappedBuffer.data + 16 ≤ a →
          (vk_copy_to_buffer exampleMappedBuffer 5000 16 exampleWorld).2.mem a =
            exampleWorld.mem a) ∧
        (vk_copy_to_buffer exampleMappedBuffer 5000 16 exampleWorld).1 = exampleMappedBuffer) :=
  ⟨by decide, by decide, by decide,
    vk_copy_to_buffer_mapped exampleMappedBuffer 5000 16 exampleWorld (by decide) (by decide)⟩

/-- C5: for an unmapped buffer (`data` null) and any `size`, `vk_copy_to_buffer`
writes no memory and leaves the `Buffer` unchanged, whether or not `size` fits (and
when it fits, nothing is logged either). -/
theorem vk_copy_to_buffer_unmapped (buffer : Buffer) (data size : Nat) (w : World)
    (hnull : buffer.data = 0) :
    (vk_copy_to_buffer buffer data size w).2.mem = w.mem ∧
      (vk_copy_to_buffer buffer data size w).1 = buffer ∧
      (size ≤ buffer.size → (vk_copy_to_buffer buffer data size w).2.cerr = w.cerr) := by
  unfold vk_copy_to_buffer
  by_cases hge : buffer.size ≥ size
  · simp [hge, hnull, World.issue]
  · simp [hge, World.issue, World.log]

/-- C5 at concrete inputs: a size that fits and a size that does not. -/
theorem vk_copy_to_buffer_unmapped_witness :
    exampleUnmappedBuffer.data = 0 ∧
      ((vk_copy_to_buffer exampleUnmappedBuffer 5000 16 exampleWorld).2.mem = exampleWorld.mem ∧
        (vk_copy_to_buffer exampleUnmappedBuffer 5000 16 exampleWorld).1 =
          exampleUnmappedBuffer) ∧
      ((vk_copy_to_buffer exampleUnmappedBuffer 5000 65 exampleWorld).2.mem = exampleWorld.mem ∧
        (vk_copy_to_buffer exampleUnmappedBuffer 5000 65 exampleWorld).1 =
          exampleUnmappedBuffer) :=
  ⟨rfl,
    ⟨(vk_copy_to_buffer_unmapped exampleUnmappedBuffer 5000 16 exampleWorld rfl).1,
      (vk_copy_to_buffer_unmapped exampleUnmappedBuffer 5000 16 exampleWorld rfl).2.1⟩,
    ⟨(vk_copy_to_buffer_unmapped exampleUnmappedBuffer 5000 65 exampleWorld rfl).1,
      (vk_copy_to_buffer_unmapped exampleUnmappedBuffer 5000 65 exampleWorld rfl).2.1⟩⟩


/-! ## Bookkeeping of the world -/

@[simp] theorem World.issue_trace (w : World) (op : Op) : (w.issue op).trace = w.trace ++ [op] :=
  rfl

@[simp] theorem World.issue_mem (w : World) (op : Op) : (w.issue op).mem = w.mem := rfl

@[simp] theorem World.issue_cerr (w : World) (op : Op) : (w.issue op).cerr = w.cerr := rfl

@[simp] theorem World.log_trace (w : World) (l : LogLine) : (w.log l).trace = w.trace := rfl

@[simp] theorem World.log_mem (w : World) (l : LogLine) : (w.log l).mem = w.mem := rfl

/-- A call under `VK_CHECK` is issued once when it succeeds and twice when it does
not. -/
@[simp] theorem VK_CHECK_trace (op : Op) (r a : Int) (w : World) :
    (VK_CHECK op r a w).trace = w.trace ++ checkedOps op r := by
  unfold VK_CHECK checkedOps
  split <;> simp

@[simp] theorem VK_CHECK_mem (op : Op) (r a : Int) (w : World) :
    (VK_CHECK op r a w).mem = w.mem := by
  unfold VK_CHECK
  simp only
  split <;> rfl

/-- What `VK_CHECK` logs is the result of the second call. -/
theorem VK_CHECK_cerr (op : Op) (r a : Int) (w : World) :
    (VK_CHECK op r a w).cerr =
      w.cerr ++ (if r ≠ VK_SUCCESS then [.vulkanErrorCode a] else []) := by
  unfold VK_CHECK
  simp only
  split <;> simp [World.log]

@[simp] theorem vk_get_memory_type_index_trace (gpu : Nat)
    (p : VkPhysicalDeviceMemoryProperties) (req : VkMemoryRequirements) (memProps : Nat)
    (w : World) :
    (vk_get_memory_type_index gpu p req memProps w).2.trace =
      w.trace ++ [.vkGetPhysicalDeviceMemoryProperties gpu] := by
  unfold vk_get_memory_type_index
  simp only
  split <;> rfl

@[simp] theorem vk_get_memory_type_index_mem (gpu : Nat)
    (p : VkPhysicalDeviceMemoryProperties) (req : VkMemoryRequirements) (memProps : Nat)
    (w : World) :
    (vk_get_memory_type_index gpu p req memProps w).2.mem = w.mem := by
  unfold vk_get_memory_type_index
  simp only
  split <;> rfl

@[simp] theorem vk_copy_to_buffer_trace (buffer : Buffer) (data size : Nat) (w : World) :
    (vk_copy_to_buffer buffer data size w).2.trace =
      w.trace ++ [.vk_copy_to_buffer buffer data size] := by
  unfold vk_copy_to_buffer
  split_ifs <;> rfl

/-! ## Buffer allocation -/

/-- The `Buffer` that `vk_allocate_buffer` returns, in terms of the driver's
answers. -/
theorem vk_allocate_buffer_fst_eq (device gpu size bufferUsage memProps : Nat)
    (drv : AllocAnswers) (w : World) :
    (vk_allocate_buffer device gpu size bufferUsage memProps drv w).1 =
      allocatedBuffer size memProps drv := by
  by_cases h1 : outputWritten drv.createBuffer drv.createBufferAgain = true <;>
  by_cases h2 : outputWritten drv.allocateMemory drv.allocateMemoryAgain = true <;>
  by_cases h3 : outputWritten drv.mapMemory drv.mapMemoryAgain = true <;>
  by_cases h4 : memProps &&& VK_MEMORY_PROPERTY_HOST_VISIBLE_BIT = 0 <;>
  simp [vk_allocate_buffer, allocatedBuffer, h1, h2, h3, h4]

/-- The operations of `vk_allocate_buffer`, in terms of the driver's answers. -/
theorem vk_allocate_buffer_trace_eq (device gpu size bufferUsage memProps : Nat)
    (drv : AllocAnswers) (w : World) :
    (vk_allocate_buffer device gpu size bufferUsage memProps drv w).2.trace =
      w.trace ++ allocateOps device gpu size bufferUsage memProps drv := by
  by_cases h1 : outputWritten drv.createBuffer drv.createBufferAgain = true <;>
  by_cases h2 : outputWritten drv.allocateMemory drv.allocateMemoryAgain = true <;>
  by_cases h3 : outputWritten drv.mapMemory drv.mapMemoryAgain = true <;>
  by_cases h4 : memProps &&& VK_MEMORY_PROPERTY_HOST_VISIBLE_BIT = 0 <;>
  simp [vk_allocate_buffer, allocateOps, allocatedBuffer, vk_get_memory_type_index_fst, h1, h2,
    h3, h4]

/-- The allocation leaves the host memory as it was. -/
@[simp] theorem vk_allocate_buffer_mem (device gpu size bufferUsage memProps : Nat)
    (drv : AllocAnswers) (w : World) :
    (vk_allocate_buffer device gpu size bufferUsage memProps drv w).2.mem = w.mem := by
  unfold vk_allocate_buffer
  simp only
  split <;> simp

/-- The operations of one frame: those of `frame_ops`, in which each call under
`VK_CHECK` appears twice when its first result is not `VK_SUCCESS`. -/
theorem render_scene_vulkan_trace (ctx : VkContext) (MVP : Nat) (drv : FrameAnswers) (w : World) :
    (render_scene_vulkan ctx MVP drv w).trace = w.trace ++ frame_ops ctx MVP drv := by
  simp [render_scene_vulkan, frame_ops]

@[simp] theorem mem_checkedOps (x op : Op) (r : Int) : x ∈ checkedOps op r ↔ x = op := by
  unfold checkedOps
  split <;> simp

theorem checkedOps_of_success (op : Op) (r : Int) (h : r = VK_SUCCESS) :
    checkedOps op r = [op] := by
  simp [checkedOps, h]

theorem checkedOps_of_failure (op : Op) (r : Int) (h : r ≠ VK_SUCCESS) :
    checkedOps op r = [op, op] := by
  simp [checkedOps, h]

/-- In a frame in which each of the six calls under `VK_CHECK` succeeds, the
operations are the eighteen of the frame, each issued once, in the order of the
source. -/
theorem render_scene_vulkan_order_of_success (ctx : VkContext) (MVP : Nat)
    (drv : FrameAnswers) (w : World)
    (hwait : drv.waitForFences = VK_SUCCESS) (hreset : drv.resetFences = VK_SUCCESS)
    (hacquire : drv.acquireNextImage = VK_SUCCESS)
    (hbegin : drv.beginCommandBuffer = VK_SUCCESS)
    (hend : drv.endCommandBuffer = VK_SUCCESS) (hsubmit : drv.queueSubmit = VK_SUCCESS) :
    ((render_scene_vulkan ctx MVP drv w).trace.drop w.trace.length).map Op.name =
      ["vkWaitForFences", "vkResetFences", "vk_copy_to_buffer", "vkAcquireNextImageKHR",
       "vkResetCommandBuffer", "vkBeginCommandBuffer", "vkCmdBeginRenderPass",
       "vkCmdSetViewport", "vkCmdSetScissor", "vkCmdBindPipeline", "vkCmdBindVertexBuffers",
       "vkCmdBindIndexBuffer", "vkCmdBindDescriptorSets", "vkCmdDrawIndexed",
       "vkCmdEndRenderPass", "vkEndCommandBuffer", "vkQueueSubmit", "vkQueuePresentKHR"] := by
  rw [render_scene_vulkan_trace, List.drop_left]
  simp only [frame_ops, checkedOps_of_success _ _ hwait, checkedOps_of_success _ _ hreset,
    checkedOps_of_success _ _ hacquire, checkedOps_of_success _ _ hbegin,
    checkedOps_of_success _ _ hend, checkedOps_of_success _ _ hsubmit]
  rfl

/-- C7, the code at a failing input: in a frame in which the six calls under
`VK_CHECK` fail, `render_scene_vulkan` issues twenty-four operations, not eighteen.
The wait, the fence reset, the acquire, the begin and the end of the command buffer
and the queue submission are each issued twice in a row, because the macro evaluates
its argument a second time when the first result is not `VK_SUCCESS`; and what is
logged are the six results of the second calls. -/
theorem render_scene_vulkan_repeats_failed_calls :
    ((render_scene_vulkan exampleContext 5000 exampleFrameAnswersLost World.empty).trace.drop
        World.empty.trace.length).map Op.name =
      ["vkWaitForFences", "vkWaitForFences", "vkResetFences", "vkResetFences",
       "vk_copy_to_buffer", "vkAcquireNextImageKHR", "vkAcquireNextImageKHR",
       "vkResetCommandBuffer", "vkBeginCommandBuffer", "vkBeginCommandBuffer",
       "vkCmdBeginRenderPass", "vkCmdSetViewport", "vkCmdSetScissor", "vkCmdBindPipeline",
       "vkCmdBindVertexBuffers", "vkCmdBindIndexBuffer", "vkCmdBindDescriptorSets",
       "vkCmdDrawIndexed", "vkCmdEndRenderPass", "vkEndCommandBuffer", "vkEndCommandBuffer",
       "vkQueueSubmit", "vkQueueSubmit", "vkQueuePresentKHR"] ∧
      ((render_scene_vulkan exampleContext 5000 exampleFrameAnswersLost World.empty).trace.drop
        World.empty.trace.length).length = 24 ∧
      (render_scene_vulkan exampleContext 5000 exampleFrameAnswersLost World.empty).cerr =
        [.vulkanErrorCode (-4), .vulkanErrorCode (-4), .vulkanErrorCode (-4),
         .vulkanErrorCode (-4), .vulkanErrorCode (-4), .vulkanErrorCode (-4)] := by
  decide

/-- In a frame in which the wait, the acquire and the submission succeed, on a
context whose two semaphores are distinct and whose acquire semaphore and fence are
non-null handles, the synchronisation objects form one chain: each semaphore is
signalled once and waited on once, and the fence is waited on once and signalled
once. -/
theorem render_scene_vulkan_sync_chain_of_success (ctx : VkContext) (MVP : Nat)
    (drv : FrameAnswers) (w : World) (hacq : ctx.aquireSemaphore ≠ 0)
    (hfence : ctx.imgAvailableFence ≠ 0)
    (hwait : drv.waitForFences = VK_SUCCESS) (hacquire : drv.acquireNextImage = VK_SUCCESS)
    (hsubmit : drv.queueSubmit = VK_SUCCESS) :
    ((render_scene_vulkan ctx MVP drv w).trace.drop w.trace.length).head? =
        some (.vkWaitForFences ctx.device [ctx.imgAvailableFence] VK_TRUE UINT64_MAX) ∧
      ((render_scene_vulkan ctx MVP drv w).trace.drop w.trace.length).flatMap
          Op.signalledSemaphores = [ctx.aquireSemaphore, ctx.submitSemaphore] ∧
      ((render_scene_vulkan ctx MVP drv w).trace.drop w.trace.length).flatMap
          Op.waitedSemaphores = [ctx.aquireSemaphore, ctx.submitSemaphore] ∧
      ((render_scene_vulkan ctx MVP drv w).trace.drop w.trace.length).flatMap
          Op.signalledFences = [ctx.imgAvailableFence] ∧
      ((render_scene_vulkan ctx MVP drv w).trace.drop w.trace.length).flatMap
          Op.waitedFences = [ctx.imgAvailableFence] := by
  rw [render_scene_vulkan_trace, List.drop_left]
  simp only [frame_ops, checkedOps_of_success _ _ hwait, checkedOps_of_success _ _ hacquire,
    checkedOps_of_success _ _ hsubmit]
  by_cases h2 : drv.resetFences = VK_SUCCESS <;>
  by_cases h4 : drv.beginCommandBuffer = VK_SUCCESS <;>
  by_cases h5 : drv.endCommandBuffer = VK_SUCCESS <;>
  simp [checkedOps, h2, h4, h5, Op.signalledSemaphores, Op.waitedSemaphores,
    Op.signalledFences, Op.waitedFences, hacq, hfence]

/-- C9, the code at a failing input: in a frame in which the six calls under
`VK_CHECK` fail, the acquire and the submission are each issued twice, because the
macro evaluates its argument a second time when the first result is not
`VK_SUCCESS`.  The acquire semaphore 30 is handed to two acquires to signal and to
two submissions to wait on, the submit semaphore 31 to two submissions to signal, and
the fence 32 to two waits and to two submissions to signal. -/
theorem render_scene_vulkan_failed_frame_doubles_chain :
    ((render_scene_vulkan exampleContext 5000 exampleFrameAnswersLost World.empty).trace.drop
        World.empty.trace.length).filter (fun op => op.name = "vkAcquireNextImageKHR") =
      [.vkAcquireNextImageKHR 4 6 UINT64_MAX 30 0, .vkAcquireNextImageKHR 4 6 UINT64_MAX 30 0] ∧
      ((render_scene_vulkan exampleContext 5000 exampleFrameAnswersLost World.empty).trace.drop
        World.empty.trace.length).filter (fun op => op.name = "vkQueueSubmit") =
      [.vkQueueSubmit 5 [⟨[30], [VK_PIPELINE_STAGE_COLOR_ATTACHMENT_OUTPUT_BIT], [9], [31]⟩] 32,
       .vkQueueSubmit 5 [⟨[30], [VK_PIPELINE_STAGE_COLOR_ATTACHMENT_OUTPUT_BIT], [9], [31]⟩]
         32] ∧
      ((render_scene_vulkan exampleContext 5000 exampleFrameAnswersLost World.empty).trace.drop
        World.empty.trace.length).flatMap Op.signalledSemaphores = [30, 30, 31, 31] ∧
      ((render_scene_vulkan exampleContext 5000 exampleFrameAnswersLost World.empty).trace.drop
        World.empty.trace.length).flatMap Op.waitedSemaphores = [30, 30, 31] ∧
      ((render_scene_vulkan exampleContext 5000 exampleFrameAnswersLost World.empty).trace.drop
        World.empty.trace.length).flatMap Op.signalledFences = [32, 32] ∧
      ((render_scene_vulkan exampleContext 5000 exampleFrameAnswersLost World.empty).trace.drop
        World.empty.trace.length).flatMap Op.waitedFences = [32, 32] := by
  decide

/-! ## Consecutive frames -/

@[simp] theorem update_scene_trace (MVP : Nat) (mvpBytes : Nat → Nat) (w : World) :
    (update_scene MVP mvpBytes w).trace = w.trace := rfl

/-- The trace of the rendering loop is the frames' operations, one frame after
the other. -/
theorem render_loop_trace (ctx : VkContext) (MVP : Nat) (frames : List FrameInput) (w : World) :
    (render_loop ctx MVP frames w).trace =
      w.trace ++ frames.flatMap (fun f => frame_ops ctx MVP f.drv) := by
  induction frames generalizing w with
  | nil => simp [render_loop]
  | cons f rest ih =>
    simp [render_loop, ih, render_scene_vulkan_trace]

/-- One step of the scan. -/
theorem scanReuse_cons (ctx : VkContext) (p : List Nat) (op : Op) (rest : List Op)
    (p' : List Nat) (h : scanReuse ctx p (op :: rest) = some p') :
    (op.touchesFrameResources ctx = true → p = []) ∧
      ∃ p2, scanReuse ctx p2 rest = some p' ∧
        (∀ f ∈ p, op.isUnboundedWaitOn f = false → f ∈ p2) ∧
        (∀ f, op.submitFence = some f → f ∈ p2) := by
  unfold scanReuse at h
  by_cases hc : (op.touchesFrameResources ctx && !p.isEmpty) = true
  · simp [hc] at h
  · simp only [hc, Bool.false_eq_true, if_false] at h
    constructor
    · intro ht
      simp only [ht, Bool.true_and, Bool.not_eq_true, Bool.not_eq_false_eq_eq_true,
        Bool.not_eq_eq_eq_not, Bool.not_true, Bool.not_eq_false] at hc
      simpa using hc
    · cases hsf : op.submitFence with
      | none =>
        rw [hsf] at h
        refine ⟨_, h, ?_, ?_⟩
        · intro f hf hw
          simp [List.mem_filter, hf, hw]
        · intro f hf
          cases hf
      | some f0 =>
        rw [hsf] at h
        refine ⟨_, h, ?_, ?_⟩
        · intro f hf hw
          simp [List.mem_filter, hf, hw]
        · intro f hf
          cases hf
          simp

/-- Soundness of the scan: in a trace that passes it, every touch of the frame
resources is preceded by an unbounded wait on each fence pending at the start, and
between a submission and a later touch lies an unbounded wait on the submission's
fence. -/
theorem scanReuse_sound (ctx : VkContext) (l : List Op) :
    ∀ (p p' : List Nat), scanReuse ctx p l = some p' →
      (∀ f ∈ p, ∀ (j : Nat) (t : Op), l[j]? = some t → t.touchesFrameResources ctx = true →
        ∃ k op, k < j ∧ l[k]? = some op ∧ op.isUnboundedWaitOn f = true) ∧
      (∀ (i j : Nat) (q : Nat) (s : List VkSubmitInfo) (f : Nat) (t : Op), i < j →
        l[i]? = some (.vkQueueSubmit q s f) → l[j]? = some t →
        t.touchesFrameResources ctx = true →
        ∃ k op, i < k ∧ k < j ∧ l[k]? = some op ∧ op.isUnboundedWaitOn f = true) := by
  induction l with
  | nil =>
    intro p p' _
    constructor
    · intro f _ j t hj
      simp at hj
    · intro i j q s f t _ hi
      simp at hi
  | cons op rest ih =>
    intro p p' h
    obtain ⟨hempty, p2, hscan, hkeep, hsub⟩ := scanReuse_cons ctx p op rest p' h
    obtain ⟨ihA, ihB⟩ := ih p2 p' hscan
    constructor
    · intro f hf j t hj ht
      cases j with
      | zero =>
        simp only [List.getElem?_cons_zero, Option.some.injEq] at hj
        subst hj
        rw [hempty ht] at hf
        cases hf
      | succ j' =>
        simp only [List.getElem?_cons_succ] at hj
        by_cases hw : op.isUnboundedWaitOn f = true
        · exact ⟨0, op, Nat.succ_pos _, by simp, hw⟩
        · have hw2 : op.isUnboundedWaitOn f = false := by simpa using hw
          obtain ⟨k, o, hk, hok, hwk⟩ := ihA f (hkeep f hf hw2) j' t hj ht
          exact ⟨k + 1, o, by omega, by simpa using hok, hwk⟩
    · intro i j q s f t hij hi hj ht
      cases j with
      | zero => omega
      | succ j' =>
        simp only [List.getElem?_cons_succ] at hj
        cases i with
        | zero =>
          simp only [List.getElem?_cons_zero, Option.some.injEq] at hi
          have hf : f ∈ p2 := hsub f (by rw [hi]; rfl)
          obtain ⟨k, o, hk, hok, hwk⟩ := ihA f hf j' t hj ht
          exact ⟨k + 1, o, by omega, by omega, by simpa using hok, hwk⟩
        | succ i' =>
          simp only [List.getElem?_cons_succ] at hi
          obtain ⟨k, o, hk1, hk2, hok, hwk⟩ := ihB i' j' q s f t (by omega) hi hj ht
          exact ⟨k + 1, o, by omega, by omega, by simpa using hok, hwk⟩

/-- The scan of a concatenation. -/
theorem scanReuse_append (ctx : VkContext) (a b : List Op) :
    ∀ p, scanReuse ctx p (a ++ b) = (scanReuse ctx p a).bind (fun p1 => scanReuse ctx p1 b) := by
  induction a with
  | nil => intro p; simp [scanReuse]
  | cons op rest ih =>
    intro p
    simp only [List.cons_append, scanReuse]
    split_ifs
    · rfl
    · cases op.submitFence <;> simp [ih]

/-- An unbounded wait on the frame fence clears what is pending, when nothing but
that fence is pending. -/
theorem scanReuse_wait (ctx : VkContext) (p : List Nat) (device fence waitAll : Nat)
    (rest : List Op) (hp : ∀ f ∈ p, f = fence) :
    scanReuse ctx p (.vkWaitForFences device [fence] waitAll UINT64_MAX :: rest) =
      scanReuse ctx [] rest := by
  have hf : p.filter
      (fun f => !(Op.vkWaitForFences device [fence] waitAll UINT64_MAX).isUnboundedWaitOn f) =
        [] := by
    rw [List.filter_eq_nil_iff]
    intro f hf
    simp [Op.isUnboundedWaitOn, hp f hf]
  simp [scanReuse, Op.touchesFrameResources, Op.recordsInto, Op.copiesInto, Op.submitFence, hf]

/-- While nothing is pending, operations other than submissions pass the scan and
leave nothing pending. -/
theorem scanReuse_neutral (ctx : VkContext) (l rest : List Op)
    (h : ∀ op ∈ l, op.submitFence = none) :
    scanReuse ctx [] (l ++ rest) = scanReuse ctx [] rest := by
  induction l with
  | nil => rfl
  | cons op l ih =>
    have h1 : op.submitFence = none := h op (List.mem_cons_self _ _)
    simp only [List.cons_append, scanReuse, List.isEmpty_nil, Bool.not_true, Bool.and_false,
      Bool.false_eq_true, if_false, List.filter_nil, h1]
    exact ih (fun o ho => h o (List.mem_cons_of_mem _ ho))

/-- One frame passes the scan when at most its own fence is pending, and leaves
nothing but that fence pending. -/
theorem scanReuse_frame (ctx : VkContext) (MVP : Nat) (drv : FrameAnswers) (p : List Nat)
    (hp : ∀ f ∈ p, f = ctx.imgAvailableFence) :
    ∃ p', scanReuse ctx p (frame_ops ctx MVP drv) = some p' ∧
      ∀ f ∈ p', f = ctx.imgAvailableFence := by
  have hsplit : ∃ mid : List Op, (∀ op ∈ mid, op.submitFence = none) ∧
      frame_ops ctx MVP drv =
        .vkWaitForFences ctx.device [ctx.imgAvailableFence] VK_TRUE UINT64_MAX ::
          (mid ++
            (checkedOps
              (.vkQueueSubmit ctx.graphicsQueue
                [⟨[ctx.aquireSemaphore], [VK_PIPELINE_STAGE_COLOR_ATTACHMENT_OUTPUT_BIT],
                  [ctx.cmd], [ctx.submitSemaphore]⟩]
                ctx.imgAvailableFence)
              drv.queueSubmit ++
            [.vkQueuePresentKHR ctx.graphicsQueue
              ⟨[ctx.submitSemaphore], [ctx.swapchain], [drv.imgIdx]⟩])) := by
    refine ⟨(if drv.waitForFences ≠ VK_SUCCESS then
          [.vkWaitForFences ctx.device [ctx.imgAvailableFence] VK_TRUE UINT64_MAX] else []) ++
        (checkedOps (.vkResetFences ctx.device [ctx.imgAvailableFence]) drv.resetFences ++
        [.vk_copy_to_buffer ctx.globalUBO MVP sizeof_mat4] ++
        checkedOps
          (.vkAcquireNextImageKHR ctx.device ctx.swapchain UINT64_MAX ctx.aquireSemaphore 0)
          drv.acquireNextImage ++
        [.vkResetCommandBuffer ctx.cmd 0] ++
        checkedOps (.vkBeginCommandBuffer ctx.cmd VK_COMMAND_BUFFER_USAGE_ONE_TIME_SUBMIT_BIT)
          drv.beginCommandBuffer ++
        [.vkCmdBeginRenderPass ctx.cmd ctx.renderPass (ctx.slot (10 + drv.imgIdx))
           ⟨0, 0, SCREEN_WIDTH, SCREEN_HEIGHT⟩ [0x3E4CCCCD, 0x3E4CCCCD, 0x3E4CCCCD, 0x3F800000]
           VK_SUBPASS_CONTENTS_INLINE,
         .vkCmdSetViewport ctx.cmd 0 [⟨0, 0, 0x44480000, 0x44480000, 0, 0x3F800000⟩],
         .vkCmdSetScissor ctx.cmd 0 [⟨0, 0, SCREEN_WIDTH, SCREEN_HEIGHT⟩],
         .vkCmdBindPipeline ctx.cmd VK_PIPELINE_BIND_POINT_GRAPHICS ctx.pipeline,
         .vkCmdBindVertexBuffers ctx.cmd 0 [ctx.vertexBuffer.buffer] [0],
         .vkCmdBindIndexBuffer ctx.cmd ctx.indexBuffer.buffer 0 VK_INDEX_TYPE_UINT32,
         .vkCmdBindDescriptorSets ctx.cmd VK_PIPELINE_BIND_POINT_GRAPHICS ctx.pipeLayout 0
           [ctx.descSet] [],
         .vkCmdDrawIndexed ctx.cmd indices_size 1 0 0 0,
         .vkCmdEndRenderPass ctx.cmd] ++
        checkedOps (.vkEndCommandBuffer ctx.cmd) drv.endCommandBuffer), ?_, ?_⟩
    · intro op hop
      simp only [List.mem_append, mem_checkedOps, List.mem_cons, List.mem_nil_iff,
        or_false, List.mem_ite_nil_right, List.mem_singleton] at hop
      rcases hop with ⟨_, rfl⟩ | hop
      · rfl
      · rcases hop with ((((((rfl | rfl) | rfl) | rfl) | rfl) | hop) | rfl)
        · rfl
        · rfl
        · rfl
        · rfl
        · rfl
        · rcases hop with rfl | rfl | rfl | rfl | rfl | rfl | rfl | rfl | rfl <;> rfl
        · rfl
    · by_cases h1 : drv.waitForFences = VK_SUCCESS <;>
      simp [frame_ops, checkedOps, h1]
  obtain ⟨mid, hmid, heq⟩ := hsplit
  rw [heq, scanReuse_wait ctx p _ _ _ _ hp, scanReuse_neutral ctx mid _ hmid]
  by_cases h6 : drv.queueSubmit = VK_SUCCESS
  · refine ⟨[ctx.imgAvailableFence], ?_, by simp⟩
    simp [checkedOps, h6, scanReuse, Op.touchesFrameResources, Op.recordsInto, Op.copiesInto,
      Op.isUnboundedWaitOn, Op.submitFence]
  · refine ⟨[ctx.imgAvailableFence, ctx.imgAvailableFence], ?_, by simp⟩
    simp [checkedOps, h6, scanReuse, Op.touchesFrameResources, Op.recordsInto, Op.copiesInto,
      Op.isUnboundedWaitOn, Op.submitFence]

/-- Any number of frames passes the scan. -/
theorem scanReuse_frames (ctx : VkContext) (MVP : Nat) (frames : List FrameInput) :
    ∀ p, (∀ f ∈ p, f = ctx.imgAvailableFence) →
      ∃ p', scanReuse ctx p (frames.flatMap (fun f => frame_ops ctx MVP f.drv)) =
        some p' := by
  induction frames with
  | nil => intro p _; exact ⟨p, by simp [scanReuse]⟩
  | cons f rest ih =>
    intro p hp
    obtain ⟨p1, hp1, hall⟩ := scanReuse_frame ctx MVP f.drv p hp
    obtain ⟨p', hp'⟩ := ih p1 hall
    refine ⟨p', ?_⟩
    rw [List.flatMap_cons, scanReuse_append, hp1]
    simpa using hp'

/-- C8: in every run of the rendering loop, between a queue submission issued by
the loop and any later reset or recording of the command buffer or copy into the
uniform buffer, the loop issues a wait without timeout on exactly the fence that was
passed to that submission. -/
theorem render_loop_waits_before_reuse (ctx : VkContext) (MVP : Nat)
    (frames : List FrameInput) (w : World) (i j : Nat) (queue : Nat)
    (submits : List VkSubmitInfo) (fence : Nat) (t : Op)
    (hstart : w.trace.length ≤ i) (hij : i < j)
    (hsubmit : (render_loop ctx MVP frames w).trace[i]? =
      some (.vkQueueSubmit queue submits fence))
    (htouch : (render_loop ctx MVP frames w).trace[j]? = some t)
    (ht : t.touchesFrameResources ctx = true) :
    ∃ k op, i < k ∧ k < j ∧ (render_loop ctx MVP frames w).trace[k]? = some op ∧
      op.isUnboundedWaitOn fence = true := by
  rw [render_loop_trace] at hsubmit htouch ⊢
  rw [List.getElem?_append_right hstart] at hsubmit
  rw [List.getElem?_append_right (by omega)] at htouch
  obtain ⟨p', hp'⟩ := scanReuse_frames ctx MVP frames [] (by simp)
  obtain ⟨k, op, hk1, hk2, hop, hw⟩ :=
    (scanReuse_sound ctx _ [] p' hp').2 (i - w.trace.length) (j - w.trace.length) queue
      submits fence t (by omega) hsubmit htouch ht
  refine ⟨k + w.trace.length, op, by omega, by omega, ?_, hw⟩
  rw [List.getElem?_append_right (by omega)]
  simpa using hop

/-- C8 at a concrete run of two frames from an empty trace, the second of which
fails in every checked call: the submission of the first frame is operation 16, the
second frame's wait is operation 18 (and, issued again, 19), its fence reset is
operations 20 and 21, and its copy into the uniform buffer is operation 22; a wait
on fence 32 lies between the submission and the copy. -/
theorem render_loop_waits_before_reuse_witness :
    (render_loop exampleContext 5000 exampleFrames World.empty).trace[16]? =
        some (.vkQueueSubmit 5 [⟨[30], [1024], [9], [31]⟩] 32) ∧
      (render_loop exampleContext 5000 exampleFrames World.empty).trace[22]? =
        some (.vk_copy_to_buffer exampleContext.globalUBO 5000 64) ∧
      (render_loop exampleContext 5000 exampleFrames World.empty).trace[18]? =
        some (.vkWaitForFences 4 [32] 1 18446744073709551615) ∧
      ∃ k op, 16 < k ∧ k < 22 ∧
        (render_loop exampleContext 5000 exampleFrames World.empty).trace[k]? = some op ∧
        op.isUnboundedWaitOn 32 = true :=
  ⟨by decide, by decide, by decide,
    render_loop_waits_before_reuse exampleContext 5000 exampleFrames World.empty 16 22 5
      [⟨[30], [1024], [9], [31]⟩] 32 (.vk_copy_to_buffer exampleContext.globalUBO 5000 64)
      (by decide) (by decide) (by decide) (by decide) (by decide)⟩

/-! ## Control flow of the initialisation -/

@[simp] theorem Flow.andThen_next (c : VkContext) (w : World) (k : VkContext → World → Flow) :
    (Flow.next c w).andThen k = k c w := rfl

@[simp] theorem Flow.andThen_returned (v : Bool) (c : VkContext) (w : World)
    (k : VkContext → World → Flow) :
    (Flow.returned v c w).andThen k = .returned v c w := rfl

@[simp] theorem Flow.andThen_halted (c : VkContext) (w : World)
    (k : VkContext → World → Flow) :
    (Flow.halted c w).andThen k = .halted c w := rfl

/-- After a block that stops, the rest does not run. -/
theorem Flow.andThen_stops (f : Flow) (k : VkContext → World → Flow) (h : f.stops) :
    (f.andThen k).stops := by
  obtain ⟨hn, ht⟩ := h
  cases f with
  | next c w => simp [Flow.isNext] at hn
  | returned v c w => exact ⟨rfl, by simpa [Flow.returnedValue] using ht⟩
  | halted c w => exact ⟨rfl, by simp [Flow.returnedValue]⟩

theorem Flow.stops_returned_false (c : VkContext) (w : World) :
    (Flow.returned false c w).stops :=
  ⟨rfl, by simp [Flow.returnedValue]⟩

theorem Flow.stops_halted (c : VkContext) (w : World) : (Flow.halted c w).stops :=
  ⟨rfl, by simp [Flow.returnedValue]⟩


/-- A failed call under `VK_CHECK_FATAL` ends `init_vulkan`. -/
theorem VK_CHECK_FATAL_stops (op : Op) (r a : Int) (store : VkContext → VkContext)
    (ctx : VkContext) (w : World) (k : VkContext → World → Flow) (h : r ≠ VK_SUCCESS) :
    ((VK_CHECK_FATAL op r a store ctx w).andThen k).stops := by
  simp only [VK_CHECK_FATAL, h, ne_eq, not_false_eq_true, if_true, Flow.andThen_returned]
  exact Flow.stops_returned_false _ _

/-- A call under `VK_CHECK_FATAL` that succeeds is issued once, and its output is
stored. -/
theorem VK_CHECK_FATAL_ok (op : Op) (r a : Int) (store : VkContext → VkContext)
    (ctx : VkContext) (w : World) (h : r = VK_SUCCESS) :
    VK_CHECK_FATAL op r a store ctx w = .next (store ctx) (w.issue op) := by
  simp [VK_CHECK_FATAL, h]

/-- A call under `VK_CHECK_FATAL` that fails is issued twice; the result of the
second call is logged, and `init_vulkan` returns `false`. -/
theorem VK_CHECK_FATAL_fail (op : Op) (r a : Int) (store : VkContext → VkContext)
    (ctx : VkContext) (w : World) (h : r ≠ VK_SUCCESS) :
    VK_CHECK_FATAL op r a store ctx w =
      .returned false (if a = VK_SUCCESS then store ctx else ctx)
        (((w.issue op).issue op).log (.vulkanErrorCode a)) := by
  simp [VK_CHECK_FATAL, h]

@[simp] theorem World.issueAll_nil (w : World) : w.issueAll [] = w := rfl

@[simp] theorem World.issueAll_cons (w : World) (op : Op) (ops : List Op) :
    w.issueAll (op :: ops) = (w.issue op).issueAll ops := rfl

@[simp] theorem World.issueAll_trace (w : World) (ops : List Op) :
    (w.issueAll ops).trace = w.trace ++ ops := by
  induction ops generalizing w with
  | nil => simp
  | cons op rest ih => simp [ih]

theorem World.issueAll_append (w : World) (a b : List Op) :
    w.issueAll (a ++ b) = (w.issueAll a).issueAll b := by
  simp [World.issueAll, List.foldl_append]

/-! ## Device selection -/

/-- The loop over the families of one device, when every surface-support query
succeeds: it falls through, having selected the first eligible family if there is
one. -/
theorem choose_gpu_families_next (gpu : Nat) (qs : List QueueFamilyAnswer) :
    ∀ (j : Nat) (ctx : VkContext) (w : World),
      (∀ q ∈ qs, q.surfaceSupportResult = VK_SUCCESS) →
      ∃ w', choose_gpu_families gpu qs j ctx w =
        .next (match qs.findIdx? QueueFamilyAnswer.eligible j with
          | some k => { ctx with graphicsIdx := k, gpu := gpu }
          | none => ctx) w' := by
  induction qs with
  | nil => intro j ctx w _; exact ⟨w, rfl⟩
  | cons q rest ih =>
    intro j ctx w hok
    have hq : q.surfaceSupportResult = VK_SUCCESS := hok q (List.mem_cons_self _ _)
    have hrest : ∀ q' ∈ rest, q'.surfaceSupportResult = VK_SUCCESS :=
      fun q' h => hok q' (List.mem_cons_of_mem _ h)
    unfold choose_gpu_families
    rw [List.findIdx?_cons]
    by_cases hg : q.queueFlags &&& VK_QUEUE_GRAPHICS_BIT = 0
    · have he : q.eligible = false := by simp [QueueFamilyAnswer.eligible, hg]
      simp only [hg, ne_eq, not_true_eq_false, if_false, he, Bool.false_eq_true]
      exact ih (j + 1) ctx w hrest
    · by_cases hs : q.surfaceSupport = 0
      · have he : q.eligible = false := by simp [QueueFamilyAnswer.eligible, hs]
        simp only [hg, ne_eq, not_false_eq_true, if_true, VK_CHECK_FATAL_ok _ _ _ _ _ _ hq,
          Flow.andThen_next, id_eq, not_true_eq_false, if_false, hs, he, Bool.false_eq_true]
        exact ih (j + 1) ctx _ hrest
      · have he : q.eligible = true := by simp [QueueFamilyAnswer.eligible, hg, hs]
        simp only [hg, ne_eq, not_false_eq_true, if_true, VK_CHECK_FATAL_ok _ _ _ _ _ _ hq,
          Flow.andThen_next, id_eq, not_true_eq_false, if_false, hs, he]
        exact ⟨_, rfl⟩

/-- The loop over the devices, when every surface-support query succeeds: every
device with an eligible family replaces the selection made so far. -/
theorem choose_gpu_devices_next (ds : List PhysicalDeviceAnswer) :
    ∀ (ctx : VkContext) (w : World),
      (∀ d ∈ ds, ∀ q ∈ d.queueProps, q.surfaceSupportResult = VK_SUCCESS) →
      ∃ w', choose_gpu_devices ds ctx w = .next (ds.foldl selectDevice ctx) w' := by
  induction ds with
  | nil => intro ctx w _; exact ⟨w, rfl⟩
  | cons d rest ih =>
    intro ctx w hok
    obtain ⟨w1, h1⟩ := choose_gpu_families_next d.gpu d.queueProps 0 ctx
      ((w.issue (.vkGetPhysicalDeviceQueueFamilyProperties d.gpu true)).issue
        (.vkGetPhysicalDeviceQueueFamilyProperties d.gpu false))
      (hok d (List.mem_cons_self _ _))
    obtain ⟨w2, h2⟩ := ih (selectDevice ctx d) w1
      (fun e he => hok e (List.mem_cons_of_mem _ he))
    refine ⟨w2, ?_⟩
    unfold choose_gpu_devices
    simp only [h1, Flow.andThen_next]
    exact h2

/-- When every surface-support query succeeds, the device selected is the last
enumerated device that has an eligible family, with its first eligible family:
eligible devices enumerated before it do not keep the selection. -/
theorem choose_gpu_devices_last_eligible (pre post : List PhysicalDeviceAnswer)
    (d : PhysicalDeviceAnswer) (k : Nat) (ctx : VkContext) (w : World)
    (hok : ∀ e ∈ pre ++ d :: post, ∀ q ∈ e.queueProps, q.surfaceSupportResult = VK_SUCCESS)
    (hd : d.queueProps.findIdx? QueueFamilyAnswer.eligible = some k)
    (hpost : ∀ e ∈ post, e.queueProps.findIdx? QueueFamilyAnswer.eligible = none) :
    (choose_gpu_devices (pre ++ d :: post) ctx w).ctx.gpu = d.gpu ∧
      (choose_gpu_devices (pre ++ d :: post) ctx w).ctx.graphicsIdx = k := by
  obtain ⟨w', h⟩ := choose_gpu_devices_next (pre ++ d :: post) ctx w hok
  rw [h, List.foldl_append, List.foldl_cons]
  have hkeep : ∀ (l : List PhysicalDeviceAnswer) (c : VkContext),
      (∀ e ∈ l, e.queueProps.findIdx? QueueFamilyAnswer.eligible = none) →
      l.foldl selectDevice c = c := by
    intro l
    induction l with
    | nil => intro c _; rfl
    | cons e rest ih =>
      intro c hl
      rw [List.foldl_cons]
      have he : selectDevice c e = c := by
        simp [selectDevice, hl e (List.mem_cons_self _ _)]
      rw [he]
      exact ih c (fun e' h' => hl e' (List.mem_cons_of_mem _ h'))
  rw [hkeep post _ hpost]
  simp [Flow.ctx, selectDevice, hd]


/-- C10, the code at a failing input: with two eligible devices enumerated (100,
whose first eligible family is 1, then 200, whose first eligible family is 0), the
"Choose GPU" block falls through with device 200 and family 0 selected, not with
the first eligible device 100 and its family 1: the `break` leaves only the loop
over the families, and the loop over the devices goes on and overwrites the
selection. -/
theorem init_vulkan_choose_gpu_selects_later_device :
    (init_vulkan_choose_gpu exampleTwoGpus exampleContext World.empty).returnedValue = none ∧
      (init_vulkan_choose_gpu exampleTwoGpus exampleContext World.empty).ctx.gpu = 200 ∧
      (init_vulkan_choose_gpu exampleTwoGpus exampleContext World.empty).ctx.graphicsIdx = 0 ∧
      (init_vulkan_choose_gpu { exampleTwoGpus with gpus := exampleTwoGpus.gpus.take 1 }
        exampleContext World.empty).ctx.gpu = 100 ∧
      (init_vulkan_choose_gpu { exampleTwoGpus with gpus := exampleTwoGpus.gpus.take 1 }
        exampleContext World.empty).ctx.graphicsIdx = 1 := by
  decide


/-! ## Swapchain parameters -/

/-- What the loop over the surface formats leaves in the context. -/
theorem choose_surface_format_eq (formats : List VkSurfaceFormatKHR) (ctx : VkContext) :
    choose_surface_format formats ctx =
      match firstPreferredFormat formats with
      | some f => { ctx with surfaceFormat := f }
      | none => ctx := by
  induction formats with
  | nil => rfl
  | cons f rest ih =>
    unfold choose_surface_format firstPreferredFormat
    by_cases hf : f.format = VK_FORMAT_B8G8R8A8_SRGB
    · simp [hf]
    · simp only [hf, if_false, List.find?_cons, decide_False]
      exact ih

/-- C13, refuted as stated: for a surface without an upper bound (`maxImageCount`
0) and `minImageCount` 2 the requested image count is 2, which is neither
`min (2 + 1) 0` nor at most `maxImageCount`. -/
theorem imgCount_unbounded_counterexample :
    imgCount exampleCapsUnbounded = 2 ∧
      imgCount exampleCapsUnbounded ≠
        min (exampleCapsUnbounded.minImageCount + 1) exampleCapsUnbounded.maxImageCount ∧
      ¬ imgCount exampleCapsUnbounded ≤ exampleCapsUnbounded.maxImageCount := by
  decide

/-- C13, amended: for reported capabilities with `minImageCount ≤ maxImageCount`,
the image count requested for the swapchain is `minImageCount + 1` (as a 32-bit
unsigned sum) clamped to `maxImageCount`, it never exceeds `maxImageCount`, and when
the sum does not wrap it is `min (minImageCount + 1) maxImageCount`. -/
theorem imgCount_clamped (surfaceCaps : VkSurfaceCapabilitiesKHR)
    (hle : surfaceCaps.minImageCount ≤ surfaceCaps.maxImageCount) :
    imgCount surfaceCaps =
        min ((surfaceCaps.minImageCount + 1) % 2 ^ 32) surfaceCaps.maxImageCount ∧
      imgCount surfaceCaps ≤ surfaceCaps.maxImageCount ∧
      (surfaceCaps.minImageCount + 1 < 2 ^ 32 →
        imgCount surfaceCaps =
          min (surfaceCaps.minImageCount + 1) surfaceCaps.maxImageCount) := by
  have hmod : (surfaceCaps.minImageCount + 1) % 2 ^ 32 ≤ surfaceCaps.minImageCount + 1 :=
    Nat.mod_le _ _
  unfold imgCount
  simp only []
  by_cases hgt : (surfaceCaps.minImageCount + 1) % 2 ^ 32 > surfaceCaps.maxImageCount
  · simp only [hgt, if_true]
    have h1 : (surfaceCaps.minImageCount + 1) % 2 ^ 32 = surfaceCaps.minImageCount + 1 := by
      omega
    rw [h1]
    refine ⟨by omega, by omega, fun _ => by omega⟩
  · simp only [hgt, if_false]
    refine ⟨by omega, by omega, ?_⟩
    intro h32
    rw [Nat.mod_eq_of_lt h32] at hgt ⊢
    omega

/-- C13 (amended) at concrete capabilities: two to three images, three are
requested. -/
theorem imgCount_clamped_witness :
    exampleCaps.minImageCount ≤ exampleCaps.maxImageCount ∧ imgCount exampleCaps = 3 ∧
      (imgCount exampleCaps =
          min ((exampleCaps.minImageCount + 1) % 2 ^ 32) exampleCaps.maxImageCount ∧
        imgCount exampleCaps ≤ exampleCaps.maxImageCount ∧
        (exampleCaps.minImageCount + 1 < 2 ^ 32 →
          imgCount exampleCaps =
            min (exampleCaps.minImageCount + 1) exampleCaps.maxImageCount)) :=
  ⟨by decide, by decide, imgCount_clamped exampleCaps (by decide)⟩


/-! ## Cube data -/

/-- The index list, traversed three at a time. -/
theorem triangles_eq : triangles =
    [(0, 1, 2), (2, 1, 3), (4, 5, 0), (0, 5, 1), (2, 3, 6), (6, 3, 7), (4, 0, 6), (6, 0, 2),
     (1, 5, 3), (3, 5, 7), (5, 4, 7), (7, 4, 6)] := by decide

/-- The eight vertex positions, decoded from the vertex list. -/
theorem vertexPosition_table :
    vertexPosition 0 = (-1 / 2, 1 / 2, 1 / 2) ∧ vertexPosition 1 = (-1 / 2, -1 / 2, 1 / 2) ∧
    vertexPosition 2 = (1 / 2, 1 / 2, 1 / 2) ∧ vertexPosition 3 = (1 / 2, -1 / 2, 1 / 2) ∧
    vertexPosition 4 = (-1 / 2, 1 / 2, -1 / 2) ∧ vertexPosition 5 = (-1 / 2, -1 / 2, -1 / 2) ∧
    vertexPosition 6 = (1 / 2, 1 / 2, -1 / 2) ∧ vertexPosition 7 = (1 / 2, -1 / 2, -1 / 2) := by
  simp only [vertexPosition, floatsPerVertex, sizeof_VertexColor, sizeof_vec3, sizeof_float,
    vertices]
  norm_num

/-- C15: the cube data decodes by indexed traversal into exactly 12 triangles (36
indices, 48 floats, 8 vertices of 6 floats).  Every index is below 8; the 8
positions are corners `(±1/2, ±1/2, ±1/2)` and pairwise distinct; every triangle
names 3 distinct vertices that lie on a common face of the cube; and each of the 6
faces carries exactly 2 of the triangles. -/
theorem cube_decodes_into_twelve_triangles :
    indices.length = 36 ∧ vertices.length = 48 ∧ floatsPerVertex = 6 ∧
      vertices.length = 8 * floatsPerVertex ∧ triangles.length = 12 ∧
      indices.length = 3 * triangles.length ∧
      (∀ i ∈ indices, i < 8) ∧
      (∀ i, i < 8 →
        ((vertexPosition i).1 = 1 / 2 ∨ (vertexPosition i).1 = -1 / 2) ∧
        ((vertexPosition i).2.1 = 1 / 2 ∨ (vertexPosition i).2.1 = -1 / 2) ∧
        ((vertexPosition i).2.2 = 1 / 2 ∨ (vertexPosition i).2.2 = -1 / 2)) ∧
      (∀ i j, i < j → j < 8 → vertexPosition i ≠ vertexPosition j) ∧
      (∀ t ∈ triangles, t.1 ≠ t.2.1 ∧ t.2.1 ≠ t.2.2 ∧ t.1 ≠ t.2.2 ∧
        ∃ f ∈ cubeFaces, triangleOnFace f t = true) ∧
      cubeFaces.length = 6 ∧
      (∀ f ∈ cubeFaces, triangles.countP (triangleOnFace f) = 2) := by
  obtain ⟨h0, h1, h2, h3, h4, h5, h6, h7⟩ := vertexPosition_table
  refine ⟨by decide, by decide, by decide, by decide, by decide, by decide, by decide,
    ?_, ?_, ?_, by decide, ?_⟩
  · intro i hi
    interval_cases i <;> simp only [h0, h1, h2, h3, h4, h5, h6, h7] <;> norm_num
  · intro i j hij hj
    interval_cases j <;> interval_cases i <;>
    simp only [h0, h1, h2, h3, h4, h5, h6, h7] <;> norm_num
  · intro t ht
    simp only [triangles_eq, List.mem_cons, List.mem_singleton, List.not_mem_nil,
      or_false] at ht
    rcases ht with rfl | rfl | rfl | rfl | rfl | rfl | rfl | rfl | rfl | rfl | rfl | rfl <;>
    simp only [cubeFaces, List.mem_cons, List.mem_singleton, List.not_mem_nil, or_false,
      exists_eq_or_imp, exists_eq_left, triangleOnFace, onFace, coordinate,
      h0, h1, h2, h3, h4, h5, h6, h7] <;>
    norm_num
  · intro f hf
    simp only [cubeFaces, List.mem_cons, List.mem_singleton, List.not_mem_nil, or_false] at hf
    rcases hf with rfl | rfl | rfl | rfl | rfl | rfl <;>
    simp only [triangles_eq, List.countP_cons, List.countP_nil, triangleOnFace, onFace,
      coordinate, h0, h1, h2, h3, h4, h5, h6, h7] <;>
    norm_num

/-- C16: every triangle `(a, b, c)` of the index list has a non-zero normal
`(pos[b] - pos[a]) × (pos[c] - pos[a])`, in exact rational arithmetic, whose dot
product with the triangle's centroid is positive: the normal points away from the
centre of the cube, so every triangle is counter-clockwise seen from outside. -/
theorem cube_triangles_wind_outward :
    ∀ t ∈ triangles, normal t ≠ (0, 0, 0) ∧ 0 < dot (normal t) (centroid t) := by
  obtain ⟨h0, h1, h2, h3, h4, h5, h6, h7⟩ := vertexPosition_table
  intro t ht
  simp only [triangles_eq, List.mem_cons, List.mem_singleton, List.not_mem_nil, or_false] at ht
  rcases ht with rfl | rfl | rfl | rfl | rfl | rfl | rfl | rfl | rfl | rfl | rfl | rfl <;>
  simp only [normal, centroid, dot, cross, sub3, h0, h1, h2, h3, h4, h5, h6, h7] <;>
  norm_num

/-- C16 at the first triangle of the index list. -/
theorem cube_triangles_wind_outward_witness :
    (0, 1, 2) ∈ triangles ∧ normal (0, 1, 2) ≠ (0, 0, 0) ∧
      0 < dot (normal (0, 1, 2)) (centroid (0, 1, 2)) :=
  ⟨by decide, cube_triangles_wind_outward (0, 1, 2) (by decide)⟩


/-! ## Device selection, every outcome -/

/-- The loop over the families of one device when its queries succeed: it falls
through with the first eligible family selected, if there is one. -/
theorem choose_gpu_families_ok (gpu : Nat) (qs : List QueueFamilyAnswer) :
    ∀ (j : Nat) (ctx : VkContext) (w : World), familiesQueriesOk qs = true →
      choose_gpu_families gpu qs j ctx w =
        .next (match qs.findIdx? QueueFamilyAnswer.eligible j with
          | some k => { ctx with graphicsIdx := k, gpu := gpu }
          | none => ctx)
          (w.issueAll (choose_gpu_families_ops gpu ctx.surface qs j)) := by
  induction qs with
  | nil => intro j ctx w _; rfl
  | cons q rest ih =>
    intro j ctx w hok
    unfold familiesQueriesOk at hok
    unfold choose_gpu_families choose_gpu_families_ops
    rw [List.findIdx?_cons]
    by_cases hg : q.queueFlags &&& VK_QUEUE_GRAPHICS_BIT = 0
    · have he : q.eligible = false := by simp [QueueFamilyAnswer.eligible, hg]
      simp only [hg, ne_eq, not_true_eq_false, if_false] at hok
      simp only [hg, ne_eq, not_true_eq_false, if_false, he, Bool.false_eq_true]
      exact ih (j + 1) ctx w hok
    · simp only [hg, ne_eq, not_false_eq_true, if_true, Bool.and_eq_true, beq_iff_eq,
        Bool.or_eq_true, bne_iff_ne] at hok
      obtain ⟨hq, hrest⟩ := hok
      by_cases hs : q.surfaceSupport = 0
      · have he : q.eligible = false := by simp [QueueFamilyAnswer.eligible, hs]
        have hr : familiesQueriesOk rest = true := by
          rcases hrest with h | h
          · exact absurd hs h
          · exact h
        simp only [hg, ne_eq, not_false_eq_true, if_true, VK_CHECK_FATAL_ok _ _ _ _ _ _ hq,
          Flow.andThen_next, id_eq, not_true_eq_false, if_false,
          hs, he, Bool.false_eq_true, World.issueAll_cons]
        exact ih (j + 1) ctx _ hr
      · have he : q.eligible = true := by simp [QueueFamilyAnswer.eligible, hg, hs]
        simp only [hg, ne_eq, not_false_eq_true, if_true, VK_CHECK_FATAL_ok _ _ _ _ _ _ hq,
          Flow.andThen_next, id_eq, not_true_eq_false, if_false,
          hs, he, World.issueAll_cons, World.issueAll_nil]

/-- The loop over the families of one device when one of its queries fails:
`init_vulkan` returns `false`. -/
theorem choose_gpu_families_fail (gpu : Nat) (qs : List QueueFamilyAnswer) :
    ∀ (j : Nat) (ctx : VkContext) (w : World), familiesQueriesOk qs = false →
      (choose_gpu_families gpu qs j ctx w).isNext = false ∧
        (choose_gpu_families gpu qs j ctx w).returnedValue = some false := by
  induction qs with
  | nil => intro j ctx w h; simp [familiesQueriesOk] at h
  | cons q rest ih =>
    intro j ctx w hok
    unfold familiesQueriesOk at hok
    unfold choose_gpu_families
    by_cases hg : q.queueFlags &&& VK_QUEUE_GRAPHICS_BIT = 0
    · simp only [hg, ne_eq, not_true_eq_false, if_false] at hok
      simp only [hg, ne_eq, not_true_eq_false, if_false]
      exact ih (j + 1) ctx w hok
    · simp only [hg, ne_eq, not_false_eq_true, if_true] at hok
      simp only [hg, ne_eq, not_false_eq_true, if_true]
      by_cases hq : q.surfaceSupportResult = VK_SUCCESS
      · by_cases hs : q.surfaceSupport = 0
        · simp only [hq, hs, beq_self_eq_true, bne_self_eq_false, Bool.false_or,
            Bool.true_and] at hok
          simp only [VK_CHECK_FATAL_ok _ _ _ _ _ _ hq, Flow.andThen_next, id_eq, hs,
            not_true_eq_false, if_false]
          exact ih (j + 1) ctx _ hok
        · simp [hq, hs] at hok
      · simp [VK_CHECK_FATAL_fail _ _ _ _ _ _ hq, Flow.isNext, Flow.returnedValue]

/-- What the loop over the devices leaves in `graphicsIdx` and `gpu`, one device
further. -/
theorem selectedIdx_cons (d : PhysicalDeviceAnswer) (rest : List PhysicalDeviceAnswer)
    (idx : Int) :
    selectedIdx (d :: rest) idx =
      selectedIdx rest (match d.queueProps.findIdx? QueueFamilyAnswer.eligible with
        | some k => (k : Int)
        | none => idx) := rfl

theorem selectedGpu_cons (d : PhysicalDeviceAnswer) (rest : List PhysicalDeviceAnswer)
    (gpu : Nat) :
    selectedGpu (d :: rest) gpu =
      selectedGpu rest (match d.queueProps.findIdx? QueueFamilyAnswer.eligible with
        | some _ => d.gpu
        | none => gpu) := rfl

/-- The loop over the devices when all queries succeed. -/
theorem choose_gpu_devices_ok (ds : List PhysicalDeviceAnswer) :
    ∀ (ctx : VkContext) (w : World), (∀ d ∈ ds, familiesQueriesOk d.queueProps = true) →
      choose_gpu_devices ds ctx w =
        .next { ctx with graphicsIdx := selectedIdx ds ctx.graphicsIdx,
                         gpu := selectedGpu ds ctx.gpu }
          (w.issueAll (choose_gpu_devices_ops ctx.surface ds)) := by
  induction ds with
  | nil => intro ctx w _; rfl
  | cons d rest ih =>
    intro ctx w hok
    have hd := hok d (List.mem_cons_self _ _)
    have hrest : ∀ e ∈ rest, familiesQueriesOk e.queueProps = true :=
      fun e he => hok e (List.mem_cons_of_mem _ he)
    unfold choose_gpu_devices
    simp only [choose_gpu_families_ok d.gpu d.queueProps 0 _ _ hd, Flow.andThen_next]
    rw [ih _ _ hrest, selectedIdx_cons, selectedGpu_cons]
    cases hf : d.queueProps.findIdx? QueueFamilyAnswer.eligible <;>
    simp [choose_gpu_devices_ops, World.issueAll_append]

/-- The loop over the devices when a query fails: `init_vulkan` returns `false`. -/
theorem choose_gpu_devices_fail (ds : List PhysicalDeviceAnswer) :
    ∀ (ctx : VkContext) (w : World), (∃ d ∈ ds, familiesQueriesOk d.queueProps = false) →
      (choose_gpu_devices ds ctx w).isNext = false ∧
        (choose_gpu_devices ds ctx w).returnedValue = some false := by
  induction ds with
  | nil => intro ctx w h; obtain ⟨d, hd, _⟩ := h; cases hd
  | cons d rest ih =>
    intro ctx w hex
    unfold choose_gpu_devices
    by_cases hd : familiesQueriesOk d.queueProps = true
    · simp only [choose_gpu_families_ok d.gpu d.queueProps 0 _ _ hd, Flow.andThen_next]
      apply ih
      obtain ⟨e, he, hf⟩ := hex
      rcases List.mem_cons.mp he with rfl | he'
      · rw [hd] at hf; cases hf
      · exact ⟨e, he', hf⟩
    · have hd2 : familiesQueriesOk d.queueProps = false := by simpa using hd
      obtain ⟨h1, h2⟩ := choose_gpu_families_fail d.gpu d.queueProps 0 ctx
        ((w.issue (.vkGetPhysicalDeviceQueueFamilyProperties d.gpu true)).issue
          (.vkGetPhysicalDeviceQueueFamilyProperties d.gpu false)) hd2
      revert h1 h2
      simp only []
      cases choose_gpu_families d.gpu d.queueProps 0 ctx
        ((w.issue (.vkGetPhysicalDeviceQueueFamilyProperties d.gpu true)).issue
          (.vkGetPhysicalDeviceQueueFamilyProperties d.gpu false)) <;>
      simp [Flow.isNext, Flow.returnedValue, Flow.andThen]

/-- The family index left by the loop over the devices is negative exactly when it
was negative before and no device is eligible. -/
theorem selectedIdx_neg (gpus : List PhysicalDeviceAnswer) :
    ∀ idx : Int, selectedIdx gpus idx < 0 ↔ (idx < 0 ∧ hasEligible gpus = false) := by
  induction gpus with
  | nil => intro idx; simp [selectedIdx, hasEligible]
  | cons d rest ih =>
    intro idx
    rw [selectedIdx_cons, ih]
    have hany : hasEligible (d :: rest) =
        (d.queueProps.any QueueFamilyAnswer.eligible || hasEligible rest) := by
      simp [hasEligible]
    rw [hany]
    cases hf : d.queueProps.findIdx? QueueFamilyAnswer.eligible with
    | none =>
      have hd : d.queueProps.any QueueFamilyAnswer.eligible = false := by
        rw [List.findIdx?_eq_none_iff] at hf
        simpa using hf
      simp [hd]
    | some k =>
      have hd : d.queueProps.any QueueFamilyAnswer.eligible = true := by
        by_contra hc
        have hc2 : d.queueProps.any QueueFamilyAnswer.eligible = false := by simpa using hc
        have : d.queueProps.findIdx? QueueFamilyAnswer.eligible = none := by
          rw [List.findIdx?_eq_none_iff]
          simpa using hc2
        rw [this] at hf
        cases hf
      simp only [hd, Bool.true_or, Bool.true_eq_false, and_false, iff_false, not_and]
      intro hk
      omega
/-- The "Choose GPU" block when nothing fails. -/
theorem init_vulkan_choose_gpu_ok (drv : ChooseGpuAnswers) (ctx : VkContext) (w : World)
    (h1 : drv.enumerateCount = VK_SUCCESS) (h2 : drv.enumerateFill = VK_SUCCESS)
    (h3 : ∀ d ∈ drv.gpus, familiesQueriesOk d.queueProps = true)
    (h4 : hasEligible drv.gpus = true) :
    init_vulkan_choose_gpu drv ctx w =
      .next { ctx with graphicsIdx := selectedIdx drv.gpus (-1),
                       gpu := selectedGpu drv.gpus ctx.gpu }
        (((w.issue (.vkEnumeratePhysicalDevices ctx.instance_ true)).issue
          (.vkEnumeratePhysicalDevices ctx.instance_ false)).issueAll
          (choose_gpu_devices_ops ctx.surface drv.gpus)) := by
  have hsel : ¬ selectedIdx drv.gpus (-1) < 0 := by
    rw [selectedIdx_neg]
    simp [h4]
  unfold init_vulkan_choose_gpu
  simp only [VK_CHECK_FATAL_ok _ _ _ _ _ _ h1, VK_CHECK_FATAL_ok _ _ _ _ _ _ h2,
    Flow.andThen_next, id_eq]
  rw [choose_gpu_devices_ok _ _ _ h3]
  simp only [Flow.andThen_next, hsel, if_false]

/-- The "Choose GPU" block when every enumeration and every query succeeds but no
device is eligible: `init_vulkan` returns `false`, with `graphicsIdx` negative. -/
theorem init_vulkan_choose_gpu_none (drv : ChooseGpuAnswers) (ctx : VkContext) (w : World)
    (h1 : drv.enumerateCount = VK_SUCCESS) (h2 : drv.enumerateFill = VK_SUCCESS)
    (h3 : ∀ d ∈ drv.gpus, familiesQueriesOk d.queueProps = true)
    (h4 : hasEligible drv.gpus = false) :
    init_vulkan_choose_gpu drv ctx w =
      .returned false { ctx with graphicsIdx := selectedIdx drv.gpus (-1),
                                 gpu := selectedGpu drv.gpus ctx.gpu }
        (((w.issue (.vkEnumeratePhysicalDevices ctx.instance_ true)).issue
          (.vkEnumeratePhysicalDevices ctx.instance_ false)).issueAll
          (choose_gpu_devices_ops ctx.surface drv.gpus)) := by
  have hsel : selectedIdx drv.gpus (-1) < 0 := by
    rw [selectedIdx_neg]
    simp [h4]
  unfold init_vulkan_choose_gpu
  simp only [VK_CHECK_FATAL_ok _ _ _ _ _ _ h1, VK_CHECK_FATAL_ok _ _ _ _ _ _ h2,
    Flow.andThen_next, id_eq]
  rw [choose_gpu_devices_ok _ _ _ h3]
  simp only [Flow.andThen_next, hsel, if_true]

/-- The "Choose GPU" block never makes `init_vulkan` return `true`, and it falls
through only when nothing fails. -/
theorem init_vulkan_choose_gpu_stops (drv : ChooseGpuAnswers) (ctx : VkContext) (w : World)
    (h : ¬ (drv.enumerateCount = VK_SUCCESS ∧ drv.enumerateFill = VK_SUCCESS ∧
      (∀ d ∈ drv.gpus, familiesQueriesOk d.queueProps = true) ∧
      hasEligible drv.gpus = true)) :
    (init_vulkan_choose_gpu drv ctx w).isNext = false ∧
      (init_vulkan_choose_gpu drv ctx w).returnedValue = some false := by
  by_cases h1 : drv.enumerateCount = VK_SUCCESS
  · by_cases h2 : drv.enumerateFill = VK_SUCCESS
    · by_cases h3 : ∀ d ∈ drv.gpus, familiesQueriesOk d.queueProps = true
      · have h4 : hasEligible drv.gpus = false := by
          by_contra hc
          exact h ⟨h1, h2, h3, by simpa using hc⟩
        rw [init_vulkan_choose_gpu_none drv ctx w h1 h2 h3 h4]
        simp [Flow.isNext, Flow.returnedValue]
      · have hex : ∃ d ∈ drv.gpus, familiesQueriesOk d.queueProps = false := by
          push_neg at h3
          obtain ⟨d, hd, hf⟩ := h3
          exact ⟨d, hd, by simpa using hf⟩
        obtain ⟨ha, hb⟩ := choose_gpu_devices_fail drv.gpus { ctx with graphicsIdx := -1 }
          ((w.issue (.vkEnumeratePhysicalDevices ctx.instance_ true)).issue
            (.vkEnumeratePhysicalDevices ctx.instance_ false)) hex
        unfold init_vulkan_choose_gpu
        simp only [VK_CHECK_FATAL_ok _ _ _ _ _ _ h1, VK_CHECK_FATAL_ok _ _ _ _ _ _ h2,
          Flow.andThen_next, id_eq]
        revert ha hb
        cases choose_gpu_devices drv.gpus { ctx with graphicsIdx := -1 }
          ((w.issue (.vkEnumeratePhysicalDevices ctx.instance_ true)).issue
            (.vkEnumeratePhysicalDevices ctx.instance_ false)) <;>
        simp [Flow.isNext, Flow.returnedValue, Flow.andThen]
    · simp [init_vulkan_choose_gpu, VK_CHECK_FATAL_ok _ _ _ _ _ _ h1,
        VK_CHECK_FATAL_fail _ _ _ _ _ _ h2, Flow.isNext, Flow.returnedValue]
  · simp [init_vulkan_choose_gpu, VK_CHECK_FATAL_fail _ _ _ _ _ _ h1, Flow.isNext,
      Flow.returnedValue]


/-! ## The loops over the swapchain images -/

@[simp] theorem VkContext.withTail_tail (ctx : VkContext) : ctx.withTail ctx.tail = ctx := rfl

@[simp] theorem VkContext.tail_withTail (ctx : VkContext) (t : ContextTail) :
    (ctx.withTail t).tail = t := rfl

@[simp] theorem VkContext.withTail_withTail (ctx : VkContext) (t t' : ContextTail) :
    (ctx.withTail t).withTail t' = ctx.withTail t' := rfl

theorem VkContext.setSlot_eq (ctx : VkContext) (k v : Nat) :
    ctx.setSlot k v = ctx.withTail (ctx.tail.setSlot k v) := rfl

theorem VkContext.slot_eq (ctx : VkContext) (k : Nat) : ctx.slot k = ctx.tail.slot k := rfl

@[simp] theorem VkContext.withTail_device (ctx : VkContext) (t : ContextTail) :
    (ctx.withTail t).device = ctx.device := rfl

@[simp] theorem VkContext.withTail_surfaceFormat (ctx : VkContext) (t : ContextTail) :
    (ctx.withTail t).surfaceFormat = ctx.surfaceFormat := rfl

@[simp] theorem VkContext.withTail_renderPass (ctx : VkContext) (t : ContextTail) :
    (ctx.withTail t).renderPass = ctx.renderPass := rfl

@[simp] theorem VkContext.withTail_scImgCount (ctx : VkContext) (t : ContextTail) :
    (ctx.withTail t).scImgCount = ctx.scImgCount := rfl

@[simp] theorem readSlots_length (src base : Nat) (handle : Nat → Nat) (n : Nat) :
    ∀ (i : Nat) (t : ContextTail), (readSlots src base handle n i t).length = n := by
  induction n with
  | zero => intro i t; rfl
  | succ n ih => intro i t; simp [readSlots, ih]

/-- The loop creating the image views, when every creation succeeds: round `i`
reads slot `i` and stores the view to slot `5 + i`. -/
theorem create_image_views_ok (drv : InitAnswers) (n : Nat) :
    ∀ (i : Nat) (ctx : VkContext) (w : World),
      (∀ k, i ≤ k → k < i + n → drv.createImageView k = VK_SUCCESS) →
      create_image_views drv n i ctx w =
        .next (ctx.withTail (storeHandles 5 drv.imageViewHandle n i ctx.tail))
          (w.issueAll ((readSlots 0 5 drv.imageViewHandle n i ctx.tail).map
            (fun image => imageViewOp ctx.device image ctx.surfaceFormat.format))) := by
  induction n with
  | zero => intro i ctx w _; rfl
  | succ n ih =>
    intro i ctx w hok
    unfold create_image_views
    simp only [VK_CHECK_FATAL_ok _ _ _ _ _ _ (hok i (le_refl _) (by omega)), Flow.andThen_next]
    rw [ih (i + 1) _ _ (fun k h1 h2 => hok k (by omega) (by omega))]
    simp [storeHandles, readSlots, VkContext.setSlot_eq, VkContext.slot_eq]

/-- The loop creating the image views, when a creation fails. -/
theorem create_image_views_fail (drv : InitAnswers) (n : Nat) :
    ∀ (i : Nat) (ctx : VkContext) (w : World),
      (∃ k, i ≤ k ∧ k < i + n ∧ drv.createImageView k ≠ VK_SUCCESS) →
      (create_image_views drv n i ctx w).isNext = false ∧
        (create_image_views drv n i ctx w).returnedValue = some false := by
  induction n with
  | zero => intro i ctx w h; obtain ⟨k, h1, h2, _⟩ := h; omega
  | succ n ih =>
    intro i ctx w hex
    unfold create_image_views
    by_cases hi : drv.createImageView i = VK_SUCCESS
    · simp only [VK_CHECK_FATAL_ok _ _ _ _ _ _ hi, Flow.andThen_next]
      apply ih
      obtain ⟨k, h1, h2, h3⟩ := hex
      refine ⟨k, ?_, by omega, h3⟩
      by_contra hc
      have : k = i := by omega
      subst this
      exact h3 hi
    · simp [VK_CHECK_FATAL_fail _ _ _ _ _ _ hi, Flow.isNext, Flow.returnedValue]

/-- The loop creating the framebuffers, when every creation succeeds: round `i`
reads slot `5 + i` and stores the framebuffer to slot `10 + i`. -/
theorem create_framebuffers_ok (drv : InitAnswers) (n : Nat) :
    ∀ (i : Nat) (ctx : VkContext) (w : World),
      (∀ k, i ≤ k → k < i + n → drv.createFramebuffer k = VK_SUCCESS) →
      create_framebuffers drv n i ctx w =
        .next (ctx.withTail (storeHandles 10 drv.framebufferHandle n i ctx.tail))
          (w.issueAll ((readSlots 5 10 drv.framebufferHandle n i ctx.tail).map
            (framebufferOp ctx.device ctx.renderPass))) := by
  induction n with
  | zero => intro i ctx w _; rfl
  | succ n ih =>
    intro i ctx w hok
    unfold create_framebuffers
    simp only [VK_CHECK_FATAL_ok _ _ _ _ _ _ (hok i (le_refl _) (by omega)), Flow.andThen_next]
    rw [ih (i + 1) _ _ (fun k h1 h2 => hok k (by omega) (by omega))]
    simp [storeHandles, readSlots, VkContext.setSlot_eq, VkContext.slot_eq]

/-- The loop creating the framebuffers, when a creation fails. -/
theorem create_framebuffers_fail (drv : InitAnswers) (n : Nat) :
    ∀ (i : Nat) (ctx : VkContext) (w : World),
      (∃ k, i ≤ k ∧ k < i + n ∧ drv.createFramebuffer k ≠ VK_SUCCESS) →
      (create_framebuffers drv n i ctx w).isNext = false ∧
        (create_framebuffers drv n i ctx w).returnedValue = some false := by
  induction n with
  | zero => intro i ctx w h; obtain ⟨k, h1, h2, _⟩ := h; omega
  | succ n ih =>
    intro i ctx w hex
    unfold create_framebuffers
    by_cases hi : drv.createFramebuffer i = VK_SUCCESS
    · simp only [VK_CHECK_FATAL_ok _ _ _ _ _ _ hi, Flow.andThen_next]
      apply ih
      obtain ⟨k, h1, h2, h3⟩ := hex
      refine ⟨k, ?_, by omega, h3⟩
      by_contra hc
      have : k = i := by omega
      subst this
      exact h3 hi
    · simp [VK_CHECK_FATAL_fail _ _ _ _ _ _ hi, Flow.isNext, Flow.returnedValue]

/-! ## The blocks of `init_vulkan` -/

/-- A failed call under `VK_CHECK_FATAL` at the end of a block ends `init_vulkan`. -/
theorem VK_CHECK_FATAL_stops_last (op : Op) (r a : Int) (store : VkContext → VkContext)
    (ctx : VkContext) (w : World) (h : r ≠ VK_SUCCESS) :
    (VK_CHECK_FATAL op r a store ctx w).stops := by
  rw [VK_CHECK_FATAL_fail _ _ _ _ _ _ h]
  exact Flow.stops_returned_false _ _

theorem stops_of_returned_false (f : Flow) (h : f.isNext = false ∧ f.returnedValue = some false) :
    f.stops :=
  ⟨h.1, by rw [h.2]; simp⟩

theorem init_vulkan_compile_shaders_ok (drv : InitAnswers) (ctx : VkContext) (w : World)
    (h1 : drv.compileVert = 0) (h2 : drv.compileFrag = 0) :
    init_vulkan_compile_shaders drv ctx w =
      .next ctx
        ((w.issue (.init (.compile_shader "shaders_vulkan/modelViewProj.vert"
            "shaders_vulkan/modelViewProj.vert.spv"))).issue
          (.init (.compile_shader "shaders_vulkan/color.frag"
            "shaders_vulkan/color.frag.spv"))) := by
  simp [init_vulkan_compile_shaders, compile_shader, h1, h2]

theorem init_vulkan_compile_shaders_stops (drv : InitAnswers) (ctx : VkContext) (w : World)
    (h : ¬ (drv.compileVert = 0 ∧ drv.compileFrag = 0)) :
    (init_vulkan_compile_shaders drv ctx w).stops := by
  by_cases h1 : drv.compileVert = 0
  · have h2 : drv.compileFrag ≠ 0 := fun hc => h ⟨h1, hc⟩
    simp only [init_vulkan_compile_shaders, compile_shader, h1, h2, ne_eq, not_true_eq_false,
      if_false, Flow.andThen_next, not_false_eq_true, if_true]
    exact Flow.stops_halted _ _
  · simp only [init_vulkan_compile_shaders, compile_shader, h1, ne_eq, not_false_eq_true,
      if_true, Flow.andThen_halted]
    exact Flow.stops_halted _ _

theorem init_vulkan_instance_ok (drv : InitAnswers) (ctx : VkContext) (w : World)
    (h : drv.createInstance = VK_SUCCESS) :
    init_vulkan_instance drv ctx w =
      .next { ctx with instance_ := drv.instanceHandle }
        ((w.issue (.init .glfwGetRequiredInstanceExtensions)).issue
          (.init (.vkCreateInstance VK_API_VERSION_1_0 drv.glfwExtensions
            ["VK_LAYER_KHRONOS_validation"]))) := by
  simp [init_vulkan_instance, VK_CHECK_FATAL_ok _ _ _ _ _ _ h]

theorem init_vulkan_instance_stops (drv : InitAnswers) (ctx : VkContext) (w : World)
    (h : ¬ drv.createInstance = VK_SUCCESS) : (init_vulkan_instance drv ctx w).stops := by
  unfold init_vulkan_instance
  exact VK_CHECK_FATAL_stops_last _ _ _ _ _ _ h

theorem init_vulkan_surface_ok (drv : InitAnswers) (glfwWindow : Nat) (ctx : VkContext)
    (w : World) (h : drv.createWindowSurface = VK_SUCCESS) :
    init_vulkan_surface drv glfwWindow ctx w =
      .next { ctx with surface := drv.surfaceHandle }
        (w.issue (.init (.glfwCreateWindowSurface ctx.instance_ glfwWindow))) := by
  simp [init_vulkan_surface, h]

theorem init_vulkan_surface_stops (drv : InitAnswers) (glfwWindow : Nat) (ctx : VkContext)
    (w : World) (h : ¬ drv.createWindowSurface = VK_SUCCESS) :
    (init_vulkan_surface drv glfwWindow ctx w).stops := by
  simp only [init_vulkan_surface, h, ne_eq, not_false_eq_true, if_true]
  exact Flow.stops_returned_false _ _

theorem init_vulkan_device_ok (drv : InitAnswers) (ctx : VkContext) (w : World)
    (h : drv.createDevice = VK_SUCCESS) :
    init_vulkan_device drv ctx w =
      .next { ctx with device := drv.deviceHandle, graphicsQueue := drv.graphicsQueueHandle }
        ((w.issue (.init (.vkCreateDevice ctx.gpu ctx.graphicsIdx 1 [0x3F800000]
            ["VK_KHR_swapchain"]))).issue
          (.init (.vkGetDeviceQueue drv.deviceHandle ctx.graphicsIdx 0))) := by
  simp [init_vulkan_device, VK_CHECK_FATAL_ok _ _ _ _ _ _ h]

theorem init_vulkan_device_stops (drv : InitAnswers) (ctx : VkContext) (w : World)
    (h : ¬ drv.createDevice = VK_SUCCESS) : (init_vulkan_device drv ctx w).stops :=
  VK_CHECK_FATAL_stops _ _ _ _ _ _ _ h

/-- What the loop over the surface formats leaves in the context, as an update. -/
theorem choose_surface_format_update (formats : List VkSurfaceFormatKHR) (ctx : VkContext) :
    choose_surface_format formats ctx =
      { ctx with surfaceFormat := chosenFormat formats ctx.surfaceFormat } := by
  rw [choose_surface_format_eq, chosenFormat]
  cases firstPreferredFormat formats <;> rfl

/-- The "Swapchain" block when nothing fails. -/
theorem init_vulkan_swapchain_ok (drv : InitAnswers) (ctx : VkContext) (w : World)
    (h1 : drv.surfaceFormatsCount = VK_SUCCESS) (h2 : drv.surfaceFormatsFill = VK_SUCCESS)
    (h3 : drv.surfaceCapabilities = VK_SUCCESS) (h4 : drv.createSwapchain = VK_SUCCESS)
    (h5 : drv.swapchainImagesCount = VK_SUCCESS) (h6 : drv.swapchainImagesFill = VK_SUCCESS)
    (h7 : ∀ i, i < drv.swapchainImages.length → drv.createImageView i = VK_SUCCESS) :
    init_vulkan_swapchain drv ctx w =
      .next
        (({ ctx with
            surfaceFormat := chosenFormat drv.surfaceFormats ctx.surfaceFormat,
            swapchain := drv.swapchainHandle,
            scImgCount := drv.swapchainImages.length } : VkContext).withTail
          (storeHandles 5 drv.imageViewHandle drv.swapchainImages.length 0
            (ctx.tail.setSlots 0 drv.swapchainImages)))
        (((((((w.issue
            (.init (.vkGetPhysicalDeviceSurfaceFormatsKHR ctx.gpu ctx.surface true))).issue
            (.init (.vkGetPhysicalDeviceSurfaceFormatsKHR ctx.gpu ctx.surface false))).issue
            (.init (.vkGetPhysicalDeviceSurfaceCapabilitiesKHR ctx.gpu ctx.surface))).issue
            (.init (.vkCreateSwapchainKHR ctx.device
              { surface := ctx.surface, minImageCount := imgCount drv.surfaceCaps,
                imageFormat := (chosenFormat drv.surfaceFormats ctx.surfaceFormat).format,
                imageColorSpace := 0,
                imageExtentWidth := drv.surfaceCaps.currentExtentWidth,
                imageExtentHeight := drv.surfaceCaps.currentExtentHeight,
                imageArrayLayers := 1, imageUsage := VK_IMAGE_USAGE_COLOR_ATTACHMENT_BIT,
                preTransform := drv.surfaceCaps.currentTransform,
                compositeAlpha := VK_COMPOSITE_ALPHA_OPAQUE_BIT_KHR,
                presentMode := VK_PRESENT_MODE_FIFO_KHR }))).issue
            (.init (.vkGetSwapchainImagesKHR ctx.device drv.swapchainHandle true))).issue
            (.init (.vkGetSwapchainImagesKHR ctx.device drv.swapchainHandle false))).issueAll
          ((readSlots 0 5 drv.imageViewHandle drv.swapchainImages.length 0
              (ctx.tail.setSlots 0 drv.swapchainImages)).map
            (fun image => imageViewOp ctx.device image
              (chosenFormat drv.surfaceFormats ctx.surfaceFormat).format))) := by
  unfold init_vulkan_swapchain
  simp only [VK_CHECK_FATAL_ok _ _ _ _ _ _ h1, VK_CHECK_FATAL_ok _ _ _ _ _ _ h2,
    VK_CHECK_FATAL_ok _ _ _ _ _ _ h3, VK_CHECK_FATAL_ok _ _ _ _ _ _ h4,
    VK_CHECK_FATAL_ok _ _ _ _ _ _ h5, VK_CHECK_FATAL_ok _ _ _ _ _ _ h6,
    Flow.andThen_next, id_eq, choose_surface_format_update]
  rw [create_image_views_ok drv _ 0 _ _ (fun k _ hk => h7 k (by simpa using hk))]
  rfl

theorem init_vulkan_swapchain_stops (drv : InitAnswers) (ctx : VkContext) (w : World)
    (h : ¬ (drv.surfaceFormatsCount = VK_SUCCESS ∧ drv.surfaceFormatsFill = VK_SUCCESS ∧
      drv.surfaceCapabilities = VK_SUCCESS ∧ drv.createSwapchain = VK_SUCCESS ∧
      drv.swapchainImagesCount = VK_SUCCESS ∧ drv.swapchainImagesFill = VK_SUCCESS ∧
      ∀ i, i < drv.swapchainImages.length → drv.createImageView i = VK_SUCCESS)) :
    (init_vulkan_swapchain drv ctx w).stops := by
  unfold init_vulkan_swapchain
  by_cases h1 : drv.surfaceFormatsCount = VK_SUCCESS
  swap
  · exact VK_CHECK_FATAL_stops _ _ _ _ _ _ _ h1
  simp only [VK_CHECK_FATAL_ok _ _ _ _ _ _ h1, Flow.andThen_next]
  by_cases h2 : drv.surfaceFormatsFill = VK_SUCCESS
  swap
  · exact VK_CHECK_FATAL_stops _ _ _ _ _ _ _ h2
  simp only [VK_CHECK_FATAL_ok _ _ _ _ _ _ h2, Flow.andThen_next]
  by_cases h3 : drv.surfaceCapabilities = VK_SUCCESS
  swap
  · exact VK_CHECK_FATAL_stops _ _ _ _ _ _ _ h3
  simp only [VK_CHECK_FATAL_ok _ _ _ _ _ _ h3, Flow.andThen_next]
  by_cases h4 : drv.createSwapchain = VK_SUCCESS
  swap
  · exact VK_CHECK_FATAL_stops _ _ _ _ _ _ _ h4
  simp only [VK_CHECK_FATAL_ok _ _ _ _ _ _ h4, Flow.andThen_next]
  by_cases h5 : drv.swapchainImagesCount = VK_SUCCESS
  swap
  · exact VK_CHECK_FATAL_stops _ _ _ _ _ _ _ h5
  simp only [VK_CHECK_FATAL_ok _ _ _ _ _ _ h5, Flow.andThen_next]
  by_cases h6 : drv.swapchainImagesFill = VK_SUCCESS
  swap
  · exact VK_CHECK_FATAL_stops _ _ _ _ _ _ _ h6
  simp only [VK_CHECK_FATAL_ok _ _ _ _ _ _ h6, Flow.andThen_next]
  have h7 : ¬ ∀ i, i < drv.swapchainImages.length → drv.createImageView i = VK_SUCCESS :=
    fun hc => h ⟨h1, h2, h3, h4, h5, h6, hc⟩
  push_neg at h7
  obtain ⟨k, hk, hf⟩ := h7
  exact stops_of_returned_false _
    (create_image_views_fail drv _ 0 _ _ ⟨k, Nat.zero_le _, by simpa using hk, hf⟩)

theorem init_vulkan_render_pass_ok (drv : InitAnswers) (ctx : VkContext) (w : World)
    (h : drv.createRenderPass = VK_SUCCESS) :
    init_vulkan_render_pass drv ctx w =
      .next { ctx with renderPass := drv.renderPassHandle }
        (w.issue (.init (.vkCreateRenderPass ctx.device
          { attachments :=
              [{ format := ctx.surfaceFormat.format, samples := VK_SAMPLE_COUNT_1_BIT,
                 loadOp := VK_ATTACHMENT_LOAD_OP_CLEAR,
                 storeOp := VK_ATTACHMENT_STORE_OP_STORE,
                 initialLayout := VK_IMAGE_LAYOUT_UNDEFINED,
                 finalLayout := VK_IMAGE_LAYOUT_PRESENT_SRC_KHR }],
            subpassCount := 1,
            colorAttachments :=
              [{ attachment := 0, layout := VK_IMAGE_LAYOUT_COLOR_ATTACHMENT_OPTIMAL }] }))) := by
  simp [init_vulkan_render_pass, VK_CHECK_FATAL_ok _ _ _ _ _ _ h]

theorem init_vulkan_render_pass_stops (drv : InitAnswers) (ctx : VkContext) (w : World)
    (h : ¬ drv.createRenderPass = VK_SUCCESS) : (init_vulkan_render_pass drv ctx w).stops := by
  unfold init_vulkan_render_pass
  exact VK_CHECK_FATAL_stops_last _ _ _ _ _ _ h

theorem init_vulkan_framebuffers_ok (drv : InitAnswers) (ctx : VkContext) (w : World)
    (h : ∀ i, i < ctx.scImgCount → drv.createFramebuffer i = VK_SUCCESS) :
    init_vulkan_framebuffers drv ctx w =
      .next (ctx.withTail (storeHandles 10 drv.framebufferHandle ctx.scImgCount 0 ctx.tail))
        (w.issueAll ((readSlots 5 10 drv.framebufferHandle ctx.scImgCount 0 ctx.tail).map
          (framebufferOp ctx.device ctx.renderPass))) := by
  unfold init_vulkan_framebuffers
  rw [create_framebuffers_ok drv _ 0 _ _ (fun k _ hk => h k (by simpa using hk))]

theorem init_vulkan_framebuffers_stops (drv : InitAnswers) (ctx : VkContext) (w : World)
    (h : ¬ ∀ i, i < ctx.scImgCount → drv.createFramebuffer i = VK_SUCCESS) :
    (init_vulkan_framebuffers drv ctx w).stops := by
  push_neg at h
  obtain ⟨k, hk, hf⟩ := h
  exact stops_of_returned_false _
    (create_framebuffers_fail drv _ 0 _ _ ⟨k, Nat.zero_le _, by simpa using hk, hf⟩)

theorem init_vulkan_command_pool_ok (drv : InitAnswers) (ctx : VkContext) (w : World)
    (h : drv.createCommandPool = VK_SUCCESS) :
    init_vulkan_command_pool drv ctx w =
      .next { ctx with commandPool := drv.commandPoolHandle }
        (w.issue (.init (.vkCreateCommandPool ctx.device ctx.graphicsIdx
          VK_COMMAND_POOL_CREATE_RESET_COMMAND_BUFFER_BIT))) := by
  simp [init_vulkan_command_pool, VK_CHECK_FATAL_ok _ _ _ _ _ _ h]

theorem init_vulkan_command_pool_stops (drv : InitAnswers) (ctx : VkContext) (w : World)
    (h : ¬ drv.createCommandPool = VK_SUCCESS) : (init_vulkan_command_pool drv ctx w).stops := by
  unfold init_vulkan_command_pool
  exact VK_CHECK_FATAL_stops_last _ _ _ _ _ _ h

theorem init_vulkan_command_buffer_ok (drv : InitAnswers) (ctx : VkContext) (w : World)
    (h : drv.allocateCommandBuffers = VK_SUCCESS) :
    init_vulkan_command_buffer drv ctx w =
      .next { ctx with cmd := drv.cmdHandle }
        (w.issue (.init (.vkAllocateCommandBuffers ctx.device
          (cmd_alloc_info ctx.commandPool)))) := by
  simp [init_vulkan_command_buffer, VK_CHECK_FATAL_ok _ _ _ _ _ _ h]

theorem init_vulkan_command_buffer_stops (drv : InitAnswers) (ctx : VkContext) (w : World)
    (h : ¬ drv.allocateCommandBuffers = VK_SUCCESS) :
    (init_vulkan_command_buffer drv ctx w).stops := by
  unfold init_vulkan_command_buffer
  exact VK_CHECK_FATAL_stops_last _ _ _ _ _ _ h

theorem init_vulkan_sync_objects_ok (drv : InitAnswers) (ctx : VkContext) (w : World)
    (h1 : drv.createAquireSemaphore = VK_SUCCESS) (h2 : drv.createSubmitSemaphore = VK_SUCCESS)
    (h3 : drv.createFence = VK_SUCCESS) :
    init_vulkan_sync_objects drv ctx w =
      .next
        { ctx with aquireSemaphore := drv.aquireSemaphoreHandle,
                   submitSemaphore := drv.submitSemaphoreHandle,
                   imgAvailableFence := drv.fenceHandle }
        (((w.issue (.init (.vkCreateSemaphore ctx.device))).issue
          (.init (.vkCreateSemaphore ctx.device))).issue
          (.init (.vkCreateFence ctx.device (fence_info VK_FENCE_CREATE_SIGNALED_BIT)))) := by
  simp [init_vulkan_sync_objects, VK_CHECK_FATAL_ok _ _ _ _ _ _ h1, VK_CHECK_FATAL_ok _ _ _ _ _ _ h2,
    VK_CHECK_FATAL_ok _ _ _ _ _ _ h3]

theorem init_vulkan_sync_objects_stops (drv : InitAnswers) (ctx : VkContext) (w : World)
    (h : ¬ (drv.createAquireSemaphore = VK_SUCCESS ∧ drv.createSubmitSemaphore = VK_SUCCESS ∧
      drv.createFence = VK_SUCCESS)) :
    (init_vulkan_sync_objects drv ctx w).stops := by
  unfold init_vulkan_sync_objects
  by_cases h1 : drv.createAquireSemaphore = VK_SUCCESS
  swap
  · exact VK_CHECK_FATAL_stops _ _ _ _ _ _ _ h1
  simp only [VK_CHECK_FATAL_ok _ _ _ _ _ _ h1, Flow.andThen_next]
  by_cases h2 : drv.createSubmitSemaphore = VK_SUCCESS
  swap
  · exact VK_CHECK_FATAL_stops _ _ _ _ _ _ _ h2
  simp only [VK_CHECK_FATAL_ok _ _ _ _ _ _ h2, Flow.andThen_next]
  exact VK_CHECK_FATAL_stops_last _ _ _ _ _ _ (fun hc => h ⟨h1, h2, hc⟩)

theorem init_vulkan_set_layout_ok (drv : InitAnswers) (ctx : VkContext) (w : World)
    (h : drv.createDescriptorSetLayout = VK_SUCCESS) :
    init_vulkan_set_layout drv ctx w =
      .next { ctx with setLayout := drv.setLayoutHandle }
        (w.issue (.init (.vkCreateDescriptorSetLayout ctx.device
          [layout_binding VK_DESCRIPTOR_TYPE_UNIFORM_BUFFER VK_SHADER_STAGE_VERTEX_BIT 1 0,
           layout_binding VK_DESCRIPTOR_TYPE_STORAGE_BUFFER VK_SHADER_STAGE_VERTEX_BIT 1 1]))) := by
  simp [init_vulkan_set_layout, VK_CHECK_FATAL_ok _ _ _ _ _ _ h]

theorem init_vulkan_set_layout_stops (drv : InitAnswers) (ctx : VkContext) (w : World)
    (h : ¬ drv.createDescriptorSetLayout = VK_SUCCESS) :
    (init_vulkan_set_layout drv ctx w).stops := by
  unfold init_vulkan_set_layout
  exact VK_CHECK_FATAL_stops_last _ _ _ _ _ _ h

theorem init_vulkan_pipe_layout_ok (drv : InitAnswers) (ctx : VkContext) (w : World)
    (h : drv.createPipelineLayout = VK_SUCCESS) :
    init_vulkan_pipe_layout drv ctx w =
      .next { ctx with pipeLayout := drv.pipeLayoutHandle }
        (w.issue (.init (.vkCreatePipelineLayout ctx.device [ctx.setLayout]))) := by
  simp [init_vulkan_pipe_layout, VK_CHECK_FATAL_ok _ _ _ _ _ _ h]

theorem init_vulkan_pipe_layout_stops (drv : InitAnswers) (ctx : VkContext) (w : World)
    (h : ¬ drv.createPipelineLayout = VK_SUCCESS) :
    (init_vulkan_pipe_layout drv ctx w).stops := by
  unfold init_vulkan_pipe_layout
  exact VK_CHECK_FATAL_stops_last _ _ _ _ _ _ h

theorem read_file_ok (filename : String) (size : Option Nat) (ctx : VkContext) (w : World)
    (h : size ≠ none) :
    read_file filename size ctx w = .next ctx (w.issue (.init (.read_file filename))) := by
  cases size with
  | none => exact absurd rfl h
  | some n => rfl

theorem read_file_stops (filename : String) (ctx : VkContext) (w : World)
    (k : VkContext → World → Flow) :
    ((read_file filename none ctx w).andThen k).stops :=
  Flow.stops_halted _ _

theorem init_vulkan_pipeline_ok (drv : InitAnswers) (ctx : VkContext) (w : World)
    (h1 : drv.vertexCode ≠ none) (h2 : drv.createVertexShader = VK_SUCCESS)
    (h3 : drv.fragmentCode ≠ none) (h4 : drv.createFragmentShader = VK_SUCCESS)
    (h5 : drv.createGraphicsPipelines = VK_SUCCESS) :
    init_vulkan_pipeline drv ctx w =
      .next { ctx with pipeline := drv.pipelineHandle }
        (((((((w.issue (.init (.read_file "shaders_vulkan/modelViewProj.vert.spv"))).issue
          (.init (.vkCreateShaderModule ctx.device (drv.vertexCode.getD 0)))).issue
          (.init (.read_file "shaders_vulkan/color.frag.spv"))).issue
          (.init (.vkCreateShaderModule ctx.device (drv.fragmentCode.getD 0)))).issue
          (.init (.vkCreateGraphicsPipelines ctx.device
            [pipelineInfo ctx drv.vertexShaderHandle drv.fragmentShaderHandle]))).issue
          (.init (.vkDestroyShaderModule ctx.device drv.vertexShaderHandle))).issue
          (.init (.vkDestroyShaderModule ctx.device drv.fragmentShaderHandle))) := by
  simp [init_vulkan_pipeline, read_file_ok _ _ _ _ h1, read_file_ok _ _ _ _ h3,
    VK_CHECK_FATAL_ok _ _ _ _ _ _ h2, VK_CHECK_FATAL_ok _ _ _ _ _ _ h4, VK_CHECK_FATAL_ok _ _ _ _ _ _ h5]

theorem init_vulkan_pipeline_stops (drv : InitAnswers) (ctx : VkContext) (w : World)
    (h : ¬ (drv.vertexCode ≠ none ∧ drv.createVertexShader = VK_SUCCESS ∧
      drv.fragmentCode ≠ none ∧ drv.createFragmentShader = VK_SUCCESS ∧
      drv.createGraphicsPipelines = VK_SUCCESS)) :
    (init_vulkan_pipeline drv ctx w).stops := by
  unfold init_vulkan_pipeline
  by_cases h1 : drv.vertexCode = none
  · rw [h1]
    exact read_file_stops _ _ _ _
  simp only [read_file_ok _ _ _ _ h1, Flow.andThen_next]
  by_cases h2 : drv.createVertexShader = VK_SUCCESS
  swap
  · exact VK_CHECK_FATAL_stops _ _ _ _ _ _ _ h2
  simp only [VK_CHECK_FATAL_ok _ _ _ _ _ _ h2, Flow.andThen_next]
  by_cases h3 : drv.fragmentCode = none
  · rw [h3]
    exact read_file_stops _ _ _ _
  simp only [read_file_ok _ _ _ _ h3, Flow.andThen_next]
  by_cases h4 : drv.createFragmentShader = VK_SUCCESS
  swap
  · exact VK_CHECK_FATAL_stops _ _ _ _ _ _ _ h4
  simp only [VK_CHECK_FATAL_ok _ _ _ _ _ _ h4, Flow.andThen_next]
  exact VK_CHECK_FATAL_stops _ _ _ _ _ _ _ (fun hc => h ⟨h1, h2, h3, h4, hc⟩)

/-- The `Buffer` that `vk_allocate_buffer` returns does not depend on the world. -/

@[simp] theorem vk_copy_to_buffer_fst (buffer : Buffer) (data size : Nat) (w : World) :
    (vk_copy_to_buffer buffer data size w).1 = buffer := by
  unfold vk_copy_to_buffer
  split_ifs <;> rfl

theorem init_vulkan_global_ubo_eq (drv : InitAnswers) (MVP : Nat) (ctx : VkContext)
    (w : World) :
    init_vulkan_global_ubo drv MVP ctx w =
        .next
          { ctx with
            globalUBO :=
              allocatedBuffer sizeof_mat4
                (VK_MEMORY_PROPERTY_HOST_COHERENT_BIT ||| VK_MEMORY_PROPERTY_HOST_VISIBLE_BIT)
                drv.globalUBO }
          (vk_copy_to_buffer
            (allocatedBuffer sizeof_mat4
              (VK_MEMORY_PROPERTY_HOST_COHERENT_BIT ||| VK_MEMORY_PROPERTY_HOST_VISIBLE_BIT)
              drv.globalUBO)
            MVP sizeof_mat4
            (vk_allocate_buffer ctx.device ctx.gpu sizeof_mat4 VK_BUFFER_USAGE_UNIFORM_BUFFER_BIT
              (VK_MEMORY_PROPERTY_HOST_COHERENT_BIT ||| VK_MEMORY_PROPERTY_HOST_VISIBLE_BIT)
              drv.globalUBO w).2).2 := by
  unfold init_vulkan_global_ubo
  simp only [vk_copy_to_buffer_fst, vk_allocate_buffer_fst_eq]

theorem init_vulkan_desc_pool_ok (drv : InitAnswers) (ctx : VkContext) (w : World)
    (h : drv.createDescriptorPool = VK_SUCCESS) :
    init_vulkan_desc_pool drv ctx w =
      .next { ctx with descPool := drv.descPoolHandle }
        (w.issue (.init (.vkCreateDescriptorPool ctx.device 2
          [⟨VK_DESCRIPTOR_TYPE_UNIFORM_BUFFER, 1⟩,
           ⟨VK_DESCRIPTOR_TYPE_STORAGE_BUFFER, 1⟩]))) := by
  simp [init_vulkan_desc_pool, VK_CHECK_FATAL_ok _ _ _ _ _ _ h]

theorem init_vulkan_desc_pool_stops (drv : InitAnswers) (ctx : VkContext) (w : World)
    (h : ¬ drv.createDescriptorPool = VK_SUCCESS) : (init_vulkan_desc_pool drv ctx w).stops := by
  unfold init_vulkan_desc_pool
  exact VK_CHECK_FATAL_stops_last _ _ _ _ _ _ h

theorem init_vulkan_desc_set_ok (drv : InitAnswers) (ctx : VkContext) (w : World)
    (h : drv.allocateDescriptorSets = VK_SUCCESS) :
    init_vulkan_desc_set drv ctx w =
      .next { ctx with descSet := drv.descSetHandle }
        ((w.issue (.init (.vkAllocateDescriptorSets ctx.device ctx.descPool
            [ctx.setLayout]))).issue
          (.init (.vkUpdateDescriptorSets ctx.device
            [{ dstSet := drv.descSetHandle, dstBinding := 0, dstArrayElement := 0,
               descriptorCount := 1, descriptorType := VK_DESCRIPTOR_TYPE_UNIFORM_BUFFER,
               bufferInfo :=
                 [{ buffer := ctx.globalUBO.buffer, offset := 0, range := sizeof_mat4 }] }]))) := by
  simp [init_vulkan_desc_set, VK_CHECK_FATAL_ok _ _ _ _ _ _ h]

theorem init_vulkan_desc_set_stops (drv : InitAnswers) (ctx : VkContext) (w : World)
    (h : ¬ drv.allocateDescriptorSets = VK_SUCCESS) : (init_vulkan_desc_set drv ctx w).stops :=
  VK_CHECK_FATAL_stops _ _ _ _ _ _ _ h

theorem init_vulkan_vertex_buffer_eq (drv : InitAnswers) (host : HostData) (ctx : VkContext)
    (w : World) :
    init_vulkan_vertex_buffer drv host ctx w =
        .next
          { ctx with
            vertexBuffer :=
              allocatedBuffer ((sizeof_float * vertices.length) % 2 ^ 32)
                (VK_MEMORY_PROPERTY_HOST_VISIBLE_BIT ||| VK_MEMORY_PROPERTY_HOST_COHERENT_BIT)
                drv.vertexBuffer }
          (vk_copy_to_buffer
            (allocatedBuffer ((sizeof_float * vertices.length) % 2 ^ 32)
              (VK_MEMORY_PROPERTY_HOST_VISIBLE_BIT ||| VK_MEMORY_PROPERTY_HOST_COHERENT_BIT)
              drv.vertexBuffer)
            host.vertices_data ((sizeof_float * vertices.length) % 2 ^ 32)
            (vk_allocate_buffer ctx.device ctx.gpu ((sizeof_float * vertices.length) % 2 ^ 32)
              (VK_BUFFER_USAGE_UNIFORM_BUFFER_BIT ||| VK_BUFFER_USAGE_VERTEX_BUFFER_BIT)
              (VK_MEMORY_PROPERTY_HOST_VISIBLE_BIT ||| VK_MEMORY_PROPERTY_HOST_COHERENT_BIT)
              drv.vertexBuffer w).2).2 := by
  unfold init_vulkan_vertex_buffer
  simp only [vk_copy_to_buffer_fst, vk_allocate_buffer_fst_eq]

theorem init_vulkan_index_buffer_eq (drv : InitAnswers) (host : HostData) (ctx : VkContext)
    (w : World) :
    init_vulkan_index_buffer drv host ctx w =
        .next
          { ctx with
            indexBuffer :=
              allocatedBuffer ((sizeof_GLuint * indices.length) % 2 ^ 32)
                (VK_MEMORY_PROPERTY_HOST_VISIBLE_BIT ||| VK_MEMORY_PROPERTY_HOST_COHERENT_BIT)
                drv.indexBuffer }
          (vk_copy_to_buffer
            (allocatedBuffer ((sizeof_GLuint * indices.length) % 2 ^ 32)
              (VK_MEMORY_PROPERTY_HOST_VISIBLE_BIT ||| VK_MEMORY_PROPERTY_HOST_COHERENT_BIT)
              drv.indexBuffer)
            host.indices_data ((sizeof_GLuint * indices.length) % 2 ^ 32)
            (vk_allocate_buffer ctx.device ctx.gpu ((sizeof_GLuint * indices.length) % 2 ^ 32)
              (VK_BUFFER_USAGE_UNIFORM_BUFFER_BIT ||| VK_BUFFER_USAGE_INDEX_BUFFER_BIT)
              (VK_MEMORY_PROPERTY_HOST_VISIBLE_BIT ||| VK_MEMORY_PROPERTY_HOST_COHERENT_BIT)
              drv.indexBuffer w).2).2 := by
  unfold init_vulkan_index_buffer
  simp only [vk_copy_to_buffer_fst, vk_allocate_buffer_fst_eq]



/-! ## The whole of `init_vulkan` -/

@[simp] theorem World.issueAll_mem (w : World) (ops : List Op) : (w.issueAll ops).mem = w.mem := by
  induction ops generalizing w with
  | nil => rfl
  | cons op rest ih => simp [ih]

/-- The host memory after `vk_copy_to_buffer`. -/
@[simp] theorem vk_copy_to_buffer_mem (buffer : Buffer) (data size : Nat) (w : World) :
    (vk_copy_to_buffer buffer data size w).2.mem = uploadedMem buffer data size w.mem := by
  unfold vk_copy_to_buffer uploadedMem
  by_cases h1 : buffer.size ≥ size <;> by_cases h2 : buffer.data = 0 <;> simp [h1, h2]

/-- When nothing fails, `init_vulkan` returns `true`, leaves the context
`init_success_ctx`, has issued exactly the operations `init_success_ops` and has
changed the host memory by its three uploads. -/
theorem init_vulkan_success (drv : InitAnswers) (host : HostData) (ctx : VkContext)
    (w : World) (h : InitOk drv) :
    ∃ w', init_vulkan drv host ctx w = .returned true (init_success_ctx drv ctx) w' ∧
      w'.trace = w.trace ++ init_success_ops drv host ctx ∧
      w'.mem = init_success_mem drv host ctx w.mem := by
  unfold init_vulkan
  simp only [init_vulkan_compile_shaders_ok drv _ _ h.compileVert h.compileFrag,
    init_vulkan_instance_ok drv _ _ h.createInstance,
    init_vulkan_surface_ok drv _ _ _ h.createWindowSurface,
    init_vulkan_choose_gpu_ok drv.chooseGpu _ _ h.enumerateCount h.enumerateFill
      h.surfaceSupport h.eligible,
    init_vulkan_device_ok drv _ _ h.createDevice,
    init_vulkan_swapchain_ok drv _ _ h.surfaceFormatsCount h.surfaceFormatsFill
      h.surfaceCapabilities h.createSwapchain h.swapchainImagesCount h.swapchainImagesFill
      h.createImageView,
    init_vulkan_render_pass_ok drv _ _ h.createRenderPass, Flow.andThen_next]
  rw [init_vulkan_framebuffers_ok drv _ _ (by simpa using h.createFramebuffer)]
  simp only [init_vulkan_command_pool_ok drv _ _ h.createCommandPool,
    init_vulkan_command_buffer_ok drv _ _ h.allocateCommandBuffers,
    init_vulkan_sync_objects_ok drv _ _ h.createAquireSemaphore h.createSubmitSemaphore
      h.createFence,
    init_vulkan_set_layout_ok drv _ _ h.createDescriptorSetLayout,
    init_vulkan_pipe_layout_ok drv _ _ h.createPipelineLayout,
    init_vulkan_pipeline_ok drv _ _ h.vertexCode h.createVertexShader h.fragmentCode
      h.createFragmentShader h.createGraphicsPipelines,
    init_vulkan_global_ubo_eq, init_vulkan_desc_pool_ok drv _ _ h.createDescriptorPool,
    init_vulkan_desc_set_ok drv _ _ h.allocateDescriptorSets,
    init_vulkan_vertex_buffer_eq, init_vulkan_index_buffer_eq, Flow.andThen_next]
  refine ⟨_, rfl, ?_, ?_⟩
  · simp only [vk_copy_to_buffer_trace, vk_allocate_buffer_trace_eq, World.issueAll_trace,
      World.issue_trace, init_success_ops, init_success_ctx, pipelineInfo, List.append_assoc,
      List.singleton_append, List.cons_append, List.nil_append, VkContext.withTail,
      VkContext.tail, swapchainTail, viewsTail, framebuffersTail]
  · simp only [vk_copy_to_buffer_mem, vk_allocate_buffer_mem, World.issueAll_mem,
      World.issue_mem, init_success_mem, init_success_ctx, VkContext.withTail]


/-- Control falls through a block into the next one. -/
theorem Flow.andThen_eq_of_next (f : Flow) (k : VkContext → World → Flow) (c : VkContext)
    (w : World) (h : f = .next c w) : f.andThen k = k c w := by
  rw [h, Flow.andThen]


theorem init_vulkan_stops (drv : InitAnswers) (host : HostData) (ctx : VkContext)
    (w : World) (h : ¬ InitOk drv) : (init_vulkan drv host ctx w).stops := by
  unfold init_vulkan
  by_cases c1 : drv.compileVert = 0 ∧ drv.compileFrag = 0
  swap
  · exact Flow.andThen_stops _ _ (init_vulkan_compile_shaders_stops drv _ _ c1)
  rw [Flow.andThen_eq_of_next _ _ _ _ (init_vulkan_compile_shaders_ok drv _ _ c1.1 c1.2)]
  by_cases c2 : drv.createInstance = VK_SUCCESS
  swap
  · exact Flow.andThen_stops _ _ (init_vulkan_instance_stops drv _ _ c2)
  rw [Flow.andThen_eq_of_next _ _ _ _ (init_vulkan_instance_ok drv _ _ c2)]
  by_cases c3 : drv.createWindowSurface = VK_SUCCESS
  swap
  · exact Flow.andThen_stops _ _ (init_vulkan_surface_stops drv _ _ _ c3)
  rw [Flow.andThen_eq_of_next _ _ _ _ (init_vulkan_surface_ok drv _ _ _ c3)]
  by_cases c4 : drv.chooseGpu.enumerateCount = VK_SUCCESS ∧
      drv.chooseGpu.enumerateFill = VK_SUCCESS ∧
      (∀ d ∈ drv.chooseGpu.gpus, familiesQueriesOk d.queueProps = true) ∧
      hasEligible drv.chooseGpu.gpus = true
  swap
  · exact Flow.andThen_stops _ _
      (stops_of_returned_false _ (init_vulkan_choose_gpu_stops drv.chooseGpu _ _ c4))
  rw [Flow.andThen_eq_of_next _ _ _ _
    (init_vulkan_choose_gpu_ok drv.chooseGpu _ _ c4.1 c4.2.1 c4.2.2.1 c4.2.2.2)]
  by_cases c5 : drv.createDevice = VK_SUCCESS
  swap
  · exact Flow.andThen_stops _ _ (init_vulkan_device_stops drv _ _ c5)
  rw [Flow.andThen_eq_of_next _ _ _ _ (init_vulkan_device_ok drv _ _ c5)]
  by_cases c6 : drv.surfaceFormatsCount = VK_SUCCESS ∧ drv.surfaceFormatsFill = VK_SUCCESS ∧
      drv.surfaceCapabilities = VK_SUCCESS ∧ drv.createSwapchain = VK_SUCCESS ∧
      drv.swapchainImagesCount = VK_SUCCESS ∧ drv.swapchainImagesFill = VK_SUCCESS ∧
      ∀ i, i < drv.swapchainImages.length → drv.createImageView i = VK_SUCCESS
  swap
  · exact Flow.andThen_stops _ _ (init_vulkan_swapchain_stops drv _ _ c6)
  rw [Flow.andThen_eq_of_next _ _ _ _
    (init_vulkan_swapchain_ok drv _ _ c6.1 c6.2.1 c6.2.2.1 c6.2.2.2.1 c6.2.2.2.2.1
      c6.2.2.2.2.2.1 c6.2.2.2.2.2.2)]
  by_cases c7 : drv.createRenderPass = VK_SUCCESS
  swap
  · exact Flow.andThen_stops _ _ (init_vulkan_render_pass_stops drv _ _ c7)
  rw [Flow.andThen_eq_of_next _ _ _ _ (init_vulkan_render_pass_ok drv _ _ c7)]
  by_cases c8 : ∀ i, i < drv.swapchainImages.length → drv.createFramebuffer i = VK_SUCCESS
  swap
  · exact Flow.andThen_stops _ _ (init_vulkan_framebuffers_stops drv _ _ c8)
  rw [Flow.andThen_eq_of_next _ _ _ _ (init_vulkan_framebuffers_ok drv _ _ c8)]
  by_cases c9 : drv.createCommandPool = VK_SUCCESS
  swap
  · exact Flow.andThen_stops _ _ (init_vulkan_command_pool_stops drv _ _ c9)
  rw [Flow.andThen_eq_of_next _ _ _ _ (init_vulkan_command_pool_ok drv _ _ c9)]
  by_cases c10 : drv.allocateCommandBuffers = VK_SUCCESS
  swap
  · exact Flow.andThen_stops _ _ (init_vulkan_command_buffer_stops drv _ _ c10)
  rw [Flow.andThen_eq_of_next _ _ _ _ (init_vulkan_command_buffer_ok drv _ _ c10)]
  by_cases c11 : drv.createAquireSemaphore = VK_SUCCESS ∧
      drv.createSubmitSemaphore = VK_SUCCESS ∧ drv.createFence = VK_SUCCESS
  swap
  · exact Flow.andThen_stops _ _ (init_vulkan_sync_objects_stops drv _ _ c11)
  rw [Flow.andThen_eq_of_next _ _ _ _
    (init_vulkan_sync_objects_ok drv _ _ c11.1 c11.2.1 c11.2.2)]
  by_cases c12 : drv.createDescriptorSetLayout = VK_SUCCESS
  swap
  · exact Flow.andThen_stops _ _ (init_vulkan_set_layout_stops drv _ _ c12)
  rw [Flow.andThen_eq_of_next _ _ _ _ (init_vulkan_set_layout_ok drv _ _ c12)]
  by_cases c13 : drv.createPipelineLayout = VK_SUCCESS
  swap
  · exact Flow.andThen_stops _ _ (init_vulkan_pipe_layout_stops drv _ _ c13)
  rw [Flow.andThen_eq_of_next _ _ _ _ (init_vulkan_pipe_layout_ok drv _ _ c13)]
  by_cases c14 : drv.vertexCode ≠ none ∧ drv.createVertexShader = VK_SUCCESS ∧
      drv.fragmentCode ≠ none ∧ drv.createFragmentShader = VK_SUCCESS ∧
      drv.createGraphicsPipelines = VK_SUCCESS
  swap
  · exact Flow.andThen_stops _ _ (init_vulkan_pipeline_stops drv _ _ c14)
  rw [Flow.andThen_eq_of_next _ _ _ _
    (init_vulkan_pipeline_ok drv _ _ c14.1 c14.2.1 c14.2.2.1 c14.2.2.2.1 c14.2.2.2.2),
    Flow.andThen_eq_of_next _ _ _ _ (init_vulkan_global_ubo_eq _ _ _ _)]
  by_cases c15 : drv.createDescriptorPool = VK_SUCCESS
  swap
  · exact Flow.andThen_stops _ _ (init_vulkan_desc_pool_stops drv _ _ c15)
  rw [Flow.andThen_eq_of_next _ _ _ _ (init_vulkan_desc_pool_ok drv _ _ c15)]
  by_cases c16 : drv.allocateDescriptorSets = VK_SUCCESS
  swap
  · exact Flow.andThen_stops _ _ (init_vulkan_desc_set_stops drv _ _ c16)
  exact absurd
    { compileVert := c1.1, compileFrag := c1.2, createInstance := c2,
      createWindowSurface := c3, enumerateCount := c4.1, enumerateFill := c4.2.1,
      surfaceSupport := c4.2.2.1, eligible := c4.2.2.2, createDevice := c5,
      surfaceFormatsCount := c6.1, surfaceFormatsFill := c6.2.1,
      surfaceCapabilities := c6.2.2.1, createSwapchain := c6.2.2.2.1,
      swapchainImagesCount := c6.2.2.2.2.1, swapchainImagesFill := c6.2.2.2.2.2.1,
      createImageView := c6.2.2.2.2.2.2, createRenderPass := c7, createFramebuffer := c8,
      createCommandPool := c9, allocateCommandBuffers := c10,
      createAquireSemaphore := c11.1, createSubmitSemaphore := c11.2.1,
      createFence := c11.2.2, createDescriptorSetLayout := c12, createPipelineLayout := c13,
      vertexCode := c14.1, createVertexShader := c14.2.1, fragmentCode := c14.2.2.1,
      createFragmentShader := c14.2.2.2.1, createGraphicsPipelines := c14.2.2.2.2,
      createDescriptorPool := c15, allocateDescriptorSets := c16 } h

/-- The value `init_vulkan` returns is `true` exactly when nothing that it checks
fails. -/
theorem init_vulkan_returns_true_iff (drv : InitAnswers) (host : HostData) (ctx : VkContext)
    (w : World) : (init_vulkan drv host ctx w).returnedValue = some true ↔ InitOk drv := by
  constructor
  · intro hr
    by_contra hc
    exact (init_vulkan_stops drv host ctx w hc).2 hr
  · intro h
    obtain ⟨w', hw, _, _⟩ := init_vulkan_success drv host ctx w h
    rw [hw]
    rfl


/-! ## What every outcome of `init_vulkan` keeps -/

theorem World.prefix_issueAll (ops : List Op) (w : World) (more : List Op)
    (h : ops <+: w.trace) : ops <+: (w.issueAll more).trace := by
  rw [World.issueAll_trace]
  exact h.trans (List.prefix_append _ _)

theorem flatMap_eq_nil_of_forall {α : Type} (f : Op → List α) (l : List Op)
    (h : ∀ op ∈ l, f op = []) : l.flatMap f = [] := by
  induction l with
  | nil => rfl
  | cons op rest ih =>
    rw [List.flatMap_cons, h op (List.mem_cons_self _ _),
      ih (fun op' hop' => h op' (List.mem_cons_of_mem _ hop'))]
    rfl

theorem choose_gpu_families_ops_forall (P : Op → Prop) (gpu surface : Nat)
    (h : ∀ j, P (.vkGetPhysicalDeviceSurfaceSupportKHR gpu j surface)) :
    ∀ (families : List QueueFamilyAnswer) (j : Nat),
      ∀ op ∈ choose_gpu_families_ops gpu surface families j, P op
  | [], _ => by simp [choose_gpu_families_ops]
  | q :: rest, j => by
    have ih := choose_gpu_families_ops_forall P gpu surface h rest (j + 1)
    intro op hop
    unfold choose_gpu_families_ops at hop
    split_ifs at hop
    · simp only [List.mem_cons, List.mem_nil_iff, or_false] at hop
      rw [hop]
      exact h j
    · simp only [List.mem_cons] at hop
      rcases hop with hop | hop
      · rw [hop]
        exact h j
      · exact ih op hop
    · exact ih op hop

theorem choose_gpu_devices_ops_forall (P : Op → Prop) (surface : Nat)
    (h1 : ∀ gpu countOnly, P (.vkGetPhysicalDeviceQueueFamilyProperties gpu countOnly))
    (h2 : ∀ gpu j, P (.vkGetPhysicalDeviceSurfaceSupportKHR gpu j surface)) :
    ∀ (gpus : List PhysicalDeviceAnswer), ∀ op ∈ choose_gpu_devices_ops surface gpus, P op
  | [] => by simp [choose_gpu_devices_ops]
  | d :: rest => by
    have ih := choose_gpu_devices_ops_forall P surface h1 h2 rest
    intro op hop
    unfold choose_gpu_devices_ops at hop
    simp only [List.mem_append, List.mem_cons, List.mem_nil_iff, or_false] at hop
    rcases hop with ((hop | hop) | hop) | hop
    · rw [hop]
      exact h1 _ _
    · rw [hop]
      exact h1 _ _
    · exact choose_gpu_families_ops_forall P _ _ (h2 _) _ _ op hop
    · exact ih op hop

/-- A reading that ignores the calls of the device selection finds nothing among
them. -/
theorem choose_gpu_devices_ops_flatMap {α : Type} (f : Op → List α) (surface : Nat)
    (gpus : List PhysicalDeviceAnswer)
    (h1 : ∀ gpu countOnly, f (.vkGetPhysicalDeviceQueueFamilyProperties gpu countOnly) = [])
    (h2 : ∀ gpu j s, f (.vkGetPhysicalDeviceSurfaceSupportKHR gpu j s) = []) :
    (choose_gpu_devices_ops surface gpus).flatMap f = [] :=
  flatMap_eq_nil_of_forall f _
    (choose_gpu_devices_ops_forall (fun op => f op = []) surface h1 (fun g j => h2 g j surface)
      gpus)

/-- A reading that ignores the calls of `vk_allocate_buffer` finds nothing among
them. -/
theorem allocateOps_flatMap {α : Type} (f : Op → List α)
    (device gpu size bufferUsage memProps : Nat) (drv : AllocAnswers)
    (h1 : ∀ a b c, f (.vkCreateBuffer a b c) = [])
    (h2 : ∀ a b, f (.vkGetBufferMemoryRequirements a b) = [])
    (h3 : ∀ a, f (.vkGetPhysicalDeviceMemoryProperties a) = [])
    (h4 : ∀ a b c, f (.vkAllocateMemory a b c) = [])
    (h5 : ∀ a b c d e, f (.vkMapMemory a b c d e) = [])
    (h6 : ∀ a b c d, f (.vkBindBufferMemory a b c d) = []) :
    (allocateOps device gpu size bufferUsage memProps drv).flatMap f = [] := by
  unfold allocateOps checkedOps
  split_ifs <;> simp [h1, h2, h3, h4, h5, h6]

theorem flatMap_map_singleton {α β : Type} (g : β → Op) (f : Op → List α) (v : β → α)
    (h : ∀ i, f (g i) = [v i]) (l : List β) : (l.map g).flatMap f = l.map v := by
  induction l with
  | nil => rfl
  | cons i rest ih => simp [h, ih]

theorem flatMap_map_nil {α β : Type} (g : β → Op) (f : Op → List α)
    (h : ∀ i, f (g i) = []) (l : List β) : (l.map g).flatMap f = [] := by
  induction l with
  | nil => rfl
  | cons i rest ih => simp [h, ih]

/-- On a run on which nothing fails, `init_vulkan` returns `true`, leaves the
context `init_success_ctx` and has issued the operations `init_success_ops`. -/
theorem init_vulkan_of_ok (drv : InitAnswers) (host : HostData) (ctx : VkContext)
    (w : World) (h : InitOk drv) :
    (init_vulkan drv host ctx w).returnedValue = some true ∧
      (init_vulkan drv host ctx w).ctx = init_success_ctx drv ctx ∧
      (init_vulkan drv host ctx w).issued w = init_success_ops drv host ctx := by
  obtain ⟨w', hw, ht, _⟩ := init_vulkan_success drv host ctx w h
  rw [hw]
  exact ⟨rfl, rfl, by simp [Flow.issued, Flow.world, ht]⟩

/-- The example answers of a run on which nothing fails. -/
theorem exampleInitAnswers_ok : InitOk exampleInitAnswers := by
  constructor <;> decide

theorem exampleInitAnswers_returns_true :
    (init_vulkan exampleInitAnswers exampleHostData vkcontext_zero
      World.empty).returnedValue = some true :=
  (init_vulkan_returns_true_iff _ _ _ _).2 exampleInitAnswers_ok


/-! ## C12: the surface format -/

theorem init_success_ops_descriptorWrites (drv : InitAnswers) (host : HostData)
    (ctx : VkContext) :
    (init_success_ops drv host ctx).flatMap Op.descriptorWrites =
      [{ dstSet := (init_success_ctx drv ctx).descSet, dstBinding := 0, dstArrayElement := 0,
         descriptorCount := 1, descriptorType := VK_DESCRIPTOR_TYPE_UNIFORM_BUFFER,
         bufferInfo :=
           [{ buffer := (init_success_ctx drv ctx).globalUBO.buffer, offset := 0,
              range := sizeof_mat4 }] }] := by
  simp [init_success_ops, List.flatMap_append, List.flatMap_cons, Op.descriptorWrites,
    choose_gpu_devices_ops_flatMap Op.descriptorWrites _ _ (fun _ _ => rfl)
      (fun _ _ _ => rfl),
    allocateOps_flatMap Op.descriptorWrites _ _ _ _ _ _ (fun _ _ _ => rfl) (fun _ _ => rfl)
      (fun _ => rfl) (fun _ _ _ => rfl) (fun _ _ _ _ _ => rfl) (fun _ _ _ _ => rfl),
    flatMap_map_nil (fun image => imageViewOp (init_success_ctx drv ctx).device image
      (init_success_ctx drv ctx).surfaceFormat.format) Op.descriptorWrites (fun _ => rfl),
    flatMap_map_nil (framebufferOp _ _) Op.descriptorWrites (fun _ => rfl)]

theorem init_success_ops_layoutBindings (drv : InitAnswers) (host : HostData)
    (ctx : VkContext) :
    (init_success_ops drv host ctx).flatMap Op.layoutBindings =
      [layout_binding VK_DESCRIPTOR_TYPE_UNIFORM_BUFFER VK_SHADER_STAGE_VERTEX_BIT 1 0,
       layout_binding VK_DESCRIPTOR_TYPE_STORAGE_BUFFER VK_SHADER_STAGE_VERTEX_BIT 1 1] := by
  simp [init_success_ops, List.flatMap_append, List.flatMap_cons, Op.layoutBindings,
    choose_gpu_devices_ops_flatMap Op.layoutBindings _ _ (fun _ _ => rfl)
      (fun _ _ _ => rfl),
    allocateOps_flatMap Op.layoutBindings _ _ _ _ _ _ (fun _ _ _ => rfl) (fun _ _ => rfl)
      (fun _ => rfl) (fun _ _ _ => rfl) (fun _ _ _ _ _ => rfl) (fun _ _ _ _ => rfl),
    flatMap_map_nil (fun image => imageViewOp (init_success_ctx drv ctx).device image
      (init_success_ctx drv ctx).surfaceFormat.format) Op.layoutBindings (fun _ => rfl),
    flatMap_map_nil (framebufferOp _ _) Op.layoutBindings (fun _ => rfl)]

/-! ## C17: the descriptor write -/

/-- C17: on every run on which `init_vulkan` returns `true` it performs exactly one
descriptor write.  The write targets the allocated descriptor set (the handle the
driver delivered, held in `descSet`) at binding 0, array element 0, with type
uniform buffer and count 1, and references the handle of the global uniform buffer
at offset 0 with range `sizeof(mat4)` = 64 bytes, which is the declared size of that
buffer.  The layout declares binding 0 (uniform buffer) and binding 1 (storage
buffer), and no write targets binding 1. -/
theorem init_vulkan_descriptor_write (drv : InitAnswers) (host : HostData) (ctx : VkContext)
    (w : World) (h : (init_vulkan drv host ctx w).returnedValue = some true) :
    ((init_vulkan drv host ctx w).issued w).flatMap Op.descriptorWrites =
        [{ dstSet := (init_vulkan drv host ctx w).ctx.descSet, dstBinding := 0,
           dstArrayElement := 0, descriptorCount := 1,
           descriptorType := VK_DESCRIPTOR_TYPE_UNIFORM_BUFFER,
           bufferInfo :=
             [{ buffer := (init_vulkan drv host ctx w).ctx.globalUBO.buffer, offset := 0,
                range := 64 }] }] ∧
      (init_vulkan drv host ctx w).ctx.descSet = drv.descSetHandle ∧
      sizeof_mat4 = 64 ∧
      (init_vulkan drv host ctx w).ctx.globalUBO.size = 64 ∧
      (((init_vulkan drv host ctx w).issued w).flatMap Op.layoutBindings).map
          (fun b => (b.binding, b.descriptorType)) =
        [(0, VK_DESCRIPTOR_TYPE_UNIFORM_BUFFER), (1, VK_DESCRIPTOR_TYPE_STORAGE_BUFFER)] ∧
      ∀ write ∈ ((init_vulkan drv host ctx w).issued w).flatMap Op.descriptorWrites,
        write.dstBinding ≠ 1 := by
  obtain ⟨_, hc, hi⟩ :=
    init_vulkan_of_ok drv host ctx w ((init_vulkan_returns_true_iff drv host ctx w).1 h)
  rw [hc, hi, init_success_ops_descriptorWrites, init_success_ops_layoutBindings]
  refine ⟨rfl, rfl, rfl, rfl, rfl, ?_⟩
  intro write hwrite
  rw [List.mem_singleton] at hwrite
  rw [hwrite]
  exact Nat.zero_ne_one

/-- C17 at `exampleInitAnswers`: the one write puts buffer 20 at binding 0 of
descriptor set 12. -/
theorem init_vulkan_descriptor_write_witness :
    (init_vulkan exampleInitAnswers exampleHostData vkcontext_zero
        World.empty).returnedValue = some true ∧
      ((init_vulkan exampleInitAnswers exampleHostData vkcontext_zero World.empty).issued
        World.empty).flatMap Op.descriptorWrites =
          [{ dstSet := 12, dstBinding := 0, dstArrayElement := 0, descriptorCount := 1,
             descriptorType := VK_DESCRIPTOR_TYPE_UNIFORM_BUFFER,
             bufferInfo := [{ buffer := 20, offset := 0, range := 64 }] }] := by
  have hr := exampleInitAnswers_returns_true
  have h := init_vulkan_descriptor_write exampleInitAnswers exampleHostData vkcontext_zero
    World.empty hr
  have hb : (init_vulkan exampleInitAnswers exampleHostData vkcontext_zero
      World.empty).ctx.globalUBO.buffer = 20 := by decide
  have hs := h.2.1
  have hw := h.1
  rw [hb, hs] at hw
  exact ⟨hr, hw⟩

/-- An upload that fits the declared size of the buffer writes nothing to
`std::cerr`: it is not the "Buffer too small" branch. -/
theorem vk_copy_to_buffer_cerr_of_fits (buffer : Buffer) (data size : Nat) (w : World)
    (h : size ≤ buffer.size) : (vk_copy_to_buffer buffer data size w).2.cerr = w.cerr := by
  unfold vk_copy_to_buffer
  simp only [ge_iff_le, h, if_true]
  split_ifs <;> rfl


/-! ## C18: the draw reads only uploaded data -/

/-- A reading that ignores a call finds nothing in what `VK_CHECK` makes of it. -/
theorem checkedOps_flatMap_nil {α : Type} (f : Op → List α) (op : Op) (r : Int)
    (h : f op = []) : (checkedOps op r).flatMap f = [] := by
  unfold checkedOps
  split <;> simp [h]

/-- C19, evaluated at `exampleElevenGpus` and at `exampleInitAnswersSixImages`.
The driver reports eleven devices: the block examines all eleven of them, asks
about the family with index 10 and selects the eleventh device with the family
index 10.  The driver reports six swapchain images: `init_vulkan` returns `true`
with `scImgCount = 6` and creates six image views and six framebuffers, the sixth
of each from index 5 of a five-slot array, which is slot 0 of the array that follows
it in the context: `scImages[5]` is read where the first view (50) has been stored,
`scImgViews[5]` where the first framebuffer (60) has been stored, and the store to
`framebuffers[5]` lands on `graphicsIdx`, which becomes 65.  The loops run to the
counts the driver reports; nothing holds them to the slots of the arrays. -/
theorem choose_gpu_examines_eleventh_device :
    exampleElevenGpus.gpus.length = 11 ∧
      ((init_vulkan_choose_gpu exampleElevenGpus vkcontext_zero World.empty).issued
        World.empty).flatMap Op.examinedDevices =
          [101, 102, 103, 104, 105, 106, 107, 108, 109, 110, 111] ∧
      ((init_vulkan_choose_gpu exampleElevenGpus vkcontext_zero World.empty).issued
        World.empty).flatMap Op.examinedFamilies = [10] ∧
      (init_vulkan_choose_gpu exampleElevenGpus vkcontext_zero World.empty).isNext = true ∧
      (init_vulkan_choose_gpu exampleElevenGpus vkcontext_zero World.empty).ctx.gpu = 111 ∧
      (init_vulkan_choose_gpu exampleElevenGpus vkcontext_zero World.empty).ctx.graphicsIdx =
        10 ∧
      (init_vulkan exampleInitAnswersSixImages exampleHostData vkcontext_zero
        World.empty).returnedValue = some true ∧
      (init_vulkan exampleInitAnswersSixImages exampleHostData vkcontext_zero
        World.empty).ctx.scImgCount = 6 ∧
      ((init_vulkan exampleInitAnswersSixImages exampleHostData vkcontext_zero
        World.empty).issued World.empty).flatMap Op.viewedImages =
          [some 40, some 41, some 42, some 43, some 44, some 50] ∧
      ((init_vulkan exampleInitAnswersSixImages exampleHostData vkcontext_zero
        World.empty).issued World.empty).flatMap Op.framebufferAttachments =
          [[some 50], [some 51], [some 52], [some 53], [some 54], [some 60]] ∧
      (init_vulkan exampleInitAnswersSixImages exampleHostData vkcontext_zero
        World.empty).ctx.graphicsIdx = 65 := by
  decide

/-! ## C20: images, views and framebuffers -/

theorem init_success_ctx_scImgCount (drv : InitAnswers) (ctx : VkContext) :
    (init_success_ctx drv ctx).scImgCount = drv.swapchainImages.length := rfl

theorem init_success_ops_viewedImages (drv : InitAnswers) (host : HostData)
    (ctx : VkContext) :
    (init_success_ops drv host ctx).flatMap Op.viewedImages =
      readSlots 0 5 drv.imageViewHandle drv.swapchainImages.length 0
        (swapchainTail drv ctx) := by
  simp [init_success_ops, List.flatMap_append, List.flatMap_cons, Op.viewedImages,
    choose_gpu_devices_ops_flatMap Op.viewedImages _ _ (fun _ _ => rfl) (fun _ _ _ => rfl),
    allocateOps_flatMap Op.viewedImages _ _ _ _ _ _ (fun _ _ _ => rfl) (fun _ _ => rfl)
      (fun _ => rfl) (fun _ _ _ => rfl) (fun _ _ _ _ _ => rfl) (fun _ _ _ _ => rfl),
    flatMap_map_singleton (fun image => imageViewOp (init_success_ctx drv ctx).device image
      (init_success_ctx drv ctx).surfaceFormat.format) Op.viewedImages (fun image => image)
      (fun _ => rfl),
    flatMap_map_nil (framebufferOp _ _) Op.viewedImages (fun _ => rfl),
    init_success_ctx_scImgCount]

theorem init_success_ops_framebufferAttachments (drv : InitAnswers) (host : HostData)
    (ctx : VkContext) :
    (init_success_ops drv host ctx).flatMap Op.framebufferAttachments =
      (readSlots 5 10 drv.framebufferHandle drv.swapchainImages.length 0
        (viewsTail drv ctx)).map (fun view => [view]) := by
  simp [init_success_ops, List.flatMap_append, List.flatMap_cons, Op.framebufferAttachments,
    choose_gpu_devices_ops_flatMap Op.framebufferAttachments _ _ (fun _ _ => rfl)
      (fun _ _ _ => rfl),
    allocateOps_flatMap Op.framebufferAttachments _ _ _ _ _ _ (fun _ _ _ => rfl)
      (fun _ _ => rfl) (fun _ => rfl) (fun _ _ _ => rfl) (fun _ _ _ _ _ => rfl)
      (fun _ _ _ _ => rfl),
    flatMap_map_nil (fun image => imageViewOp (init_success_ctx drv ctx).device image
      (init_success_ctx drv ctx).surfaceFormat.format) Op.framebufferAttachments
      (fun _ => rfl),
    flatMap_map_singleton (framebufferOp _ _) Op.framebufferAttachments (fun view => [view])
      (fun _ => rfl),
    init_success_ctx_scImgCount]

theorem ContextTail.setSlot_wellFormed (t : ContextTail) (k v : Nat) (h : t.wellFormed) :
    (t.setSlot k v).wellFormed := by
  unfold ContextTail.setSlot
  split_ifs <;> simpa [ContextTail.wellFormed] using h

/-- A slot of one of the three arrays holds what was stored to it last. -/
theorem ContextTail.slot_setSlot_same (t : ContextTail) (k v : Nat) (h : t.wellFormed)
    (hk : k < 15) : (t.setSlot k v).slot k = some v := by
  obtain ⟨h1, h2, h3⟩ := h
  unfold ContextTail.setSlot ContextTail.slot
  by_cases c1 : k < 5
  · simp [c1, List.getElem?_set, h1]
  · by_cases c2 : k < 10
    · have : k - 5 < 5 := by omega
      simp [c1, c2, List.getElem?_set, h2, this]
    · have : k - 10 < 5 := by omega
      simp [c1, c2, hk, List.getElem?_set, h3, this]

/-- A store to one slot of the three arrays leaves their other slots as they were. -/
theorem ContextTail.slot_setSlot_ne (t : ContextTail) (j k v : Nat) (hne : j ≠ k)
    (hj : j < 15) (hk : k < 15) : (t.setSlot k v).slot j = t.slot j := by
  unfold ContextTail.setSlot ContextTail.slot
  by_cases c1 : k < 5
  · by_cases d1 : j < 5
    · simp [c1, d1, List.getElem?_set_ne (Ne.symm hne)]
    · simp [c1, d1]
  · by_cases c2 : k < 10
    · by_cases d1 : j < 5
      · simp [c1, c2, d1]
      · by_cases d2 : j < 10
        · have : k - 5 ≠ j - 5 := by omega
          simp [c1, c2, d1, d2, List.getElem?_set_ne this]
        · simp [c1, c2, d1, d2]
    · by_cases d1 : j < 5
      · simp [c1, c2, hk, d1]
      · by_cases d2 : j < 10
        · simp [c1, c2, hk, d1, d2]
        · have : k - 10 ≠ j - 10 := by omega
          simp [c1, c2, hk, d1, d2, hj, List.getElem?_set_ne this]

theorem ContextTail.setSlots_wellFormed (values : List Nat) :
    ∀ (k : Nat) (t : ContextTail), t.wellFormed → (t.setSlots k values).wellFormed := by
  induction values with
  | nil => intro k t h; exact h
  | cons v rest ih =>
    intro k t h
    exact ih (k + 1) _ (ContextTail.setSlot_wellFormed t k v h)

/-- The slots after the filling call, when the values fit the three arrays. -/
theorem ContextTail.slot_setSlots (values : List Nat) :
    ∀ (k x : Nat) (t : ContextTail), t.wellFormed → k + values.length ≤ 15 → x < 15 →
      (t.setSlots k values).slot x =
        if k ≤ x ∧ x < k + values.length then values[x - k]? else t.slot x := by
  induction values with
  | nil =>
    intro k x t _ _ _
    have : ¬ (k ≤ x ∧ x < k + ([] : List Nat).length) := by simp
    rw [if_neg this]
    rfl
  | cons v rest ih =>
    intro k x t hwf hfit hx
    have hlen : (v :: rest).length = rest.length + 1 := rfl
    rw [hlen] at hfit
    rw [ContextTail.setSlots, ih (k + 1) x _ (ContextTail.setSlot_wellFormed t k v hwf)
      (by omega) hx]
    by_cases c1 : k + 1 ≤ x ∧ x < k + 1 + rest.length
    · have c2 : k ≤ x ∧ x < k + (v :: rest).length := ⟨by omega, by rw [hlen]; omega⟩
      rw [if_pos c1, if_pos c2]
      have hxk : x - k = (x - (k + 1)) + 1 := by omega
      rw [hxk, List.getElem?_cons_succ]
    · rw [if_neg c1]
      by_cases c3 : x = k
      · subst c3
        have c2 : x ≤ x ∧ x < x + (v :: rest).length := ⟨le_refl _, by rw [hlen]; omega⟩
        rw [if_pos c2, ContextTail.slot_setSlot_same t x v hwf hx]
        simp
      · have c2 : ¬ (k ≤ x ∧ x < k + (v :: rest).length) := by
          rw [hlen]
          omega
        rw [if_neg c2, ContextTail.slot_setSlot_ne t x k v c3 hx (by omega)]

theorem storeHandles_wellFormed (base : Nat) (handle : Nat → Nat) (n : Nat) :
    ∀ (i : Nat) (t : ContextTail), t.wellFormed →
      (storeHandles base handle n i t).wellFormed := by
  induction n with
  | zero => intro i t h; exact h
  | succ n ih =>
    intro i t h
    exact ih (i + 1) _ (ContextTail.setSlot_wellFormed t _ _ h)

/-- The slots after a loop that stores `handle j` to slot `base + j`, when the loop
stays inside the three arrays. -/
theorem slot_storeHandles (base : Nat) (handle : Nat → Nat) (n : Nat) :
    ∀ (i x : Nat) (t : ContextTail), t.wellFormed → base + i + n ≤ 15 → x < 15 →
      (storeHandles base handle n i t).slot x =
        if base + i ≤ x ∧ x < base + i + n then some (handle (x - base)) else t.slot x := by
  induction n with
  | zero =>
    intro i x t _ _ _
    have : ¬ (base + i ≤ x ∧ x < base + i + 0) := by omega
    rw [if_neg this]
    rfl
  | succ n ih =>
    intro i x t hwf hfit hx
    rw [storeHandles, ih (i + 1) x _ (ContextTail.setSlot_wellFormed t _ _ hwf) (by omega) hx]
    by_cases c1 : base + (i + 1) ≤ x ∧ x < base + (i + 1) + n
    · have c2 : base + i ≤ x ∧ x < base + i + (n + 1) := by omega
      rw [if_pos c1, if_pos c2]
    · rw [if_neg c1]
      by_cases c3 : x = base + i
      · subst c3
        have c2 : base + i ≤ base + i ∧ base + i < base + i + (n + 1) := by omega
        rw [if_pos c2, ContextTail.slot_setSlot_same t _ _ hwf hx]
        simp
      · have c2 : ¬ (base + i ≤ x ∧ x < base + i + (n + 1)) := by omega
        rw [if_neg c2, ContextTail.slot_setSlot_ne t x _ _ c3 hx (by omega)]

/-- What a loop reads, when it stays inside the three arrays and no round reads a
slot that an earlier round has stored to: the slots as they were before the loop. -/
theorem readSlots_eq (src base : Nat) (handle : Nat → Nat) (n : Nat) :
    ∀ (i : Nat) (t : ContextTail), src + n ≤ base → base + i + n ≤ 15 →
      readSlots src base handle n i t = (List.range' i n).map (fun j => t.slot (src + j)) := by
  induction n with
  | zero => intro i t _ _; rfl
  | succ n ih =>
    intro i t hsrc hfit
    rw [readSlots, ih (i + 1) _ (by omega) (by omega), List.range'_succ, List.map_cons]
    congr 1
    apply List.map_congr_left
    intro j hj
    have hj2 := List.mem_range'_1.1 hj
    exact ContextTail.slot_setSlot_ne t _ _ _ (by omega) (by omega) (by omega)

theorem ContextTail.setSlot_graphicsIdx (t : ContextTail) (k v : Nat) (hk : k < 15) :
    (t.setSlot k v).graphicsIdx = t.graphicsIdx := by
  unfold ContextTail.setSlot
  split_ifs <;> rfl

theorem ContextTail.setSlots_graphicsIdx (values : List Nat) :
    ∀ (k : Nat) (t : ContextTail), k + values.length ≤ 15 →
      (t.setSlots k values).graphicsIdx = t.graphicsIdx := by
  induction values with
  | nil => intro k t _; rfl
  | cons v rest ih =>
    intro k t hfit
    have hlen : (v :: rest).length = rest.length + 1 := rfl
    rw [hlen] at hfit
    rw [ContextTail.setSlots, ih (k + 1) _ (by omega),
      ContextTail.setSlot_graphicsIdx t k v (by omega)]

theorem storeHandles_graphicsIdx (base : Nat) (handle : Nat → Nat) (n : Nat) :
    ∀ (i : Nat) (t : ContextTail), base + i + n ≤ 15 →
      (storeHandles base handle n i t).graphicsIdx = t.graphicsIdx := by
  induction n with
  | zero => intro i t _; rfl
  | succ n ih =>
    intro i t hfit
    rw [storeHandles, ih (i + 1) _ (by omega),
      ContextTail.setSlot_graphicsIdx t _ _ (by omega)]

theorem map_range'_eq_of_get {α : Type} (f g : Nat → α) (n : Nat)
    (h : ∀ k, k < n → f k = g k) : (List.range' 0 n).map f = (List.range n).map g := by
  rw [List.range_eq_range']
  apply List.map_congr_left
  intro k hk
  exact h k (by simpa using (List.mem_range'_1.1 hk).2)

theorem map_getElem?_range {α : Type} (l : List α) :
    (List.range l.length).map (fun i => l[i]?) = l.map some := by
  apply List.ext_getElem?
  intro i
  by_cases hi : i < l.length
  · simp [hi, List.getElem?_eq_getElem]
  · have hle : l.length ≤ i := Nat.le_of_not_lt hi
    rw [List.getElem?_map, List.getElem?_map, List.getElem?_eq_none hle,
      List.getElem?_eq_none (by simpa using hle)]
    rfl

/-- Up to five swapchain images the pairing is the intended one.  Let the driver
report at most five swapchain images, as many as the arrays `scImages`, `scImgViews`
and `framebuffers` hold, and let `init_vulkan` return `true`.  Then it has created
exactly one image view per swapchain image, the view of round `i` of swapchain image
`i`, and exactly one framebuffer per swapchain image, the framebuffer of round `i`
built from the view of round `i`; `graphicsIdx` is the selected family; slot `k` of
`scImages`, `scImgViews` and `framebuffers` holds swapchain image `k`, its view and its
framebuffer; and a frame that acquires an index `k < scImgCount` renders into the
framebuffer of image `k` and presents the index `k`. -/
theorem init_vulkan_pairs_up_to_five_images (drv : InitAnswers) (host : HostData)
    (ctx : VkContext) (w : World) (hctx : ctx.tail.wellFormed)
    (hfit : drv.swapchainImages.length ≤ 5)
    (h : (init_vulkan drv host ctx w).returnedValue = some true) :
    (init_vulkan drv host ctx w).ctx.scImgCount = drv.swapchainImages.length ∧
      ((init_vulkan drv host ctx w).issued w).flatMap Op.viewedImages =
        drv.swapchainImages.map some ∧
      ((init_vulkan drv host ctx w).issued w).flatMap Op.framebufferAttachments =
        (List.range drv.swapchainImages.length).map
          (fun i => [some (drv.imageViewHandle i)]) ∧
      (init_vulkan drv host ctx w).ctx.graphicsIdx = selectedIdx drv.chooseGpu.gpus (-1) ∧
      ∀ k, k < (init_vulkan drv host ctx w).ctx.scImgCount →
        (init_vulkan drv host ctx w).ctx.slot k = drv.swapchainImages[k]? ∧
        (init_vulkan drv host ctx w).ctx.slot (5 + k) = some (drv.imageViewHandle k) ∧
        (init_vulkan drv host ctx w).ctx.slot (10 + k) = some (drv.framebufferHandle k) ∧
        ∀ (MVP : Nat) (frame : FrameAnswers) (w2 : World), frame.imgIdx = k →
          ((render_scene_vulkan (init_vulkan drv host ctx w).ctx MVP frame
              w2).trace.drop w2.trace.length).flatMap Op.renderTargets =
            [some (drv.framebufferHandle k)] ∧
          ((render_scene_vulkan (init_vulkan drv host ctx w).ctx MVP frame
              w2).trace.drop w2.trace.length).flatMap Op.presentedIndices = [k] := by
  obtain ⟨_, hc, hi⟩ := init_vulkan_of_ok drv host ctx w
    ((init_vulkan_returns_true_iff drv host ctx w).1 h)
  have hwf0 : ({ ctx.tail with graphicsIdx := selectedIdx drv.chooseGpu.gpus (-1) } :
      ContextTail).wellFormed := hctx
  have hwf1 : (swapchainTail drv ctx).wellFormed :=
    ContextTail.setSlots_wellFormed _ _ _ hwf0
  have hwf2 : (viewsTail drv ctx).wellFormed := storeHandles_wellFormed _ _ _ _ _ hwf1
  have htail : (init_success_ctx drv ctx).tail = framebuffersTail drv ctx := rfl
  have himg : ∀ k, k < drv.swapchainImages.length →
      (swapchainTail drv ctx).slot k = drv.swapchainImages[k]? := by
    intro k hk
    unfold swapchainTail
    rw [ContextTail.slot_setSlots _ _ _ _ hwf0 (by omega) (by omega),
      if_pos ⟨Nat.zero_le _, by omega⟩]
    rfl
  have hview : ∀ k, k < drv.swapchainImages.length →
      (viewsTail drv ctx).slot (5 + k) = some (drv.imageViewHandle k) := by
    intro k hk
    unfold viewsTail
    rw [slot_storeHandles _ _ _ _ _ _ hwf1 (by omega) (by omega), if_pos (by omega)]
    simp
  have himg2 : ∀ k, k < drv.swapchainImages.length →
      (framebuffersTail drv ctx).slot k = drv.swapchainImages[k]? := by
    intro k hk
    unfold framebuffersTail
    rw [slot_storeHandles _ _ _ _ _ _ hwf2 (by omega) (by omega), if_neg (by omega)]
    unfold viewsTail
    rw [slot_storeHandles _ _ _ _ _ _ hwf1 (by omega) (by omega), if_neg (by omega)]
    exact himg k hk
  have hview2 : ∀ k, k < drv.swapchainImages.length →
      (framebuffersTail drv ctx).slot (5 + k) = some (drv.imageViewHandle k) := by
    intro k hk
    unfold framebuffersTail
    rw [slot_storeHandles _ _ _ _ _ _ hwf2 (by omega) (by omega), if_neg (by omega)]
    exact hview k hk
  have hfb : ∀ k, k < drv.swapchainImages.length →
      (framebuffersTail drv ctx).slot (10 + k) = some (drv.framebufferHandle k) := by
    intro k hk
    unfold framebuffersTail
    rw [slot_storeHandles _ _ _ _ _ _ hwf2 (by omega) (by omega), if_pos (by omega)]
    simp
  have hidx : (init_success_ctx drv ctx).graphicsIdx = selectedIdx drv.chooseGpu.gpus (-1) := by
    show (framebuffersTail drv ctx).graphicsIdx = _
    unfold framebuffersTail viewsTail swapchainTail
    rw [storeHandles_graphicsIdx _ _ _ _ _ (by omega),
      storeHandles_graphicsIdx _ _ _ _ _ (by omega),
      ContextTail.setSlots_graphicsIdx _ _ _ (by omega)]
  rw [hc, hi, init_success_ops_viewedImages, init_success_ops_framebufferAttachments]
  refine ⟨rfl, ?_, ?_, hidx, fun k hk => ⟨?_, ?_, ?_, ?_⟩⟩
  · rw [readSlots_eq _ _ _ _ _ _ (by omega) (by omega),
      map_range'_eq_of_get _ (fun i => drv.swapchainImages[i]?) _
        (fun k hk => by rw [Nat.zero_add]; exact himg k hk),
      map_getElem?_range]
  · rw [readSlots_eq _ _ _ _ _ _ (by omega) (by omega), List.map_map]
    exact map_range'_eq_of_get _ _ _ (fun k hk => by simp [hview k hk])
  · rw [VkContext.slot_eq, htail]
    exact himg2 k hk
  · rw [VkContext.slot_eq, htail]
    exact hview2 k hk
  · rw [VkContext.slot_eq, htail]
    exact hfb k hk
  · intro MVP frame w2 hframe
    have hk2 : (init_success_ctx drv ctx).slot (10 + k) = some (drv.framebufferHandle k) := by
      rw [VkContext.slot_eq, htail]
      exact hfb k hk
    rw [render_scene_vulkan_trace, List.drop_left]
    constructor
    · simp [frame_ops, List.flatMap_append, checkedOps_flatMap_nil, Op.renderTargets, hframe,
        hk2]
    · simp [frame_ops, List.flatMap_append, checkedOps_flatMap_nil, Op.presentedIndices,
        hframe]

/-- C20, the code at a failing input: the driver reports six swapchain images, 40
to 45, and delivers the view `50 + i` and the framebuffer `60 + i` in round `i`.
`init_vulkan` returns `true` with `scImgCount = 6`.  The sixth view is not made of
the sixth image 45 but of 50, the first view, which round 0 has stored where
`scImages[5]` lies; the sixth framebuffer is not built from the sixth view 55 but
from 60, the first framebuffer, which has been stored where `scImgViews[5]` lies.
The context is left with five images, five views and five framebuffers, and with
`graphicsIdx = 65`, where the store to `framebuffers[5]` has landed, so that the
command pool is created for queue family 65 instead of the selected family 0.  A
frame that acquires image 5 renders into what lies at `framebuffers[5]`. -/
theorem init_vulkan_six_images_pairs_wrongly :
    exampleInitAnswersSixImages.swapchainImages = [40, 41, 42, 43, 44, 45] ∧
      (init_vulkan exampleInitAnswersSixImages exampleHostData vkcontext_zero
        World.empty).returnedValue = some true ∧
      (init_vulkan exampleInitAnswersSixImages exampleHostData vkcontext_zero
        World.empty).ctx.scImgCount = 6 ∧
      ((init_vulkan exampleInitAnswersSixImages exampleHostData vkcontext_zero
        World.empty).issued World.empty).flatMap Op.viewedImages ≠
          exampleInitAnswersSixImages.swapchainImages.map some ∧
      (((init_vulkan exampleInitAnswersSixImages exampleHostData vkcontext_zero
        World.empty).issued World.empty).flatMap Op.viewedImages)[5]? = some (some 50) ∧
      (((init_vulkan exampleInitAnswersSixImages exampleHostData vkcontext_zero
        World.empty).issued World.empty).flatMap Op.framebufferAttachments)[5]? =
          some [some 60] ∧
      exampleInitAnswersSixImages.imageViewHandle 5 = 55 ∧
      (init_vulkan exampleInitAnswersSixImages exampleHostData vkcontext_zero
        World.empty).ctx.scImages = [40, 41, 42, 43, 44] ∧
      (init_vulkan exampleInitAnswersSixImages exampleHostData vkcontext_zero
        World.empty).ctx.scImgViews = [50, 51, 52, 53, 54] ∧
      (init_vulkan exampleInitAnswersSixImages exampleHostData vkcontext_zero
        World.empty).ctx.framebuffers = [60, 61, 62, 63, 64] ∧
      (init_vulkan exampleInitAnswersSixImages exampleHostData vkcontext_zero
        World.empty).ctx.graphicsIdx = 65 ∧
      ((init_vulkan exampleInitAnswersSixImages exampleHostData vkcontext_zero
        World.empty).issued World.empty).filter (fun op => op.name = "vkCreateCommandPool") =
          [.init (.vkCreateCommandPool 4 65 VK_COMMAND_POOL_CREATE_RESET_COMMAND_BUFFER_BIT)] ∧
      ((render_scene_vulkan
          (init_vulkan exampleInitAnswersSixImages exampleHostData vkcontext_zero
            World.empty).ctx
          exampleHostData.MVP (exampleFrameAnswers 5) World.empty).trace.drop
        World.empty.trace.length).flatMap Op.renderTargets = [some 65] := by
  decide

/-! ## C21: the frame fence -/

end VulkanCube
